import Mathlib

/-! # NXP PXP completion gate (lv_gpu_nxp_pxp_osa.c, lv_gpu_nxp_pxp.c, lv_draw_pxp_blend.c)

A shallow embedding of the busy/idle hand-shake between the code that starts a
PXP job, the completion interrupt handler, and the code that waits for the job.

Conventions of the embedding.

* `Variant` stands for the preprocessor switch `SDK_OS_FREE_RTOS`.
* The file-scope statics `s_pxpIdle` and `s_pxpIdleSem`, together with the
  completion bit of the PXP status register, form the record `Gate`.
* Every call that leaves the three source files (register-level driver,
  interrupt controller, FreeRTOS) is appended to `Gate.log` together with the
  value `s_pxpIdle` had when the call was issued.  Calls that only read
  (`pxp_get_status_flags`) are not logged.
* Interrupts are the environment: a `Bool` in a list of interrupts says
  whether the hardware raised `PXP_COMPLETE_FLAG` just before the handler ran.
  A function that can block takes the interrupts that arrive while the caller
  is blocked and returns `none` when the caller would stay blocked forever.
* The `void` functions of lv_gpu_nxp_pxp.c and lv_draw_pxp_blend.c are
  straight-line code whose control flow depends on their arguments only; each
  is embedded as the list of effects it performs, in order (`HookEff`,
  `BlitEff`), and `runHooks` runs such a list on the gate with the hooks of a
  configuration table.
* Helpers, macros and constants that come from headers outside the three
  files are the fields of `Toolkit`.
-/

namespace Pxp

/-- Build variant: `freertos` when `SDK_OS_FREE_RTOS` is defined, else `baremetal`. -/
inductive Variant where
  | freertos
  | baremetal
deriving DecidableEq, Repr

/-- The type `lv_res_t` with the two values used by the driver. -/
inductive lv_res_t where
  | LV_RES_INV
  | LV_RES_OK
deriving DecidableEq, Repr

/-! ### Types of the register-level driver and of the toolkit

The headers that declare them (imxrt_pxp.h, lv_area.h, lv_color.h,
lv_draw_img.h, lv_conf.h) are not among the sources; the records below have
the fields the sources write or read, with the names used there. -/

/-- The type `lv_area_t`. -/
structure lv_area_t where
  x1 : Int
  y1 : Int
  x2 : Int
  y2 : Int
deriving DecidableEq, Repr

/-- The type `lv_point_t`. -/
structure lv_point_t where
  x : Int
  y : Int
deriving DecidableEq, Repr

/-- The channel view (`ch`) of `lv_color_t`. -/
structure lv_color_t where
  red : Nat
  green : Nat
  blue : Nat
  alpha : Nat
deriving DecidableEq, Repr

/-- The fields of `lv_draw_img_dsc_t` that the PXP code reads. -/
structure lv_draw_img_dsc_t where
  angle : Int
  pivot : lv_point_t
  recolor : lv_color_t
  recolor_opa : Nat
  opa : Nat
deriving DecidableEq, Repr

/-- The values of `lv_disp_rot_t`; `other` is any value outside the enumeration. -/
inductive lv_disp_rot_t where
  | LV_DISP_ROT_NONE
  | LV_DISP_ROT_90
  | LV_DISP_ROT_180
  | LV_DISP_ROT_270
  | other (n : Nat)
deriving DecidableEq, Repr

inductive pxp_output_pixel_format_e where
  | PXP_OUTPUT_PIXEL_FORMAT_RGB565
  | PXP_OUTPUT_PIXEL_FORMAT_ARGB8888
deriving DecidableEq, Repr

inductive pxp_as_pixel_format_e where
  | PXP_AS_PIXEL_FORMAT_RGB565
  | PXP_AS_PIXEL_FORMAT_ARGB8888
deriving DecidableEq, Repr

inductive pxp_ps_pixel_format_e where
  | PXP_PS_PIXEL_FORMAT_RGB565
  | PXP_PS_PIXEL_FORMAT_ARGB8888
  | PXP_PS_PIXEL_FORMAT_RGB888
deriving DecidableEq, Repr

inductive pxp_interlaced_output_mode_e where
  | PXP_OUTPUT_PROGRESSIVE
deriving DecidableEq, Repr

inductive pxp_rotate_position_e where
  | PXP_ROTATE_OUTPUT_BUFFER
deriving DecidableEq, Repr

inductive pxp_rotate_degree_e where
  | PXP_ROTATE0
  | PXP_ROTATE90
  | PXP_ROTATE180
  | PXP_ROTATE270
deriving DecidableEq, Repr

inductive pxp_flip_mode_e where
  | PXP_FLIP_DISABLE
deriving DecidableEq, Repr

inductive pxp_alpha_mode_e where
  | PXP_ALPHA_EMBEDDED
  | PXP_ALPHA_OVERRIDE
  | PXP_ALPHA_MULTIPLY
  | PXP_ALPHA_ROP
deriving DecidableEq, Repr

inductive pxp_rop_mode_e where
  | PXP_ROP_MERGE_AS
deriving DecidableEq, Repr

inductive pxp_porter_duff_color_mode_e where
  | PXP_PORTER_DUFF_COLOR_NO_ALPHA
  | PXP_PORTER_DUFF_COLOR_WITH_ALPHA
deriving DecidableEq, Repr

inductive pxp_porter_duff_global_alpha_mode_e where
  | PXP_PORTER_DUFF_GLOBAL_ALPHA
  | PXP_PORTER_DUFF_LOCAL_ALPHA
deriving DecidableEq, Repr

inductive pxp_porter_duff_factor_mode_e where
  | PXP_PORTER_DUFF_FACTOR_STRAIGHT
  | PXP_PORTER_DUFF_FACTOR_INVERSED
deriving DecidableEq, Repr

inductive pxp_porter_duff_alpha_mode_e where
  | PXP_PORTER_DUFF_ALPHA_STRAIGHT
deriving DecidableEq, Repr

structure pxp_output_buffer_config_s where
  pixel_format : pxp_output_pixel_format_e
  interlaced_mode : pxp_interlaced_output_mode_e
  buffer0_addr : Int
  buffer1_addr : Int
  pitch_bytes : Int
  width : Int
  height : Int
deriving DecidableEq, Repr

structure pxp_as_buffer_config_s where
  pixel_format : pxp_as_pixel_format_e
  buffer_addr : Int
  pitch_bytes : Int
deriving DecidableEq, Repr

structure pxp_ps_buffer_config_s where
  pixel_format : pxp_ps_pixel_format_e
  swap_byte : Bool
  buffer_addr : Int
  buffer_addr_u : Int
  buffer_addr_v : Int
  pitch_bytes : Int
deriving DecidableEq, Repr

structure pxp_as_blend_config_s where
  alpha : Nat
  invert_alpha : Bool
  alpha_mode : pxp_alpha_mode_e
  rop_mode : pxp_rop_mode_e
deriving DecidableEq, Repr

structure pxp_porter_duff_config_s where
  enable : Nat
  dst_color_mode : pxp_porter_duff_color_mode_e
  src_color_mode : pxp_porter_duff_color_mode_e
  dst_global_alpha_mode : pxp_porter_duff_global_alpha_mode_e
  src_global_alpha_mode : pxp_porter_duff_global_alpha_mode_e
  dst_factor_mode : pxp_porter_duff_factor_mode_e
  src_factor_mode : pxp_porter_duff_factor_mode_e
  dst_global_alpha : Nat
  src_global_alpha : Nat
  dst_alpha_mode : pxp_porter_duff_alpha_mode_e
  src_alpha_mode : pxp_porter_duff_alpha_mode_e
deriving DecidableEq, Repr

/-- Configuration passed to `pxp_start_picture_copy`. -/
structure pxp_pic_copy_config_s where
  src_pic_base_addr : Int
  src_pitch_bytes : Int
  src_offset_x : Int
  src_offset_y : Int
  dest_pic_base_addr : Int
  dest_pitch_bytes : Int
  dest_offset_x : Int
  dest_offset_y : Int
  width : Int
  height : Int
  pixel_format : pxp_as_pixel_format_e
deriving DecidableEq, Repr

/-- Calls that leave the driver sources and change something. The arguments
are the values of the argument expressions (for a pointer to a configuration,
the configuration), before any conversion to the parameter types. -/
inductive Call where
  | pxp_clear_status_flags
  | xSemaphoreGiveFromISR
  | portYIELD_FROM_ISR
  | xSemaphoreCreateBinary
  | NVIC_SetPriority
  | irq_attach
  | up_enable_irq
  | up_disable_irq
  | vSemaphoreDelete
  | pxp_enable_interrupts
  | pxp_disable_interrupts
  | pxp_start
  | xSemaphoreTake
  | pxp_init
  | pxp_reset_control
  | pxp_enable_csc1 (enable : Bool)
  | pxp_set_process_block_size (size : Nat)
  | pxp_start_picture_copy (cfg : pxp_pic_copy_config_s)
  | pxp_set_output_buffer_config (cfg : pxp_output_buffer_config_s)
  | pxp_set_alpha_surface_buffer_config (cfg : pxp_as_buffer_config_s)
  | pxp_set_alpha_surface_position (x1 y1 x2 y2 : Int)
  | pxp_set_alpha_surface_blend_config (cfg : pxp_as_blend_config_s)
  | pxp_set_alpha_surface_overlay_color_key (low high : Nat)
  | pxp_enable_alpha_surface_overlay_color_key (enable : Bool)
  | pxp_set_process_surface_buffer_config (cfg : pxp_ps_buffer_config_s)
  | pxp_set_process_surface_position (x1 y1 x2 y2 : Int)
  | pxp_set_process_surface_back_ground_color (color : Nat)
  | pxp_set_porter_duff_config (cfg : pxp_porter_duff_config_s)
  | pxp_set_rotate_config (position : pxp_rotate_position_e) (degree : pxp_rotate_degree_e)
      (flip : pxp_flip_mode_e)
  | lv_mem_buf_get (size : Int)
deriving DecidableEq, Repr

/-- The shared state of lv_gpu_nxp_pxp_osa.c and the part of the hardware it reads. -/
structure Gate where
  /-- `static volatile bool s_pxpIdle` -/
  s_pxpIdle : Bool
  /-- `s_pxpIdleSem != NULL` -/
  semCreated : Bool
  /-- tokens held by the binary semaphore `s_pxpIdleSem` -/
  semCount : Nat
  /-- `PXP_COMPLETE_FLAG` in the PXP status register -/
  completeFlag : Bool
  /-- external calls issued so far, each with `s_pxpIdle` at the time of the call -/
  log : List (Call × Bool)
deriving DecidableEq, Repr

/-- State at program start: statics are zero-initialised, nothing was called. -/
def Gate.boot : Gate :=
  { s_pxpIdle := false, semCreated := false, semCount := 0, completeFlag := false, log := [] }

/-- Record an external call. -/
def call (c : Call) (g : Gate) : Gate :=
  { g with log := g.log ++ [(c, g.s_pxpIdle)] }

/-- Hardware raises `PXP_COMPLETE_FLAG` (a job has finished). -/
def hw_raise_complete (g : Gate) : Gate :=
  { g with completeFlag := true }

/-- The call `pxp_clear_status_flags(PXP_COMPLETE_FLAG)`. -/
def pxp_clear_status_flags (g : Gate) : Gate :=
  call .pxp_clear_status_flags { g with completeFlag := false }

/-- The call `xSemaphoreGiveFromISR(s_pxpIdleSem, &taskAwake)` on a binary semaphore: the
token is stored when the semaphore is empty, a give on a full semaphore fails
and leaves it full. -/
def xSemaphoreGiveFromISR (g : Gate) : Gate :=
  call .xSemaphoreGiveFromISR
    { g with semCount := if g.semCount < 1 then g.semCount + 1 else g.semCount }

/-- The interrupt handler `imxrt_pxp_interrupt` of lv_gpu_nxp_pxp_osa.c. -/
def imxrt_pxp_interrupt (v : Variant) (g : Gate) : Int × Gate :=
  if g.completeFlag then
    let g1 := pxp_clear_status_flags g
    match v with
    | .freertos => (0, call .portYIELD_FROM_ISR (xSemaphoreGiveFromISR g1))
    | .baremetal => (0, { g1 with s_pxpIdle := true })
  else
    (0, g)

/-- One interrupt: the hardware raises the completion flag when `c` holds, then
the handler runs. -/
def deliver (v : Variant) (c : Bool) (g : Gate) : Gate :=
  (imxrt_pxp_interrupt v (if c then hw_raise_complete g else g)).2

/-- A list of interrupts, in order. -/
def deliverAll (v : Variant) : List Bool → Gate → Gate
  | [], g => g
  | c :: cs, g => deliverAll v cs (deliver v c g)

/-- The call `xSemaphoreCreateBinary()`: the new semaphore is empty; `created = false` is
allocation failure (`NULL`). -/
def xSemaphoreCreateBinary (created : Bool) (g : Gate) : Gate :=
  call .xSemaphoreCreateBinary { g with semCreated := created, semCount := 0 }

/-- The function `_lv_gpu_nxp_pxp_interrupt_init` of lv_gpu_nxp_pxp_osa.c. -/
def _lv_gpu_nxp_pxp_interrupt_init (v : Variant) (created : Bool) (g : Gate) : lv_res_t × Gate :=
  match v with
  | .freertos =>
    let g1 := xSemaphoreCreateBinary created g
    if g1.semCreated = false then
      (.LV_RES_INV, g1)
    else
      let g2 := call .NVIC_SetPriority g1
      let g3 := { g2 with s_pxpIdle := true }
      (.LV_RES_OK, call .up_enable_irq (call .irq_attach g3))
  | .baremetal =>
    let g3 := { g with s_pxpIdle := true }
    (.LV_RES_OK, call .up_enable_irq (call .irq_attach g3))

/-- The function `_lv_gpu_nxp_pxp_interrupt_deinit` of lv_gpu_nxp_pxp_osa.c. The handle
`s_pxpIdleSem` is passed to `vSemaphoreDelete` and not assigned, so it stays non-null. -/
def _lv_gpu_nxp_pxp_interrupt_deinit (v : Variant) (g : Gate) : Gate :=
  let g1 := call .up_disable_irq g
  match v with
  | .freertos => call .vSemaphoreDelete g1
  | .baremetal => g1

/-- The function `_lv_gpu_nxp_pxp_run` of lv_gpu_nxp_pxp_osa.c (the gate's `start()`). -/
def _lv_gpu_nxp_pxp_run (g : Gate) : Gate :=
  let g1 := { g with s_pxpIdle := false }
  let g2 := call .pxp_enable_interrupts g1
  call .pxp_start g2

/-- What a returning `wait()` leaves behind. -/
structure WaitResult where
  /-- state when the call returns -/
  gate : Gate
  /-- interrupts that had not been delivered yet when the call returned -/
  rest : List Bool
  /-- interrupts the caller had to sit through before it could return; `0`
  means the call returned without blocking (in the bare-metal variant this is
  the number of times the empty loop body was entered, idle iterations between
  two interrupts counted as one) -/
  blocked : Nat
deriving DecidableEq, Repr

/-- The blocked part of `xSemaphoreTake(s_pxpIdleSem, portMAX_DELAY)`: the caller
sleeps until a token is there (no time-out), interrupts run meanwhile. -/
def takeLoop (g : Gate) (n : Nat) : List Bool → Option WaitResult
  | [] =>
    if 0 < g.semCount then some ⟨{ g with semCount := g.semCount - 1 }, [], n⟩ else none
  | c :: rest =>
    if 0 < g.semCount then some ⟨{ g with semCount := g.semCount - 1 }, c :: rest, n⟩
    else takeLoop (deliver .freertos c g) (n + 1) rest

/-- The call `xSemaphoreTake(s_pxpIdleSem, portMAX_DELAY)`; the `Bool` is the return value,
which is `pdTRUE` whenever the call returns. -/
def xSemaphoreTake (g : Gate) (irqs : List Bool) : Option (Bool × WaitResult) :=
  match takeLoop (call .xSemaphoreTake g) 0 irqs with
  | none => none
  | some r => some (true, r)

/-- The loop `while(s_pxpIdle == false) {}` of the bare-metal `wait()`. -/
def spinLoop (g : Gate) (n : Nat) : List Bool → Option WaitResult
  | [] => if g.s_pxpIdle = false then none else some ⟨g, [], n⟩
  | c :: rest =>
    if g.s_pxpIdle = false then spinLoop (deliver .baremetal c g) (n + 1) rest
    else some ⟨g, c :: rest, n⟩

/-- The function `_lv_gpu_nxp_pxp_wait` of lv_gpu_nxp_pxp_osa.c (the gate's `wait()`), with the
interrupts `irqs` that arrive while the caller is inside it. -/
def _lv_gpu_nxp_pxp_wait (v : Variant) (g : Gate) (irqs : List Bool) : Option WaitResult :=
  match v with
  | .freertos =>
    if g.s_pxpIdle = true then
      some ⟨g, irqs, 0⟩
    else
      match xSemaphoreTake g irqs with
      | none => none
      | some (ret, r) =>
        if ret = true then some { r with gate := { r.gate with s_pxpIdle := true } }
        else some r
  | .baremetal => spinLoop g 0 irqs

/-- Events of a gate trace, in the order in which the calls are issued. -/
inductive Ev where
  /-- the caller issues `start()` -/
  | start
  /-- the handler runs while the caller is not inside `wait()` -/
  | irq (c : Bool)
  /-- the caller issues `wait()`; `during` are the interrupts that arrive
  from that moment on (those not needed to unblock it run right after it
  has returned) -/
  | wait (during : List Bool)
deriving DecidableEq, Repr

/-- What is observed when a `wait()` returns. -/
structure Obs where
  /-- `s_pxpIdle` right after the return -/
  idle : Bool
  /-- the `blocked` count of the call -/
  blocked : Nat
deriving DecidableEq, Repr

/-- Run a trace; `none` when some `wait()` never returns. -/
def exec (v : Variant) : List Ev → Gate → Option (Gate × List Obs)
  | [], g => some (g, [])
  | .start :: es, g => exec v es (_lv_gpu_nxp_pxp_run g)
  | .irq c :: es, g => exec v es (deliver v c g)
  | .wait d :: es, g =>
    match _lv_gpu_nxp_pxp_wait v g d with
    | none => none
    | some r =>
      match exec v es (deliverAll v r.rest r.gate) with
      | none => none
      | some (g', obs) => some (g', ⟨r.gate.s_pxpIdle, r.blocked⟩ :: obs)

/-- One job as the caller sees it: `start()`, then `wait()`; `early` are the
interrupts between the two calls, `late` those from the call of `wait()` on. -/
structure Job where
  early : List Bool
  late : List Bool
deriving DecidableEq, Repr

/-- The trace of one job. -/
def Job.events (j : Job) : List Ev :=
  .start :: (j.early.map .irq ++ [.wait j.late])

/-- A trace in which every `start()` is followed by a `wait()` before the next `start()`. -/
def jobsTrace : List Job → List Ev
  | [] => []
  | j :: js => j.events ++ jobsTrace js

/-- Where the second completion signal of one job falls. -/
inductive SecondSignal where
  | beforeWait
  | afterWait
deriving DecidableEq, Repr

/-- One job whose completion is signalled twice. -/
def doubleSignalJob : SecondSignal → List Ev
  | .beforeWait => [.start, .irq true, .irq true, .wait []]
  | .afterWait => [.start, .irq true, .wait [], .irq true]

/-- A job signalled twice, then the next `start()` and its `wait()` with no
completion signal of its own. -/
def doubleSignalThenNext (p : SecondSignal) : List Ev :=
  doubleSignalJob p ++ [.start, .wait []]

/-- The operations of the gate. -/
inductive GateOp where
  | interrupt_init (created : Bool)
  | start
  | wait
  | handler (raised : Bool)
deriving DecidableEq, Repr

/-- One gate operation on its own (a `wait()` during which no interrupt arrives). -/
def GateOp.apply (v : Variant) : GateOp → Gate → Option Gate
  | .interrupt_init created, g => some (_lv_gpu_nxp_pxp_interrupt_init v created g).2
  | .start, g => some (_lv_gpu_nxp_pxp_run g)
  | .wait, g => (_lv_gpu_nxp_pxp_wait v g []).map WaitResult.gate
  | .handler raised, g => some (deliver v raised g)

/-! ### lv_gpu_nxp_pxp.c -/

/-- The hook table `lv_nxp_pxp_cfg_t`; `none` is a null function pointer. -/
structure lv_nxp_pxp_cfg_t where
  pxp_interrupt_init : Option (Gate → lv_res_t × Gate)
  pxp_interrupt_deinit : Option (Gate → Gate)
  pxp_run : Option (Gate → Gate)
  pxp_wait : Option (Gate → List Bool → Option WaitResult)

/-- The table `pxp_default_cfg` of lv_gpu_nxp_pxp_osa.c; `created` says whether
`xSemaphoreCreateBinary` will succeed when the init hook is called. -/
def pxp_default_cfg (v : Variant) (created : Bool) : lv_nxp_pxp_cfg_t :=
  { pxp_interrupt_init := some (_lv_gpu_nxp_pxp_interrupt_init v created)
    pxp_interrupt_deinit := some (_lv_gpu_nxp_pxp_interrupt_deinit v)
    pxp_run := some _lv_gpu_nxp_pxp_run
    pxp_wait := some (_lv_gpu_nxp_pxp_wait v) }

/-- The function `lv_gpu_nxp_pxp_get_cfg` of lv_gpu_nxp_pxp_osa.c. -/
def lv_gpu_nxp_pxp_get_cfg (v : Variant) (created : Bool) : lv_nxp_pxp_cfg_t :=
  pxp_default_cfg v created

/-- The static `pxp_cfg` after the first statement of `lv_gpu_nxp_pxp_init`:
`auto_init` is `some (lv_gpu_nxp_pxp_get_cfg ..)` when `LV_USE_GPU_NXP_PXP_AUTO_INIT`
is set and `none` when it is not; `pxp_cfg` is the value of the static before the call. -/
def pxp_cfg_assign (auto_init pxp_cfg : Option lv_nxp_pxp_cfg_t) : Option lv_nxp_pxp_cfg_t :=
  match auto_init with
  | some c => some c
  | none => pxp_cfg

/-- The function `lv_gpu_nxp_pxp_init` of lv_gpu_nxp_pxp.c (`PXP_RETURN_INV` logs a
message and returns `LV_RES_INV`). -/
def lv_gpu_nxp_pxp_init (auto_init pxp_cfg : Option lv_nxp_pxp_cfg_t) (g : Gate) :
    lv_res_t × Gate :=
  match pxp_cfg_assign auto_init pxp_cfg with
  | none => (.LV_RES_INV, g)
  | some cfg =>
    match cfg.pxp_interrupt_deinit with
    | none => (.LV_RES_INV, g)
    | some _ =>
      match cfg.pxp_interrupt_init with
      | none => (.LV_RES_INV, g)
      | some interrupt_init =>
        match cfg.pxp_run with
        | none => (.LV_RES_INV, g)
        | some _ =>
          match cfg.pxp_wait with
          | none => (.LV_RES_INV, g)
          | some _ =>
            let g1 := call .pxp_init g
            let g2 := call (.pxp_enable_csc1 false) g1
            let g3 := call (.pxp_set_process_block_size 16) g2
            let g4 := call .pxp_enable_interrupts g3
            let r := interrupt_init g4
            if r.1 ≠ .LV_RES_OK then
              (.LV_RES_INV, call .pxp_disable_interrupts r.2)
            else
              (.LV_RES_OK, r.2)

/-- Effects of the functions of lv_gpu_nxp_pxp.c: a call through a hook of
`pxp_cfg`, or an external call. -/
inductive HookEff where
  /-- the call `pxp_cfg->pxp_wait()` -/
  | pxp_wait
  /-- the call `pxp_cfg->pxp_run()` -/
  | pxp_run
  /-- the call `pxp_cfg->pxp_interrupt_deinit()` -/
  | pxp_interrupt_deinit
  /-- a call that leaves the driver -/
  | ext (c : Call)
deriving DecidableEq, Repr

/-- The function `lv_gpu_nxp_pxp_wait` of lv_gpu_nxp_pxp.c, as the effects it performs in order. -/
def lv_gpu_nxp_pxp_wait : List HookEff :=
  [.pxp_wait]

/-- The function `lv_gpu_nxp_pxp_run` of lv_gpu_nxp_pxp.c (the call of `invalidate_cache` is
commented out in the source). -/
def lv_gpu_nxp_pxp_run : List HookEff :=
  [.pxp_run]

/-- The function `lv_gpu_nxp_pxp_reset` of lv_gpu_nxp_pxp.c. -/
def lv_gpu_nxp_pxp_reset : List HookEff :=
  lv_gpu_nxp_pxp_wait ++
    [.ext .pxp_reset_control, .ext (.pxp_enable_csc1 false), .ext (.pxp_set_process_block_size 16)]

/-- The function `lv_gpu_nxp_pxp_deinit` of lv_gpu_nxp_pxp.c. -/
def lv_gpu_nxp_pxp_deinit : List HookEff :=
  [.pxp_interrupt_deinit, .ext .pxp_disable_interrupts]

/-- Run a sequence of effects on the gate with the hooks of `cfg`; `irqs` are
the interrupts still to come (they are delivered while a hook blocks), `n`
counts the interrupts waited for so far. `none`: a hook never returns, or the
hook is a null pointer. -/
def runHooks (cfg : lv_nxp_pxp_cfg_t) : List HookEff → Gate → List Bool → Nat → Option WaitResult
  | [], g, irqs, n => some ⟨g, irqs, n⟩
  | .ext c :: es, g, irqs, n => runHooks cfg es (call c g) irqs n
  | .pxp_run :: es, g, irqs, n =>
    match cfg.pxp_run with
    | none => none
    | some run => runHooks cfg es (run g) irqs n
  | .pxp_interrupt_deinit :: es, g, irqs, n =>
    match cfg.pxp_interrupt_deinit with
    | none => none
    | some deinit => runHooks cfg es (deinit g) irqs n
  | .pxp_wait :: es, g, irqs, n =>
    match cfg.pxp_wait with
    | none => none
    | some wait =>
      match wait g irqs with
      | none => none
      | some r => runHooks cfg es r.gate r.rest (n + r.blocked)

/-! ### lv_draw_pxp_blend.c -/

/-- Effects of the functions of lv_draw_pxp_blend.c: a call of one of the three
entry points of lv_gpu_nxp_pxp.c, or an external call. -/
inductive BlitEff where
  | lv_gpu_nxp_pxp_reset
  | lv_gpu_nxp_pxp_run
  | lv_gpu_nxp_pxp_wait
  | ext (c : Call)
deriving DecidableEq, Repr

/-- The effects of lv_gpu_nxp_pxp.c behind one effect of lv_draw_pxp_blend.c. -/
def BlitEff.lower : BlitEff → List HookEff
  | .lv_gpu_nxp_pxp_reset => Pxp.lv_gpu_nxp_pxp_reset
  | .lv_gpu_nxp_pxp_run => Pxp.lv_gpu_nxp_pxp_run
  | .lv_gpu_nxp_pxp_wait => Pxp.lv_gpu_nxp_pxp_wait
  | .ext c => [.ext c]

/-- A whole trace of lv_draw_pxp_blend.c in terms of hook calls and external calls. -/
def lowerAll : List BlitEff → List HookEff
  | [] => []
  | e :: es => e.lower ++ lowerAll es

/-- The colour depths the file accepts (`LV_COLOR_DEPTH == 16` or `== 32`). -/
inductive ColorDepth where
  | d16
  | d32
deriving DecidableEq, Repr

/-- What lv_draw_pxp_blend.c takes from headers that are not among the sources:
configuration constants, and the helpers and macros of the toolkit that it calls. -/
structure Toolkit where
  LV_COLOR_DEPTH : ColorDepth
  /-- `FSL_FEATURE_PXP_HAS_NO_EXTEND_PIXEL_FORMAT` is defined and non-zero -/
  FSL_FEATURE_PXP_HAS_NO_EXTEND_PIXEL_FORMAT : Bool
  /-- `FSL_FEATURE_PXP_V3` is defined and non-zero -/
  FSL_FEATURE_PXP_V3 : Bool
  /-- `sizeof(lv_color_t)` -/
  sizeof_lv_color_t : Int
  LV_OPA_MAX : Nat
  LV_OPA_TRANSP : Nat
  LV_COLOR_CHROMA_KEY : lv_color_t
  /-- conversion of an `int` value to `lv_coord_t` -/
  to_coord : Int → Int
  lv_area_get_width : lv_area_t → Int
  lv_area_get_height : lv_area_t → Int
  lv_area_move : lv_area_t → Int → Int → lv_area_t
  lv_img_cf_has_alpha : Nat → Bool
  lv_img_cf_is_chroma_keyed : Nat → Bool
  lv_color_to32 : lv_color_t → Nat
  lv_color_mix : lv_color_t → lv_color_t → Nat → lv_color_t
  LV_COLOR_SET_R : lv_color_t → Int → lv_color_t
  LV_COLOR_SET_G : lv_color_t → Int → lv_color_t
  LV_COLOR_SET_B : lv_color_t → Int → lv_color_t

/-- The macro `PXP_OUT_PIXEL_FORMAT`. -/
def PXP_OUT_PIXEL_FORMAT (T : Toolkit) : pxp_output_pixel_format_e :=
  match T.LV_COLOR_DEPTH with
  | .d16 => .PXP_OUTPUT_PIXEL_FORMAT_RGB565
  | .d32 => .PXP_OUTPUT_PIXEL_FORMAT_ARGB8888

/-- The macro `PXP_AS_PIXEL_FORMAT`. -/
def PXP_AS_PIXEL_FORMAT (T : Toolkit) : pxp_as_pixel_format_e :=
  match T.LV_COLOR_DEPTH with
  | .d16 => .PXP_AS_PIXEL_FORMAT_RGB565
  | .d32 => .PXP_AS_PIXEL_FORMAT_ARGB8888

/-- The macro `PXP_PS_PIXEL_FORMAT`. -/
def PXP_PS_PIXEL_FORMAT (T : Toolkit) : pxp_ps_pixel_format_e :=
  match T.LV_COLOR_DEPTH with
  | .d16 => .PXP_PS_PIXEL_FORMAT_RGB565
  | .d32 =>
    if (!T.FSL_FEATURE_PXP_HAS_NO_EXTEND_PIXEL_FORMAT) && (!T.FSL_FEATURE_PXP_V3) then
      .PXP_PS_PIXEL_FORMAT_ARGB8888
    else
      .PXP_PS_PIXEL_FORMAT_RGB888

/-- Value of an expression of type `uint32_t`, `unsigned int` or `size_t` (32 bits on the target). -/
def u32 (x : Int) : Int :=
  x % 4294967296

/-- The expression `(uint32_t)(buf + stride * area->y1 + area->x1)` for a pointer `buf` to
`lv_color_t` whose address is `buf`. -/
def pixel_addr (T : Toolkit) (buf : Int) (stride : Int) (area : lv_area_t) : Int :=
  u32 (buf + T.sizeof_lv_color_t * (stride * area.y1 + area.x1))

/-- The function `lv_gpu_nxp_pxp_fill` of lv_draw_pxp_blend.c. -/
def lv_gpu_nxp_pxp_fill (T : Toolkit) (dest_buf : Int) (dest_area : lv_area_t)
    (dest_stride : Int) (color : lv_color_t) (opa : Nat) : List BlitEff :=
  let dest_w := T.lv_area_get_width dest_area
  let dest_h := T.lv_area_get_height dest_area
  let outputConfig : pxp_output_buffer_config_s :=
    { pixel_format := PXP_OUT_PIXEL_FORMAT T
      interlaced_mode := .PXP_OUTPUT_PROGRESSIVE
      buffer0_addr := pixel_addr T dest_buf dest_stride dest_area
      buffer1_addr := 0
      pitch_bytes := u32 (dest_stride * T.sizeof_lv_color_t)
      width := dest_w
      height := dest_h }
  [.lv_gpu_nxp_pxp_reset, .ext (.pxp_set_output_buffer_config outputConfig)] ++
  (if opa ≥ T.LV_OPA_MAX then
    [.ext (.pxp_set_alpha_surface_position 0xFFFF 0xFFFF 0 0)]
  else
    let asBufferConfig : pxp_as_buffer_config_s :=
      { pixel_format := PXP_AS_PIXEL_FORMAT T
        buffer_addr := u32 outputConfig.buffer0_addr
        pitch_bytes := outputConfig.pitch_bytes }
    [.ext (.pxp_set_alpha_surface_buffer_config asBufferConfig),
     .ext (.pxp_set_alpha_surface_position 0 0 (u32 (dest_w - 1)) (u32 (dest_h - 1)))]) ++
  [.ext (.pxp_set_process_surface_position 0xFFFF 0xFFFF 0 0),
   .ext (.pxp_set_process_surface_back_ground_color (T.lv_color_to32 color)),
   .ext (.pxp_set_porter_duff_config
     { enable := 1
       dst_color_mode := .PXP_PORTER_DUFF_COLOR_NO_ALPHA
       src_color_mode := .PXP_PORTER_DUFF_COLOR_NO_ALPHA
       dst_global_alpha_mode := .PXP_PORTER_DUFF_GLOBAL_ALPHA
       src_global_alpha_mode := .PXP_PORTER_DUFF_GLOBAL_ALPHA
       dst_factor_mode := .PXP_PORTER_DUFF_FACTOR_STRAIGHT
       src_factor_mode :=
         if opa ≥ T.LV_OPA_MAX then .PXP_PORTER_DUFF_FACTOR_STRAIGHT
         else .PXP_PORTER_DUFF_FACTOR_INVERSED
       dst_global_alpha := opa
       src_global_alpha := opa
       dst_alpha_mode := .PXP_PORTER_DUFF_ALPHA_STRAIGHT
       src_alpha_mode := .PXP_PORTER_DUFF_ALPHA_STRAIGHT }),
   .lv_gpu_nxp_pxp_run]

/-- The function `lv_gpu_nxp_pxp_blit` of lv_draw_pxp_blend.c. -/
def lv_gpu_nxp_pxp_blit (T : Toolkit) (dest_buf : Int) (dest_area : lv_area_t)
    (dest_stride : Int) (src_buf : Int) (src_area : lv_area_t) (src_stride : Int)
    (opa : Nat) (angle : lv_disp_rot_t) : List BlitEff :=
  let dest_w := T.lv_area_get_width dest_area
  let dest_h := T.lv_area_get_height dest_area
  let src_w := T.lv_area_get_width src_area
  let src_h := T.lv_area_get_height src_area
  let pxp_rot : pxp_rotate_degree_e :=
    match angle with
    | .LV_DISP_ROT_NONE => .PXP_ROTATE0
    | .LV_DISP_ROT_90 => .PXP_ROTATE90
    | .LV_DISP_ROT_180 => .PXP_ROTATE180
    | .LV_DISP_ROT_270 => .PXP_ROTATE270
    | .other _ => .PXP_ROTATE0
  let asBlendConfig : pxp_as_blend_config_s :=
    { alpha := opa
      invert_alpha := false
      alpha_mode := .PXP_ALPHA_ROP
      rop_mode := .PXP_ROP_MERGE_AS }
  let asBlendConfig1 : pxp_as_blend_config_s :=
    if opa ≥ T.LV_OPA_MAX then asBlendConfig
    else { asBlendConfig with alpha_mode := .PXP_ALPHA_OVERRIDE }
  [.lv_gpu_nxp_pxp_reset,
   .ext (.pxp_set_rotate_config .PXP_ROTATE_OUTPUT_BUFFER pxp_rot .PXP_FLIP_DISABLE)] ++
  (if opa ≥ T.LV_OPA_MAX then
    [.ext (.pxp_set_process_surface_position 0xFFFF 0xFFFF 0 0)]
  else
    let psBufferConfig : pxp_ps_buffer_config_s :=
      { pixel_format := PXP_PS_PIXEL_FORMAT T
        swap_byte := false
        buffer_addr := pixel_addr T dest_buf dest_stride dest_area
        buffer_addr_u := 0
        buffer_addr_v := 0
        pitch_bytes := u32 (dest_stride * T.sizeof_lv_color_t) }
    [.ext (.pxp_set_process_surface_buffer_config psBufferConfig),
     .ext (.pxp_set_process_surface_position 0 0 (u32 (dest_w - 1)) (u32 (dest_h - 1)))]) ++
  [.ext (.pxp_set_alpha_surface_buffer_config
     { pixel_format := PXP_AS_PIXEL_FORMAT T
       buffer_addr := pixel_addr T src_buf src_stride src_area
       pitch_bytes := u32 (src_stride * T.sizeof_lv_color_t) }),
   .ext (.pxp_set_alpha_surface_position 0 0 (u32 (src_w - 1)) (u32 (src_h - 1))),
   .ext (.pxp_set_alpha_surface_blend_config asBlendConfig1),
   .ext (.pxp_enable_alpha_surface_overlay_color_key false),
   .ext (.pxp_set_output_buffer_config
     { pixel_format := PXP_OUT_PIXEL_FORMAT T
       interlaced_mode := .PXP_OUTPUT_PROGRESSIVE
       buffer0_addr := pixel_addr T dest_buf dest_stride dest_area
       buffer1_addr := 0
       pitch_bytes := u32 (dest_stride * T.sizeof_lv_color_t)
       width := dest_w
       height := dest_h }),
   .lv_gpu_nxp_pxp_run]

/-- The static function `lv_pxp_blit_cover` of lv_draw_pxp_blend.c; the second component is
`*dest_area` on return (the function moves it when the image is rotated). -/
def lv_pxp_blit_cover (T : Toolkit) (dest_buf : Int) (dest_area : lv_area_t)
    (dest_stride : Int) (src_buf : Int) (src_area : lv_area_t) (src_stride : Int)
    (dsc : lv_draw_img_dsc_t) (cf : Nat) : List BlitEff × lv_area_t :=
  let dest_w := T.lv_area_get_width dest_area
  let dest_h := T.lv_area_get_height dest_area
  let src_w := T.lv_area_get_width src_area
  let src_h := T.lv_area_get_height src_area
  let has_recolor : Bool := dsc.recolor_opa != T.LV_OPA_TRANSP
  let has_rotation : Bool := dsc.angle != 0
  let pivot := dsc.pivot
  let rot : pxp_rotate_degree_e × Int × Int :=
    if dsc.angle = 0 then (.PXP_ROTATE0, 0, 0)
    else if dsc.angle = 900 then
      (.PXP_ROTATE90, T.to_coord (pivot.x + pivot.y - dest_h), T.to_coord (pivot.y - pivot.x))
    else if dsc.angle = 1800 then
      (.PXP_ROTATE180, T.to_coord (2 * pivot.x - dest_w), T.to_coord (2 * pivot.y - dest_h))
    else if dsc.angle = 2700 then
      (.PXP_ROTATE270, T.to_coord (pivot.x - pivot.y), T.to_coord (pivot.x + pivot.y - dest_w))
    else (.PXP_ROTATE0, 0, 0)
  let dest_area1 : lv_area_t :=
    if has_rotation then T.lv_area_move dest_area rot.2.1 rot.2.2 else dest_area
  ([.lv_gpu_nxp_pxp_reset] ++
   (if has_rotation then
     [.ext (.pxp_set_rotate_config .PXP_ROTATE_OUTPUT_BUFFER rot.1 .PXP_FLIP_DISABLE)]
    else []) ++
   [.ext (.pxp_set_alpha_surface_buffer_config
      { pixel_format := PXP_AS_PIXEL_FORMAT T
        buffer_addr := pixel_addr T src_buf src_stride src_area
        pitch_bytes := u32 (src_stride * T.sizeof_lv_color_t) }),
    .ext (.pxp_set_alpha_surface_position 0 0 (u32 (src_w - 1)) (u32 (src_h - 1))),
    .ext (.pxp_set_process_surface_position 0xFFFF 0xFFFF 0 0)] ++
   (if has_recolor then
     [.ext (.pxp_set_process_surface_back_ground_color (T.lv_color_to32 dsc.recolor))]
    else []) ++
   [.ext (.pxp_set_output_buffer_config
      { pixel_format := PXP_OUT_PIXEL_FORMAT T
        interlaced_mode := .PXP_OUTPUT_PROGRESSIVE
        buffer0_addr := pixel_addr T dest_buf dest_stride dest_area1
        buffer1_addr := 0
        pitch_bytes := u32 (dest_stride * T.sizeof_lv_color_t)
        width := dest_w
        height := dest_h })] ++
   (if has_recolor || T.lv_img_cf_has_alpha cf then
     [.ext (.pxp_set_porter_duff_config
        { enable := 1
          dst_color_mode := .PXP_PORTER_DUFF_COLOR_WITH_ALPHA
          src_color_mode := .PXP_PORTER_DUFF_COLOR_NO_ALPHA
          dst_global_alpha_mode := .PXP_PORTER_DUFF_GLOBAL_ALPHA
          src_global_alpha_mode :=
            if T.lv_img_cf_has_alpha cf then .PXP_PORTER_DUFF_LOCAL_ALPHA
            else .PXP_PORTER_DUFF_GLOBAL_ALPHA
          dst_factor_mode := .PXP_PORTER_DUFF_FACTOR_STRAIGHT
          src_factor_mode := .PXP_PORTER_DUFF_FACTOR_INVERSED
          dst_global_alpha := if has_recolor then dsc.recolor_opa else 0x00
          src_global_alpha := 0xff
          dst_alpha_mode := .PXP_PORTER_DUFF_ALPHA_STRAIGHT
          src_alpha_mode := .PXP_PORTER_DUFF_ALPHA_STRAIGHT })]
    else []) ++
   [.lv_gpu_nxp_pxp_run],
   dest_area1)

/-- The colour-key bounds `(colorKeyLow, colorKeyHigh)` computed in `lv_pxp_blit_cf`. -/
def colorKeyBounds (T : Toolkit) (dsc : lv_draw_img_dsc_t) : lv_color_t × lv_color_t :=
  let colorKeyLow := T.LV_COLOR_CHROMA_KEY
  let colorKeyHigh := T.LV_COLOR_CHROMA_KEY
  let has_recolor : Bool := dsc.recolor_opa != T.LV_OPA_TRANSP
  if has_recolor then
    let colorKey := T.lv_color_mix dsc.recolor T.LV_COLOR_CHROMA_KEY dsc.recolor_opa
    let low1 := T.LV_COLOR_SET_R colorKeyLow (if colorKey.red ≠ 0 then colorKey.red - 1 else 0)
    let low2 := T.LV_COLOR_SET_G low1 (if colorKey.green ≠ 0 then colorKey.green - 1 else 0)
    let low3 := T.LV_COLOR_SET_B low2 (if colorKey.blue ≠ 0 then colorKey.blue - 1 else 0)
    match T.LV_COLOR_DEPTH with
    | .d16 =>
      let high1 := T.LV_COLOR_SET_R colorKeyHigh
        (if colorKey.red ≠ 0x1f then colorKey.red + 1 else 0x1f)
      let high2 := T.LV_COLOR_SET_G high1
        (if colorKey.green ≠ 0x3f then colorKey.green + 1 else 0x3f)
      let high3 := T.LV_COLOR_SET_B high2
        (if colorKey.blue ≠ 0x1f then colorKey.blue + 1 else 0x1f)
      (low3, high3)
    | .d32 =>
      let high1 := T.LV_COLOR_SET_R colorKeyHigh
        (if colorKey.red ≠ 0xff then colorKey.red + 1 else 0xff)
      let high2 := T.LV_COLOR_SET_G high1
        (if colorKey.green ≠ 0xff then colorKey.green + 1 else 0xff)
      let high3 := T.LV_COLOR_SET_B high2
        (if colorKey.blue ≠ 0xff then colorKey.blue + 1 else 0xff)
      (low3, high3)
  else
    (colorKeyLow, colorKeyHigh)

/-- The static function `lv_pxp_blit_cf` of lv_draw_pxp_blend.c. -/
def lv_pxp_blit_cf (T : Toolkit) (dest_buf : Int) (dest_area : lv_area_t)
    (dest_stride : Int) (src_buf : Int) (src_area : lv_area_t) (src_stride : Int)
    (dsc : lv_draw_img_dsc_t) (cf : Nat) : List BlitEff :=
  let dest_w := T.lv_area_get_width dest_area
  let dest_h := T.lv_area_get_height dest_area
  let src_w := T.lv_area_get_width src_area
  let src_h := T.lv_area_get_height src_area
  let asBlendConfig : pxp_as_blend_config_s :=
    { alpha := dsc.opa
      invert_alpha := false
      alpha_mode := .PXP_ALPHA_ROP
      rop_mode := .PXP_ROP_MERGE_AS }
  let simple : Bool :=
    decide (dsc.opa ≥ T.LV_OPA_MAX) && !T.lv_img_cf_is_chroma_keyed cf &&
      !T.lv_img_cf_has_alpha cf
  let asBlendConfig1 : pxp_as_blend_config_s :=
    if simple then asBlendConfig
    else if dsc.opa ≥ T.LV_OPA_MAX then
      { asBlendConfig with
        alpha_mode :=
          if T.lv_img_cf_has_alpha cf then .PXP_ALPHA_EMBEDDED else .PXP_ALPHA_OVERRIDE }
    else
      { asBlendConfig with
        alpha_mode :=
          if T.lv_img_cf_has_alpha cf then .PXP_ALPHA_MULTIPLY else .PXP_ALPHA_OVERRIDE }
  [.lv_gpu_nxp_pxp_reset] ++
  (if simple then
    [.ext (.pxp_set_process_surface_position 0xFFFF 0xFFFF 0 0)]
   else
    let psBufferConfig : pxp_ps_buffer_config_s :=
      { pixel_format := PXP_PS_PIXEL_FORMAT T
        swap_byte := false
        buffer_addr := pixel_addr T dest_buf dest_stride dest_area
        buffer_addr_u := 0
        buffer_addr_v := 0
        pitch_bytes := u32 (dest_stride * T.sizeof_lv_color_t) }
    [.ext (.pxp_set_process_surface_buffer_config psBufferConfig),
     .ext (.pxp_set_process_surface_position 0 0 (u32 (dest_w - 1)) (u32 (dest_h - 1)))]) ++
  [.ext (.pxp_set_alpha_surface_buffer_config
     { pixel_format := PXP_AS_PIXEL_FORMAT T
       buffer_addr := pixel_addr T src_buf src_stride src_area
       pitch_bytes := u32 (src_stride * T.sizeof_lv_color_t) }),
   .ext (.pxp_set_alpha_surface_position 0 0 (u32 (src_w - 1)) (u32 (src_h - 1))),
   .ext (.pxp_set_alpha_surface_blend_config asBlendConfig1)] ++
  (if T.lv_img_cf_is_chroma_keyed cf then
    [.ext (.pxp_set_alpha_surface_overlay_color_key
      (T.lv_color_to32 (colorKeyBounds T dsc).1) (T.lv_color_to32 (colorKeyBounds T dsc).2))]
   else []) ++
  [.ext (.pxp_enable_alpha_surface_overlay_color_key (T.lv_img_cf_is_chroma_keyed cf)),
   .ext (.pxp_set_output_buffer_config
     { pixel_format := PXP_OUT_PIXEL_FORMAT T
       interlaced_mode := .PXP_OUTPUT_PROGRESSIVE
       buffer0_addr := pixel_addr T dest_buf dest_stride dest_area
       buffer1_addr := 0
       pitch_bytes := u32 (dest_stride * T.sizeof_lv_color_t)
       width := dest_w
       height := dest_h }),
   .lv_gpu_nxp_pxp_run]

/-- The static function `lv_pxp_blit_opa` of lv_draw_pxp_blend.c; `temp_buf` is the pointer that
`lv_mem_buf_get` returns. -/
def lv_pxp_blit_opa (T : Toolkit) (temp_buf : Int) (dest_buf : Int) (dest_area : lv_area_t)
    (dest_stride : Int) (src_buf : Int) (src_area : lv_area_t) (src_stride : Int)
    (dsc : lv_draw_img_dsc_t) (cf : Nat) : List BlitEff :=
  let temp_area := dest_area
  let temp_stride := dest_stride
  let temp_w := T.lv_area_get_width temp_area
  let temp_h := T.lv_area_get_height temp_area
  let size := u32 (temp_w * temp_h * T.sizeof_lv_color_t)
  let step1 := lv_pxp_blit_cover T temp_buf temp_area temp_stride src_buf src_area src_stride
    dsc cf
  let temp_area1 := step1.2
  let temp_area2 : lv_area_t :=
    if dsc.angle = 900 ∨ dsc.angle = 2700 then
      let a : lv_area_t := { temp_area1 with x2 := T.to_coord (temp_area1.x1 + temp_h - 1) }
      { a with y2 := T.to_coord (a.y1 + temp_w - 1) }
    else temp_area1
  [.ext (.lv_mem_buf_get size)] ++ step1.1 ++
    lv_pxp_blit_cf T dest_buf temp_area2 dest_stride temp_buf temp_area2 temp_stride dsc cf

/-- The function `lv_gpu_nxp_pxp_blit_transform` of lv_draw_pxp_blend.c. -/
def lv_gpu_nxp_pxp_blit_transform (T : Toolkit) (temp_buf : Int) (dest_buf : Int)
    (dest_area : lv_area_t) (dest_stride : Int) (src_buf : Int) (src_area : lv_area_t)
    (src_stride : Int) (dsc : lv_draw_img_dsc_t) (cf : Nat) : List BlitEff :=
  let has_recolor : Bool := dsc.recolor_opa != T.LV_OPA_TRANSP
  let has_rotation : Bool := dsc.angle != 0
  if has_recolor || has_rotation then
    if dsc.opa ≥ T.LV_OPA_MAX ∧ T.lv_img_cf_has_alpha cf = false ∧
        T.lv_img_cf_is_chroma_keyed cf = false then
      (lv_pxp_blit_cover T dest_buf dest_area dest_stride src_buf src_area src_stride dsc cf).1
    else
      lv_pxp_blit_opa T temp_buf dest_buf dest_area dest_stride src_buf src_area src_stride dsc cf
  else
    lv_pxp_blit_cf T dest_buf dest_area dest_stride src_buf src_area src_stride dsc cf

/-- The local `picCopyConfig` of `lv_gpu_nxp_pxp_buffer_copy`. -/
def picCopyConfig (T : Toolkit) (dest_buf : Int) (dest_area : lv_area_t)
    (dest_stride : Int) (src_buf : Int) (src_area : lv_area_t) (src_stride : Int) :
    pxp_pic_copy_config_s :=
  let src_width := T.lv_area_get_width src_area
  let src_height := T.lv_area_get_height src_area
  { src_pic_base_addr := u32 src_buf
    src_pitch_bytes := u32 (src_stride * T.sizeof_lv_color_t)
    src_offset_x := src_area.x1
    src_offset_y := src_area.y1
    dest_pic_base_addr := u32 dest_buf
    dest_pitch_bytes := u32 (dest_stride * T.sizeof_lv_color_t)
    dest_offset_x := dest_area.x1
    dest_offset_y := dest_area.y1
    width := src_width
    height := src_height
    pixel_format := PXP_AS_PIXEL_FORMAT T }

/-- The function `lv_gpu_nxp_pxp_buffer_copy` of lv_draw_pxp_blend.c. -/
def lv_gpu_nxp_pxp_buffer_copy (T : Toolkit) (dest_buf : Int) (dest_area : lv_area_t)
    (dest_stride : Int) (src_buf : Int) (src_area : lv_area_t) (src_stride : Int) :
    List BlitEff :=
  [.lv_gpu_nxp_pxp_reset,
   .ext (.pxp_start_picture_copy
     (picCopyConfig T dest_buf dest_area dest_stride src_buf src_area src_stride)),
   .lv_gpu_nxp_pxp_wait]

/-- One call of an entry point of lv_draw_pxp_blend.c with its arguments. -/
inductive BlitOp where
  | fill (dest_buf : Int) (dest_area : lv_area_t) (dest_stride : Int) (color : lv_color_t)
      (opa : Nat)
  | blit (dest_buf : Int) (dest_area : lv_area_t) (dest_stride : Int) (src_buf : Int)
      (src_area : lv_area_t) (src_stride : Int) (opa : Nat) (angle : lv_disp_rot_t)
  | blit_transform (temp_buf : Int) (dest_buf : Int) (dest_area : lv_area_t)
      (dest_stride : Int) (src_buf : Int) (src_area : lv_area_t) (src_stride : Int)
      (dsc : lv_draw_img_dsc_t) (cf : Nat)
  | buffer_copy (dest_buf : Int) (dest_area : lv_area_t) (dest_stride : Int) (src_buf : Int)
      (src_area : lv_area_t) (src_stride : Int)

/-- The effects of one call. -/
def BlitOp.effects (T : Toolkit) : BlitOp → List BlitEff
  | .fill dest_buf dest_area dest_stride color opa =>
    lv_gpu_nxp_pxp_fill T dest_buf dest_area dest_stride color opa
  | .blit dest_buf dest_area dest_stride src_buf src_area src_stride opa angle =>
    lv_gpu_nxp_pxp_blit T dest_buf dest_area dest_stride src_buf src_area src_stride opa angle
  | .blit_transform temp_buf dest_buf dest_area dest_stride src_buf src_area src_stride dsc cf =>
    lv_gpu_nxp_pxp_blit_transform T temp_buf dest_buf dest_area dest_stride src_buf src_area
      src_stride dsc cf
  | .buffer_copy dest_buf dest_area dest_stride src_buf src_area src_stride =>
    lv_gpu_nxp_pxp_buffer_copy T dest_buf dest_area dest_stride src_buf src_area src_stride

/-- The effects of a sequence of calls, in terms of hook calls and external calls. -/
def blitTrace (T : Toolkit) : List BlitOp → List HookEff
  | [] => []
  | op :: ops => lowerAll (op.effects T) ++ blitTrace T ops

/-- A toolkit for concrete evaluations: 16-bit colour, `LV_OPA_MAX = 253`,
`LV_OPA_TRANSP = 0`, areas measured as `x2 - x1 + 1` by `y2 - y1 + 1`, colour
formats `0 .. 3` without alpha or chroma key except `2` (alpha) and `3` (chroma keyed). -/
def sampleToolkit : Toolkit :=
  { LV_COLOR_DEPTH := .d16
    FSL_FEATURE_PXP_HAS_NO_EXTEND_PIXEL_FORMAT := false
    FSL_FEATURE_PXP_V3 := false
    sizeof_lv_color_t := 2
    LV_OPA_MAX := 253
    LV_OPA_TRANSP := 0
    LV_COLOR_CHROMA_KEY := ⟨0, 0x3f, 0, 0⟩
    to_coord := fun x => x
    lv_area_get_width := fun a => a.x2 - a.x1 + 1
    lv_area_get_height := fun a => a.y2 - a.y1 + 1
    lv_area_move := fun a dx dy => ⟨a.x1 + dx, a.y1 + dy, a.x2 + dx, a.y2 + dy⟩
    lv_img_cf_has_alpha := fun cf => cf == 2
    lv_img_cf_is_chroma_keyed := fun cf => cf == 3
    lv_color_to32 := fun c => c.red * 65536 + c.green * 256 + c.blue
    lv_color_mix := fun c1 _ _ => c1
    LV_COLOR_SET_R := fun c x => { c with red := x.toNat }
    LV_COLOR_SET_G := fun c x => { c with green := x.toNat }
    LV_COLOR_SET_B := fun c x => { c with blue := x.toNat } }

/-- Scan of a trace for a `pxp_run` issued while the previous one has not been
followed by a `pxp_wait`: `b` says whether a run is outstanding at the start;
the result is `none` when such a run is found, else whether one is outstanding at the end. -/
def runsSeparated (b : Bool) : List HookEff → Option Bool
  | [] => some b
  | .pxp_wait :: es => runsSeparated false es
  | .pxp_run :: es => if b then none else runsSeparated true es
  | .pxp_interrupt_deinit :: es => runsSeparated b es
  | .ext _ :: es => runsSeparated b es

/-- The register-configuration calls of the PXP driver. -/
def Call.isRegisterConfig : Call → Bool
  | .pxp_set_output_buffer_config _ => true
  | .pxp_set_alpha_surface_buffer_config _ => true
  | .pxp_set_alpha_surface_position _ _ _ _ => true
  | .pxp_set_alpha_surface_blend_config _ => true
  | .pxp_set_alpha_surface_overlay_color_key _ _ => true
  | .pxp_enable_alpha_surface_overlay_color_key _ => true
  | .pxp_set_process_surface_buffer_config _ => true
  | .pxp_set_process_surface_position _ _ _ _ => true
  | .pxp_set_process_surface_back_ground_color _ => true
  | .pxp_set_porter_duff_config _ => true
  | .pxp_set_rotate_config _ _ _ => true
  | _ => false

/-- Whether a trace is a sequence of register-configuration calls followed by
one `lv_gpu_nxp_pxp_run` and nothing else. -/
def configsThenRun : List BlitEff → Bool
  | [] => false
  | .lv_gpu_nxp_pxp_run :: es => es.isEmpty
  | .ext c :: es => c.isRegisterConfig && configsThenRun es
  | .lv_gpu_nxp_pxp_reset :: _ => false
  | .lv_gpu_nxp_pxp_wait :: _ => false

/-- Whether a trace is one `lv_gpu_nxp_pxp_reset`, then register-configuration
calls, then one `lv_gpu_nxp_pxp_run`. -/
def asyncShape : List BlitEff → Bool
  | .lv_gpu_nxp_pxp_reset :: es => configsThenRun es
  | _ => false

end Pxp

/-! # The phasor widget (lv_phasor.c, lv_phasor.h)

The widget keeps two linked lists, of scales and of indicators. A list is
embedded as a Lean list with the head first, so `_LV_LL_READ_BACK` visits the
reversed list. A function that draws or invalidates is embedded as the new
value of what it writes together with the list of drawing calls it makes, in
order. Helpers, macros and constants of the toolkit that are declared outside
the two files are the fields of `Kit`. Event handlers called through
`lv_event_send` are taken not to change the descriptors they are given. -/

namespace Phasor

open Pxp (lv_color_t lv_area_t lv_point_t u32)

/-- The type `lv_phasor_scale_t`. -/
structure lv_phasor_scale_t where
  tick_color : lv_color_t
  tick_cnt : Nat
  tick_length : Nat
  tick_width : Nat
  tick_major_color : lv_color_t
  tick_major_nth : Nat
  tick_major_length : Nat
  tick_major_width : Nat
  label_gap : Int
  min : Int
  max : Int
  r_mod : Int
deriving DecidableEq, Repr

/-- The enumerator `LV_PHASOR_INDICATOR_TYPE_PHASOR_LINE`. -/
def LV_PHASOR_INDICATOR_TYPE_PHASOR_LINE : Nat := 0

/-- The enumerator `LV_PHASOR_INDICATOR_TYPE_SCALE_LINES`. -/
def LV_PHASOR_INDICATOR_TYPE_SCALE_LINES : Nat := 1

/-- The enumerator `LV_PHASOR_INDICATOR_TYPE_ARC`. -/
def LV_PHASOR_INDICATOR_TYPE_ARC : Nat := 2

/-- The member `phasor_line` of the union `type_data`. -/
structure phasor_line_t where
  width : Nat
  r_mod : Int
  color : lv_color_t
deriving DecidableEq, Repr

/-- The member `arc` of the union `type_data`. -/
structure arc_t where
  width : Nat
  src : Nat
  color : lv_color_t
  r_mod : Int
deriving DecidableEq, Repr

/-- The member `scale_lines` of the union `type_data`. -/
structure scale_lines_t where
  width_mod : Int
  color_start : lv_color_t
  color_end : lv_color_t
  local_grad : Bool
deriving DecidableEq, Repr

/-- The union `type_data` of `lv_phasor_indicator_t`, as the member that was
written after the indicator was zeroed. -/
inductive type_data_t where
  | phasor_line (d : phasor_line_t)
  | arc (d : arc_t)
  | scale_lines (d : scale_lines_t)
deriving DecidableEq, Repr

/-- The type `lv_phasor_indicator_t`; `scale` is the pointer to the scale. -/
structure lv_phasor_indicator_t where
  scale : Nat
  type : Nat
  opa : Nat
  start_value : Int
  end_value : Int
  type_data : type_data_t
deriving DecidableEq, Repr

/-- The lists of `lv_phasor_t`, head first. -/
structure lv_phasor_t where
  scale_ll : List lv_phasor_scale_t
  indicator_ll : List lv_phasor_indicator_t
deriving DecidableEq, Repr

/-- What lv_phasor.c takes from the rest of the toolkit, for one widget object. -/
structure Kit where
  LV_OPA_TRANSP : Nat
  LV_OPA_COVER : Nat
  LV_DPI_DEF : Int
  LV_TRIGO_SIN_MAX : Int
  /-- conversion of an `int` value to `lv_coord_t` -/
  to_coord : Int → Int
  lv_area_get_width : lv_area_t → Int
  lv_area_get_height : lv_area_t → Int
  /-- the area that `lv_obj_get_content_coords(obj, ..)` stores -/
  lv_obj_get_content_coords : lv_area_t
  /-- the value of `lv_obj_get_style_arc_rounded(obj, LV_PART_ITEMS)` -/
  lv_obj_get_style_arc_rounded : Bool
  /-- the area that `lv_draw_arc_get_area(x, y, radius, start, end, w, rounded, ..)` stores -/
  lv_draw_arc_get_area : Int → Int → Int → Int → Int → Nat → Bool → lv_area_t
  lv_trigo_sin : Int → Int
  lv_trigo_cos : Int → Int
  lv_map : Int → Int → Int → Int → Int → Int
  lv_color_mix : lv_color_t → lv_color_t → Nat → lv_color_t
  /-- the member `full` of a colour -/
  lv_color_full : lv_color_t → Nat
  /-- the point that `lv_point_transform(&p, angle, zoom, &pivot)` leaves in `p` -/
  lv_point_transform : lv_point_t → Int → Int → lv_point_t → lv_point_t
  /-- the size that `lv_txt_get_size` stores for the decimal text of a value -/
  lv_txt_get_size : Int → lv_point_t
  /-- the scale a scale pointer points to -/
  scale_at : Nat → lv_phasor_scale_t
  /-- what a read of `type_data.phasor_line` yields when another member was written -/
  read_as_phasor_line : type_data_t → phasor_line_t
  /-- what a read of `type_data.arc` yields when another member was written -/
  read_as_arc : type_data_t → arc_t
  /-- what a read of `type_data.scale_lines` yields when another member was written -/
  read_as_scale_lines : type_data_t → scale_lines_t

/-- The expression `indic->type_data.phasor_line`. -/
def type_data_t.get_phasor_line (K : Kit) : type_data_t → phasor_line_t
  | .phasor_line d => d
  | td => K.read_as_phasor_line td

/-- The expression `indic->type_data.arc`. -/
def type_data_t.get_arc (K : Kit) : type_data_t → arc_t
  | .arc d => d
  | td => K.read_as_arc td

/-- The expression `indic->type_data.scale_lines`. -/
def type_data_t.get_scale_lines (K : Kit) : type_data_t → scale_lines_t
  | .scale_lines d => d
  | td => K.read_as_scale_lines td

/-- Calls that mark a part of the screen for redrawing. -/
inductive InvEff where
  | lv_obj_invalidate
  | lv_obj_invalidate_area (a : lv_area_t)
deriving DecidableEq, Repr

/-- The function `lv_phasor_add_scale`: the new scale and the widget with the scale at
the head of `scale_ll` (`lv_memset_00`, then the six assignments). -/
def lv_phasor_add_scale (phasor : lv_phasor_t) : lv_phasor_scale_t × lv_phasor_t :=
  let zeroed : lv_phasor_scale_t :=
    { tick_color := ⟨0, 0, 0, 0⟩, tick_cnt := 0, tick_length := 0, tick_width := 0,
      tick_major_color := ⟨0, 0, 0, 0⟩, tick_major_nth := 0, tick_major_length := 0,
      tick_major_width := 0, label_gap := 0, min := 0, max := 0, r_mod := 0 }
  let scale : lv_phasor_scale_t :=
    { zeroed with
      min := 0
      max := 360
      tick_cnt := 12
      tick_length := 1
      tick_width := 1
      label_gap := 0 }
  (scale, { phasor with scale_ll := scale :: phasor.scale_ll })

/-- The function `lv_phasor_set_scale_ticks`. -/
def lv_phasor_set_scale_ticks (scale : lv_phasor_scale_t) (cnt width len : Nat)
    (color : lv_color_t) : lv_phasor_scale_t × List InvEff :=
  let s1 := { scale with tick_cnt := cnt }
  let s2 := { s1 with tick_width := width }
  let s3 := { s2 with tick_length := len }
  let s4 := { s3 with tick_color := color }
  (s4, [.lv_obj_invalidate])

/-- The function `lv_phasor_set_scale_major_ticks`. -/
def lv_phasor_set_scale_major_ticks (scale : lv_phasor_scale_t) (nth width len : Nat)
    (color : lv_color_t) (label_gap : Int) : lv_phasor_scale_t × List InvEff :=
  let s1 := { scale with tick_major_nth := nth }
  let s2 := { s1 with tick_major_width := width }
  let s3 := { s2 with tick_major_length := len }
  let s4 := { s3 with tick_major_color := color }
  let s5 := { s4 with label_gap := label_gap }
  (s5, [.lv_obj_invalidate])

/-- The function `lv_phasor_add_phasor_line`: the new indicator, the widget with it at the
head of `indicator_ll`, and the invalidation. The node that `_lv_ll_ins_head`
returns is taken to be allocated (`LV_ASSERT_MALLOC`); it is zeroed by
`lv_memset_00` before the assignments. -/
def lv_phasor_add_phasor_line (K : Kit) (phasor : lv_phasor_t) (scale : Nat) (type : Nat)
    (width : Nat) (color : lv_color_t) (r_mod : Int) :
    lv_phasor_indicator_t × lv_phasor_t × List InvEff :=
  let indic : lv_phasor_indicator_t :=
    { scale := scale
      opa := K.LV_OPA_COVER
      type := type
      start_value := 0
      end_value := 0
      type_data := .phasor_line { width := width, color := color, r_mod := r_mod } }
  (indic, { phasor with indicator_ll := indic :: phasor.indicator_ll }, [.lv_obj_invalidate])

/-- The function `lv_phasor_add_arc`. -/
def lv_phasor_add_arc (K : Kit) (phasor : lv_phasor_t) (scale : Nat) (width : Nat)
    (color : lv_color_t) (r_mod : Int) : lv_phasor_indicator_t × lv_phasor_t × List InvEff :=
  let indic : lv_phasor_indicator_t :=
    { scale := scale
      opa := K.LV_OPA_COVER
      type := LV_PHASOR_INDICATOR_TYPE_ARC
      start_value := 0
      end_value := 0
      type_data := .arc { width := width, src := 0, color := color, r_mod := r_mod } }
  (indic, { phasor with indicator_ll := indic :: phasor.indicator_ll }, [.lv_obj_invalidate])

/-- The function `lv_phasor_add_scale_lines`. -/
def lv_phasor_add_scale_lines (K : Kit) (phasor : lv_phasor_t) (scale : Nat)
    (color_start color_end : lv_color_t) (is_local : Bool) (width_mod : Int) :
    lv_phasor_indicator_t × lv_phasor_t × List InvEff :=
  let indic : lv_phasor_indicator_t :=
    { scale := scale
      opa := K.LV_OPA_COVER
      type := LV_PHASOR_INDICATOR_TYPE_SCALE_LINES
      start_value := 0
      end_value := 0
      type_data := .scale_lines
        { color_start := color_start
          color_end := color_end
          local_grad := is_local
          width_mod := width_mod } }
  (indic, { phasor with indicator_ll := indic :: phasor.indicator_ll }, [.lv_obj_invalidate])

/-- The static function `inv_arc`: it reads the indicator and invalidates one area. -/
def inv_arc (K : Kit) (indic : lv_phasor_indicator_t) (old_value new_value : Int) :
    List InvEff :=
  let rounded := K.lv_obj_get_style_arc_rounded
  let scale_area := K.lv_obj_get_content_coords
  let r_out := K.to_coord (Int.tdiv (K.lv_area_get_width scale_area) 2)
  let scale_center : lv_point_t :=
    { x := K.to_coord (scale_area.x1 + r_out), y := K.to_coord (scale_area.y1 + r_out) }
  let r_out1 := K.to_coord (r_out + (indic.type_data.get_arc K).r_mod)
  let start_angle := old_value
  let end_angle := new_value
  let a := K.lv_draw_arc_get_area scale_center.x scale_center.y r_out1
    (min start_angle end_angle) (max start_angle end_angle)
    (indic.type_data.get_arc K).width rounded
  [.lv_obj_invalidate_area a]

/-- The static function `inv_line`. -/
def inv_line (K : Kit) (indic : lv_phasor_indicator_t) (value : Int) : List InvEff :=
  let scale_area := K.lv_obj_get_content_coords
  let r_out := K.to_coord (Int.tdiv (K.lv_area_get_width scale_area) 2)
  let scale_center : lv_point_t :=
    { x := K.to_coord (scale_area.x1 + r_out), y := K.to_coord (scale_area.y1 + r_out) }
  let scale := K.scale_at indic.scale
  if indic.type = LV_PHASOR_INDICATOR_TYPE_PHASOR_LINE then
    let angle := value
    let pl := indic.type_data.get_phasor_line K
    let r_out1 := K.to_coord (r_out + (scale.r_mod + pl.r_mod))
    let p_end_y := K.to_coord
      (scale_center.y - Int.tdiv (K.lv_trigo_sin angle * r_out1) K.LV_TRIGO_SIN_MAX)
    let p_end_x := K.to_coord
      (Int.tdiv (K.lv_trigo_cos angle * r_out1) K.LV_TRIGO_SIN_MAX + scale_center.x)
    let a : lv_area_t :=
      { x1 := K.to_coord (min scale_center.x p_end_x - pl.width - 2)
        y1 := K.to_coord (min scale_center.y p_end_y - pl.width - 2)
        x2 := K.to_coord (max scale_center.x p_end_x + pl.width + 2)
        y2 := K.to_coord (max scale_center.y p_end_y + pl.width + 2) }
    [.lv_obj_invalidate_area a]
  else
    []

/-- The function `lv_phasor_set_indicator_value`: the indicator after the call and the
invalidations made. -/
def lv_phasor_set_indicator_value (K : Kit) (indic : lv_phasor_indicator_t) (value : Int) :
    lv_phasor_indicator_t × List InvEff :=
  let old_start := indic.start_value
  let old_end := indic.end_value
  let indic1 := { indic with start_value := value }
  let indic2 := { indic1 with end_value := value }
  if indic2.type = LV_PHASOR_INDICATOR_TYPE_ARC then
    (indic2, inv_arc K indic2 old_start value ++ inv_arc K indic2 old_end value)
  else if indic2.type = LV_PHASOR_INDICATOR_TYPE_PHASOR_LINE then
    (indic2, inv_line K indic2 old_start ++ inv_line K indic2 old_end ++ inv_line K indic2 value)
  else
    (indic2, [.lv_obj_invalidate])

/-- The function `lv_phasor_set_indicator_start_value`. -/
def lv_phasor_set_indicator_start_value (K : Kit) (indic : lv_phasor_indicator_t)
    (value : Int) : lv_phasor_indicator_t × List InvEff :=
  let old_value := indic.start_value
  let indic1 := { indic with start_value := value }
  if indic1.type = LV_PHASOR_INDICATOR_TYPE_ARC then
    (indic1, inv_arc K indic1 old_value value)
  else if indic1.type = LV_PHASOR_INDICATOR_TYPE_PHASOR_LINE then
    (indic1, inv_line K indic1 old_value ++ inv_line K indic1 value)
  else
    (indic1, [.lv_obj_invalidate])

/-- The function `lv_phasor_set_indicator_end_value`. -/
def lv_phasor_set_indicator_end_value (K : Kit) (indic : lv_phasor_indicator_t)
    (value : Int) : lv_phasor_indicator_t × List InvEff :=
  let old_value := indic.end_value
  let indic1 := { indic with end_value := value }
  if indic1.type = LV_PHASOR_INDICATOR_TYPE_ARC then
    (indic1, inv_arc K indic1 old_value value)
  else if indic1.type = LV_PHASOR_INDICATOR_TYPE_PHASOR_LINE then
    (indic1, inv_line K indic1 old_value ++ inv_line K indic1 value)
  else
    (indic1, [.lv_obj_invalidate])

/-- The three mask parameters of `draw_ticks_and_labels`. -/
inductive MaskParam where
  | inner_minor_mask
  | inner_major_mask
  | outer_mask
deriving DecidableEq, Repr

/-- The two variables of `draw_ticks_and_labels` that hold a mask id. -/
inductive MaskIdVar where
  | outer_mask_id
  | inner_act_mask_id
deriving DecidableEq, Repr

/-- The event codes sent by `draw_ticks_and_labels`. -/
inductive lv_event_code_t where
  | LV_EVENT_DRAW_PART_BEGIN
  | LV_EVENT_DRAW_MAIN_END
deriving DecidableEq, Repr

/-- The fields of `part_draw_dsc` and of the line descriptor it points to, as
they are when an event is sent for a tick; `text` is the value printed into
`buf`, or `none` when `part_draw_dsc.text` is `NULL`. -/
structure TickDsc where
  id : Nat
  value : Int
  p1 : lv_point_t
  p2 : lv_point_t
  text : Option Int
  line_color : lv_color_t
  line_width : Int
deriving DecidableEq, Repr

/-- Drawing, mask and event calls of `draw_ticks_and_labels`. A mask id is
recorded as the variable that receives it or is passed. -/
inductive DrawEff where
  | lv_draw_mask_radius_init (m : MaskParam) (area : lv_area_t) (inv : Bool)
  | lv_draw_mask_add (m : MaskParam) (into : MaskIdVar)
  | lv_draw_mask_remove_id (id : MaskIdVar)
  | lv_draw_mask_free_param (m : MaskParam)
  | lv_event_send (code : lv_event_code_t) (dsc : TickDsc)
  | lv_draw_label (label_cord : lv_area_t) (text : Int)
  | lv_draw_line (color : lv_color_t) (width : Int) (p1 p2 : lv_point_t)
deriving DecidableEq, Repr

/-- One pass of the inner loop over the indicators in `draw_ticks_and_labels`:
the effect of one indicator on `(line_width, line_color)` of the current tick. -/
def scale_lines_step (K : Kit) (scale : lv_phasor_scale_t) (value_of_line : Int)
    (st : Int × lv_color_t) (indic : lv_phasor_indicator_t) : Int × lv_color_t :=
  if indic.type ≠ LV_PHASOR_INDICATOR_TYPE_SCALE_LINES then st
  else if value_of_line ≥ indic.start_value ∧ value_of_line ≤ indic.end_value then
    let sl := indic.type_data.get_scale_lines K
    let line_width := K.to_coord (st.1 + sl.width_mod)
    if K.lv_color_full sl.color_start = K.lv_color_full sl.color_end then
      (line_width, sl.color_start)
    else
      let ratio : Int :=
        (if sl.local_grad then
          K.lv_map value_of_line indic.start_value indic.end_value K.LV_OPA_TRANSP K.LV_OPA_COVER
        else
          K.lv_map value_of_line scale.min scale.max K.LV_OPA_TRANSP K.LV_OPA_COVER) % 256
      (line_width, K.lv_color_mix sl.color_end sl.color_start ratio.toNat)
  else st

/-- The values computed for one tick and the calls made for it. -/
structure Tick where
  id : Nat
  major : Bool
  value_of_line : Int
  line_color_ori : lv_color_t
  line_width_ori : Int
  line_color : lv_color_t
  line_width : Int
  inner_mask : MaskParam
  effects : List DrawEff
deriving DecidableEq, Repr

/-- The body of the `for` loop of `draw_ticks_and_labels` for tick `i`, after
`major` has been decided. -/
def tick_body (K : Kit) (indicators : List lv_phasor_indicator_t) (scale : lv_phasor_scale_t)
    (p_center : lv_point_t) (r_out r_in_major : Int) (i : Nat) (major : Bool) : Tick :=
  let value_of_line := K.lv_map i 0 ((scale.tick_cnt : Int) - 1) scale.min scale.max
  let line_color_ori := if major then scale.tick_major_color else scale.tick_color
  let line_width_ori : Int :=
    K.to_coord (if major then scale.tick_major_width else scale.tick_width)
  let st := indicators.reverse.foldl (scale_lines_step K scale value_of_line)
    (line_width_ori, line_color_ori)
  let line_width := st.1
  let line_color := st.2
  let angle_upscale := Int.tdiv (((i : Int) * 360) * 10) ((scale.tick_cnt : Int) - 1)
  let p_outer0 : lv_point_t :=
    { x := K.to_coord (p_center.x + r_out + max K.LV_DPI_DEF r_out), y := p_center.y }
  let p_outer := K.lv_point_transform p_outer0 angle_upscale 256 p_center
  let text_effects : List DrawEff :=
    if major then
      let r_text := u32 (r_in_major - scale.label_gap)
      let p0 : lv_point_t := { x := K.to_coord (u32 (p_center.x + r_text)), y := p_center.y }
      let p := K.lv_point_transform p0 (-angle_upscale) 256 p_center
      let label_size := K.lv_txt_get_size value_of_line
      let x1 := K.to_coord (p.x - Int.tdiv label_size.x 2)
      let y1 := K.to_coord (p.y - Int.tdiv label_size.y 2)
      let label_cord : lv_area_t :=
        { x1 := x1, y1 := y1, x2 := K.to_coord (x1 + label_size.x),
          y2 := K.to_coord (y1 + label_size.y) }
      [.lv_draw_mask_remove_id .outer_mask_id,
       .lv_event_send .LV_EVENT_DRAW_PART_BEGIN
         ⟨i, value_of_line, p_center, p_outer, some value_of_line, line_color, line_width⟩,
       .lv_draw_label label_cord value_of_line,
       .lv_draw_mask_add .outer_mask .outer_mask_id]
    else
      [.lv_event_send .LV_EVENT_DRAW_PART_BEGIN
         ⟨i, value_of_line, p_center, p_outer, none, line_color, line_width⟩]
  let inner_mask : MaskParam := if major then .inner_major_mask else .inner_minor_mask
  { id := i
    major := major
    value_of_line := value_of_line
    line_color_ori := line_color_ori
    line_width_ori := line_width_ori
    line_color := line_color
    line_width := line_width
    inner_mask := inner_mask
    effects := text_effects ++
      [.lv_draw_mask_add inner_mask .inner_act_mask_id,
       .lv_draw_line line_color line_width p_outer p_center,
       .lv_draw_mask_remove_id .inner_act_mask_id,
       .lv_event_send .LV_EVENT_DRAW_MAIN_END
         ⟨i, value_of_line, p_center, p_outer, if major then some value_of_line else none,
           line_color, line_width⟩] }

/-- The `for` loop of `draw_ticks_and_labels` from the state `(i, minor_cnt)`
(`i` is `uint16_t`, `minor_cnt` is `uint32_t`); `fuel` bounds the number of
iterations, `none` means it was used up. -/
def tick_loop (K : Kit) (indicators : List lv_phasor_indicator_t) (scale : lv_phasor_scale_t)
    (p_center : lv_point_t) (r_out r_in_major : Int) : Nat → Nat → Nat → Option (List Tick)
  | fuel, i, minor_cnt =>
    if (i : Int) < (scale.tick_cnt : Int) - 1 then
      match fuel with
      | 0 => none
      | fuel1 + 1 =>
        let minor_cnt1 := (minor_cnt + 1) % 4294967296
        let major : Bool := minor_cnt1 == scale.tick_major_nth
        let minor_cnt2 := if major then 0 else minor_cnt1
        match tick_loop K indicators scale p_center r_out r_in_major fuel1 ((i + 1) % 65536)
            minor_cnt2 with
        | none => none
        | some ts =>
          some (tick_body K indicators scale p_center r_out r_in_major i major :: ts)
    else
      some []

/-- The calls of a list of ticks, in order. -/
def ticksEffects : List Tick → List DrawEff
  | [] => []
  | t :: ts => t.effects ++ ticksEffects ts

/-- The body of the loop over the scales in `draw_ticks_and_labels`, for one
scale: the ticks drawn and all calls made; `none` when the loop fuel `65536` is used up. -/
def draw_scale_ticks (K : Kit) (phasor : lv_phasor_t) (p_center : lv_point_t) (r_edge : Int)
    (scale : lv_phasor_scale_t) : Option (List Tick × List DrawEff) :=
  let r_out := r_edge
  let r_in_minor := K.to_coord (r_out - scale.tick_length)
  let r_in_major := K.to_coord (r_out - scale.tick_major_length)
  let area_inner_minor : lv_area_t :=
    { x1 := K.to_coord (p_center.x - r_in_minor)
      y1 := K.to_coord (p_center.y - r_in_minor)
      x2 := K.to_coord (p_center.x + r_in_minor)
      y2 := K.to_coord (p_center.y + r_in_minor) }
  let area_inner_major : lv_area_t :=
    { x1 := K.to_coord (p_center.x - r_in_major)
      y1 := K.to_coord (p_center.y - r_in_major)
      x2 := K.to_coord (p_center.x + r_in_major - 1)
      y2 := K.to_coord (p_center.y + r_in_major - 1) }
  let area_outer : lv_area_t :=
    { x1 := K.to_coord (p_center.x - r_out)
      y1 := K.to_coord (p_center.y - r_out)
      x2 := K.to_coord (p_center.x + r_out - 1)
      y2 := K.to_coord (p_center.y + r_out - 1) }
  let minor_cnt : Nat := if scale.tick_major_nth ≠ 0 then scale.tick_major_nth - 1 else 0xFFFF
  match tick_loop K phasor.indicator_ll scale p_center r_out r_in_major 65536 0 minor_cnt with
  | none => none
  | some ts =>
    some (ts,
      [.lv_draw_mask_radius_init .inner_minor_mask area_inner_minor true,
       .lv_draw_mask_radius_init .inner_major_mask area_inner_major true,
       .lv_draw_mask_radius_init .outer_mask area_outer false,
       .lv_draw_mask_add .outer_mask .outer_mask_id] ++
      ticksEffects ts ++
      [.lv_draw_mask_free_param .inner_minor_mask,
       .lv_draw_mask_free_param .inner_major_mask,
       .lv_draw_mask_free_param .outer_mask,
       .lv_draw_mask_remove_id .outer_mask_id])

/-- The loop over the scales of `draw_ticks_and_labels`. -/
def draw_scales (K : Kit) (phasor : lv_phasor_t) (p_center : lv_point_t) (r_edge : Int) :
    List lv_phasor_scale_t → Option (List DrawEff)
  | [] => some []
  | scale :: rest =>
    match draw_scale_ticks K phasor p_center r_edge scale with
    | none => none
    | some r =>
      match draw_scales K phasor p_center r_edge rest with
      | none => none
      | some es => some (r.2 ++ es)

/-- The static function `draw_ticks_and_labels`. -/
def draw_ticks_and_labels (K : Kit) (phasor : lv_phasor_t) (scale_area : lv_area_t) :
    Option (List DrawEff) :=
  let r_edge := K.to_coord
    (min (Int.tdiv (K.lv_area_get_width scale_area) 2)
      (Int.tdiv (K.lv_area_get_height scale_area) 2))
  let p_center : lv_point_t :=
    { x := K.to_coord (scale_area.x1 + r_edge), y := K.to_coord (scale_area.y1 + r_edge) }
  draw_scales K phasor p_center r_edge phasor.scale_ll.reverse

/-- The number of `lv_draw_line` calls in a list of calls. -/
def countLines : List DrawEff → Nat
  | [] => 0
  | .lv_draw_line _ _ _ _ :: es => countLines es + 1
  | _ :: es => countLines es

/-- Whether a list of calls has a `lv_draw_label`. -/
def hasLabel : List DrawEff → Bool
  | [] => false
  | .lv_draw_label _ _ :: _ => true
  | _ :: es => hasLabel es

/-- A kit for concrete evaluations: coordinates kept as they are, a linear
`lv_map`, no rotation of points, zero-sized labels, a 200 by 200 content area. -/
def sampleKit : Kit :=
  { LV_OPA_TRANSP := 0
    LV_OPA_COVER := 255
    LV_DPI_DEF := 130
    LV_TRIGO_SIN_MAX := 32767
    to_coord := fun x => x
    lv_area_get_width := fun a => a.x2 - a.x1 + 1
    lv_area_get_height := fun a => a.y2 - a.y1 + 1
    lv_obj_get_content_coords := ⟨0, 0, 199, 199⟩
    lv_obj_get_style_arc_rounded := false
    lv_draw_arc_get_area := fun x y r _ _ _ _ => ⟨x - r, y - r, x + r, y + r⟩
    lv_trigo_sin := fun _ => 0
    lv_trigo_cos := fun _ => 32767
    lv_map := fun x min_in max_in min_out max_out =>
      if max_in = min_in then min_out
      else Int.tdiv ((x - min_in) * (max_out - min_out)) (max_in - min_in) + min_out
    lv_color_mix := fun c1 _ _ => c1
    lv_color_full := fun c => c.red * 65536 + c.green * 256 + c.blue
    lv_point_transform := fun p _ _ _ => p
    lv_txt_get_size := fun _ => ⟨0, 0⟩
    scale_at := fun _ => (lv_phasor_add_scale ⟨[], []⟩).1
    read_as_phasor_line := fun _ => ⟨0, 0, ⟨0, 0, 0, 0⟩⟩
    read_as_arc := fun _ => ⟨0, 0, ⟨0, 0, 0, 0⟩, 0⟩
    read_as_scale_lines := fun _ => ⟨0, ⟨0, 0, 0, 0⟩, ⟨0, 0, 0, 0⟩, false⟩ }

/-- A scale for concrete evaluations: 13 ticks of width 2 and length 10, every
third one major with width 4, length 15 and colour `(31, 0, 0)`. -/
def sampleScale : lv_phasor_scale_t :=
  (lv_phasor_set_scale_major_ticks
    (lv_phasor_set_scale_ticks (lv_phasor_add_scale ⟨[], []⟩).1 13 2 10 ⟨0, 0, 0, 0⟩).1
    3 4 15 ⟨31, 0, 0, 0⟩ 10).1

/-- A scale-lines indicator as `lv_phasor_add_scale_lines` returns it (range 0 to 0), of
colour `(0, 0, 31)` and width modifier 2. -/
def sampleScaleLines : lv_phasor_indicator_t :=
  (lv_phasor_add_scale_lines sampleKit ⟨[], []⟩ 0 ⟨0, 0, 31, 0⟩ ⟨0, 0, 31, 0⟩ false 2).1

end Phasor

namespace Pxp

/-- The configuration of the first `pxp_set_process_surface_buffer_config` of a trace. -/
def findPsBuffer : List BlitEff → Option pxp_ps_buffer_config_s
  | [] => none
  | .ext (.pxp_set_process_surface_buffer_config cfg) :: _ => some cfg
  | _ :: es => findPsBuffer es

/-- The arguments of the first `pxp_set_process_surface_position` of a trace. -/
def findPsPosition : List BlitEff → Option (Int × Int × Int × Int)
  | [] => none
  | .ext (.pxp_set_process_surface_position x1 y1 x2 y2) :: _ => some (x1, y1, x2, y2)
  | _ :: es => findPsPosition es

/-- The configuration of the first `pxp_set_alpha_surface_blend_config` of a trace. -/
def findAsBlend : List BlitEff → Option pxp_as_blend_config_s
  | [] => none
  | .ext (.pxp_set_alpha_surface_blend_config cfg) :: _ => some cfg
  | _ :: es => findAsBlend es

/-- The configuration of the first `pxp_set_output_buffer_config` of a trace. -/
def findOutputBuffer : List BlitEff → Option pxp_output_buffer_config_s
  | [] => none
  | .ext (.pxp_set_output_buffer_config cfg) :: _ => some cfg
  | _ :: es => findOutputBuffer es

/-- Where a trace stands with respect to the current job. -/
inductive Phase where
  /-- no job is outstanding -/
  | idle
  /-- `start()` was issued, its completion has not been signalled -/
  | started
  /-- `start()` was issued and its completion was signalled, `wait()` is still to come -/
  | signalled
deriving DecidableEq, Repr

/-- Whether no interrupt of the list comes with a completion. -/
def noCompletion (d : List Bool) : Bool :=
  d.all (fun c => !c)

/-- Whether a trace is well formed from a phase on: `start()` is issued only
when no job is outstanding, each `start()` is followed by exactly one interrupt
with a completion (before its `wait()` is called, or while it is pending) and
by a `wait()` before the next `start()`, and no completion comes without a job.
A trace may stop in the middle of a job. -/
def wellFormed : Phase → List Ev → Bool
  | _, [] => true
  | .idle, .start :: es => wellFormed .started es
  | .idle, .irq c :: es => !c && wellFormed .idle es
  | .idle, .wait d :: es => noCompletion d && wellFormed .idle es
  | .started, .start :: _ => false
  | .started, .irq c :: es => if c then wellFormed .signalled es else wellFormed .started es
  | .started, .wait d :: es => decide (d.count true = 1) && wellFormed .idle es
  | .signalled, .start :: _ => false
  | .signalled, .irq c :: es => !c && wellFormed .signalled es
  | .signalled, .wait d :: es => noCompletion d && wellFormed .idle es

/-- The relation between the state of the semaphore variant (`f`) and the state
of the spin variant (`b`) that holds along a well-formed trace, by phase. -/
def gatesAgree : Phase → Gate → Gate → Prop
  | .idle, f, b =>
    f.s_pxpIdle = true ∧ b.s_pxpIdle = true ∧ f.semCount = 0 ∧
      f.completeFlag = false ∧ b.completeFlag = false
  | .started, f, b =>
    f.s_pxpIdle = false ∧ b.s_pxpIdle = false ∧ f.semCount = 0 ∧
      f.completeFlag = false ∧ b.completeFlag = false
  | .signalled, f, b =>
    f.s_pxpIdle = false ∧ b.s_pxpIdle = true ∧ f.semCount = 1 ∧
      f.completeFlag = false ∧ b.completeFlag = false

theorem deliver_freertos_idle (c : Bool) (g : Gate) :
    (deliver .freertos c g).s_pxpIdle = g.s_pxpIdle := by
  unfold deliver imxrt_pxp_interrupt
  cases c <;> cases h : g.completeFlag <;>
    simp [h, hw_raise_complete, pxp_clear_status_flags, xSemaphoreGiveFromISR, call]

theorem deliver_idle_of_idle (v : Variant) (c : Bool) (g : Gate) (h : g.s_pxpIdle = true) :
    (deliver v c g).s_pxpIdle = true := by
  cases v
  · rw [deliver_freertos_idle]; exact h
  · unfold deliver imxrt_pxp_interrupt
    cases c <;> cases hf : g.completeFlag <;>
      simp [hf, h, hw_raise_complete, pxp_clear_status_flags, call]

theorem deliverAll_idle_of_idle (v : Variant) (cs : List Bool) (g : Gate)
    (h : g.s_pxpIdle = true) : (deliverAll v cs g).s_pxpIdle = true := by
  induction cs generalizing g with
  | nil => exact h
  | cons c cs ih => exact ih _ (deliver_idle_of_idle v c g h)

theorem takeLoop_idle (irqs : List Bool) (g : Gate) (n : Nat) (r : WaitResult)
    (h : takeLoop g n irqs = some r) : r.gate.s_pxpIdle = g.s_pxpIdle := by
  induction irqs generalizing g n with
  | nil =>
    unfold takeLoop at h
    split at h
    · cases h; rfl
    · cases h
  | cons c rest ih =>
    unfold takeLoop at h
    split at h
    · cases h; rfl
    · rw [ih _ _ h, deliver_freertos_idle]

theorem spinLoop_idle (irqs : List Bool) (g : Gate) (n : Nat) (r : WaitResult)
    (h : spinLoop g n irqs = some r) : r.gate.s_pxpIdle = true := by
  induction irqs generalizing g n with
  | nil =>
    unfold spinLoop at h
    split at h
    · cases h
    · cases h; simpa using ‹¬ g.s_pxpIdle = false›
  | cons c rest ih =>
    unfold spinLoop at h
    split at h
    · exact ih _ _ h
    · cases h; simpa using ‹¬ g.s_pxpIdle = false›

theorem wait_idle (v : Variant) (g : Gate) (irqs : List Bool) (r : WaitResult)
    (h : _lv_gpu_nxp_pxp_wait v g irqs = some r) : r.gate.s_pxpIdle = true := by
  cases v with
  | baremetal => exact spinLoop_idle irqs g 0 r h
  | freertos =>
    unfold _lv_gpu_nxp_pxp_wait at h
    simp only at h
    split at h
    · cases h; assumption
    · unfold xSemaphoreTake at h
      cases ht : takeLoop (call .xSemaphoreTake g) 0 irqs with
      | none => simp [ht] at h
      | some r0 => simp [ht] at h; subst h; rfl

theorem exec_obs_idle (v : Variant) (tr : List Ev) (g g' : Gate) (obs : List Obs)
    (h : exec v tr g = some (g', obs)) : ∀ o ∈ obs, o.idle = true := by
  induction tr generalizing g g' obs with
  | nil =>
    simp only [exec, Option.some.injEq, Prod.mk.injEq] at h
    rcases h with ⟨-, rfl⟩
    simp
  | cons e es ih =>
    cases e with
    | start => exact ih _ _ _ h
    | irq c => exact ih _ _ _ h
    | wait d =>
      simp only [exec] at h
      cases hw : _lv_gpu_nxp_pxp_wait v g d with
      | none => simp [hw] at h
      | some r =>
        cases he : exec v es (deliverAll v r.rest r.gate) with
        | none => simp [hw, he] at h
        | some p =>
          obtain ⟨g1, obs1⟩ := p
          simp only [hw, he, Option.some.injEq, Prod.mk.injEq] at h
          rcases h with ⟨-, rfl⟩
          intro o ho
          rcases List.mem_cons.mp ho with rfl | ho
          · exact wait_idle v g d r hw
          · exact ih _ _ _ he o ho

theorem exec_append (v : Variant) (a b : List Ev) (g g1 g2 : Gate) (o1 o2 : List Obs)
    (ha : exec v a g = some (g1, o1)) (hb : exec v b g1 = some (g2, o2)) :
    exec v (a ++ b) g = some (g2, o1 ++ o2) := by
  induction a generalizing g g1 o1 with
  | nil =>
    simp only [exec, Option.some.injEq, Prod.mk.injEq] at ha
    rcases ha with ⟨rfl, rfl⟩
    simpa using hb
  | cons e es ih =>
    cases e with
    | start => exact ih _ _ _ ha hb
    | irq c => exact ih _ _ _ ha hb
    | wait d =>
      simp only [exec, List.cons_append] at ha ⊢
      cases hw : _lv_gpu_nxp_pxp_wait v g d with
      | none => simp [hw] at ha
      | some r =>
        cases he : exec v es (deliverAll v r.rest r.gate) with
        | none => simp [hw, he] at ha
        | some p =>
          obtain ⟨g3, obs3⟩ := p
          simp only [hw, he, Option.some.injEq, Prod.mk.injEq] at ha
          rcases ha with ⟨rfl, rfl⟩
          simp [ih _ _ _ he hb]

theorem exec_irqs (v : Variant) (cs : List Bool) (es : List Ev) (g : Gate) :
    exec v (cs.map .irq ++ es) g = exec v es (deliverAll v cs g) := by
  induction cs generalizing g with
  | nil => rfl
  | cons c cs ih => simpa [exec, deliverAll] using ih (deliver v c g)

theorem deliver_freertos_sem_pos (c : Bool) (g : Gate) (h : 0 < g.semCount ∨ c = true) :
    0 < (deliver .freertos c g).semCount := by
  unfold deliver imxrt_pxp_interrupt
  rcases h with h | rfl
  · cases c <;> cases hf : g.completeFlag <;>
      simp [hf, hw_raise_complete, pxp_clear_status_flags, xSemaphoreGiveFromISR, call] <;>
      first | exact h | (split <;> omega)
  · simp [hw_raise_complete, pxp_clear_status_flags, xSemaphoreGiveFromISR, call]
    split <;> omega

theorem deliverAll_freertos_sem_pos (cs : List Bool) (g : Gate)
    (h : 0 < g.semCount ∨ true ∈ cs) : 0 < (deliverAll .freertos cs g).semCount := by
  induction cs generalizing g with
  | nil => simpa [deliverAll] using h
  | cons c cs ih =>
    apply ih
    rcases h with h | h
    · exact Or.inl (deliver_freertos_sem_pos c g (Or.inl h))
    · rcases List.mem_cons.mp h with h | h
      · exact Or.inl (deliver_freertos_sem_pos c g (Or.inr h.symm))
      · exact Or.inr h

theorem takeLoop_returns (irqs : List Bool) (g : Gate) (n : Nat)
    (h : 0 < g.semCount ∨ true ∈ irqs) : ∃ r, takeLoop g n irqs = some r := by
  induction irqs generalizing g n with
  | nil =>
    have hp : 0 < g.semCount := by simpa using h
    refine ⟨⟨{ g with semCount := g.semCount - 1 }, [], n⟩, ?_⟩
    simp [takeLoop, hp]
  | cons c rest ih =>
    unfold takeLoop
    split
    · exact ⟨_, rfl⟩
    · apply ih
      rcases h with h | h
      · exact absurd h ‹_›
      · rcases List.mem_cons.mp h with h | h
        · exact Or.inl (deliver_freertos_sem_pos c g (Or.inr h.symm))
        · exact Or.inr h

theorem deliver_baremetal_idle (c : Bool) (g : Gate) (h : g.s_pxpIdle = true ∨ c = true) :
    (deliver .baremetal c g).s_pxpIdle = true := by
  rcases h with h | rfl
  · exact deliver_idle_of_idle _ _ _ h
  · simp [deliver, imxrt_pxp_interrupt, hw_raise_complete, pxp_clear_status_flags, call]

theorem deliverAll_baremetal_idle (cs : List Bool) (g : Gate)
    (h : g.s_pxpIdle = true ∨ true ∈ cs) : (deliverAll .baremetal cs g).s_pxpIdle = true := by
  induction cs generalizing g with
  | nil => simpa [deliverAll] using h
  | cons c cs ih =>
    apply ih
    rcases h with h | h
    · exact Or.inl (deliver_baremetal_idle c g (Or.inl h))
    · rcases List.mem_cons.mp h with h | h
      · exact Or.inl (deliver_baremetal_idle c g (Or.inr h.symm))
      · exact Or.inr h

theorem spinLoop_returns (irqs : List Bool) (g : Gate) (n : Nat)
    (h : g.s_pxpIdle = true ∨ true ∈ irqs) : ∃ r, spinLoop g n irqs = some r := by
  induction irqs generalizing g n with
  | nil =>
    have hp : g.s_pxpIdle = true := by simpa using h
    refine ⟨⟨g, [], n⟩, ?_⟩
    simp [spinLoop, hp]
  | cons c rest ih =>
    unfold spinLoop
    split
    · apply ih
      rcases h with h | h
      · simp_all
      · rcases List.mem_cons.mp h with h | h
        · exact Or.inl (deliver_baremetal_idle c g (Or.inr h.symm))
        · exact Or.inr h
    · exact ⟨_, rfl⟩

theorem call_semCount (c : Call) (g : Gate) : (call c g).semCount = g.semCount := rfl

/-- A started job whose completion is signalled before or during `wait()`: the `wait()` returns. -/
theorem wait_returns_of_completion (v : Variant) (j : Job) (g : Gate)
    (h : true ∈ j.early ∨ true ∈ j.late) :
    ∃ r, _lv_gpu_nxp_pxp_wait v (deliverAll v j.early (_lv_gpu_nxp_pxp_run g)) j.late = some r := by
  cases v with
  | baremetal =>
    apply spinLoop_returns
    rcases h with h | h
    · exact Or.inl (deliverAll_baremetal_idle _ _ (Or.inr h))
    · exact Or.inr h
  | freertos =>
    unfold _lv_gpu_nxp_pxp_wait
    simp only
    split
    · exact ⟨_, rfl⟩
    · have ht : ∃ r, takeLoop (call .xSemaphoreTake
          (deliverAll .freertos j.early (_lv_gpu_nxp_pxp_run g))) 0 j.late = some r := by
        apply takeLoop_returns
        rcases h with h | h
        · left
          rw [call_semCount]
          exact deliverAll_freertos_sem_pos _ _ (Or.inr h)
        · exact Or.inr h
      obtain ⟨r, hr⟩ := ht
      simp [xSemaphoreTake, hr]

theorem exec_job (v : Variant) (j : Job) (g : Gate) (h : true ∈ j.early ∨ true ∈ j.late) :
    ∃ g1 o, exec v j.events g = some (g1, [o]) := by
  obtain ⟨r, hr⟩ := wait_returns_of_completion v j g h
  refine ⟨deliverAll v r.rest r.gate, ⟨r.gate.s_pxpIdle, r.blocked⟩, ?_⟩
  unfold Job.events
  simp only [exec]
  rw [exec_irqs]
  simp [exec, hr]

theorem exec_jobs (v : Variant) (js : List Job) (g : Gate)
    (h : ∀ j ∈ js, true ∈ j.early ∨ true ∈ j.late) :
    ∃ g1 obs, exec v (jobsTrace js) g = some (g1, obs) ∧ obs.length = js.length := by
  induction js generalizing g with
  | nil => exact ⟨g, [], rfl, rfl⟩
  | cons j js ih =>
    obtain ⟨g1, o, h1⟩ := exec_job v j g (h j (List.mem_cons_self _ _))
    obtain ⟨g2, obs, h2, hl⟩ := ih g1 (fun k hk => h k (List.mem_cons_of_mem _ hk))
    refine ⟨g2, [o] ++ obs, ?_, by simp [hl]⟩
    exact exec_append v _ _ g g1 g2 [o] obs h1 h2

theorem wait_freertos_busy (g : Gate) (irqs : List Bool) (hi : g.s_pxpIdle = false) :
    _lv_gpu_nxp_pxp_wait .freertos g irqs =
      (takeLoop (call .xSemaphoreTake g) 0 irqs).map
        (fun r => { r with gate := { r.gate with s_pxpIdle := true } }) := by
  unfold _lv_gpu_nxp_pxp_wait xSemaphoreTake
  cases h : takeLoop (call .xSemaphoreTake g) 0 irqs <;> simp [hi]

theorem wait_freertos_idle (g : Gate) (irqs : List Bool) (hi : g.s_pxpIdle = true) :
    _lv_gpu_nxp_pxp_wait .freertos g irqs = some ⟨g, irqs, 0⟩ := by
  simp [_lv_gpu_nxp_pxp_wait, hi]

theorem wait_baremetal_idle (g : Gate) (irqs : List Bool) (hi : g.s_pxpIdle = true) :
    _lv_gpu_nxp_pxp_wait .baremetal g irqs = some ⟨g, irqs, 0⟩ := by
  unfold _lv_gpu_nxp_pxp_wait
  cases irqs <;> simp [spinLoop, hi]

theorem wait_of_idle (v : Variant) (g : Gate) (irqs : List Bool) (hi : g.s_pxpIdle = true) :
    _lv_gpu_nxp_pxp_wait v g irqs = some ⟨g, irqs, 0⟩ := by
  cases v
  · exact wait_freertos_idle g irqs hi
  · exact wait_baremetal_idle g irqs hi

theorem takeLoop_of_pos (g : Gate) (n : Nat) (irqs : List Bool) (h : 0 < g.semCount) :
    takeLoop g n irqs = some ⟨{ g with semCount := g.semCount - 1 }, irqs, n⟩ := by
  cases irqs <;> simp [takeLoop, h]

theorem deliver_false_of_clear (v : Variant) (g : Gate) (h : g.completeFlag = false) :
    deliver v false g = g := by
  simp [deliver, imxrt_pxp_interrupt, h]

theorem takeLoop_spurious (n : Nat) (g : Gate) (k : Nat) (hs : g.semCount = 0)
    (hf : g.completeFlag = false) : takeLoop g k (List.replicate n false) = none := by
  induction n generalizing k with
  | zero => simp [takeLoop, hs]
  | succ n ih =>
    simp only [List.replicate_succ, takeLoop, hs, Nat.lt_irrefl, if_false]
    rw [deliver_false_of_clear _ g hf]
    exact ih (k + 1)

theorem spinLoop_spurious (n : Nat) (g : Gate) (k : Nat) (hi : g.s_pxpIdle = false)
    (hf : g.completeFlag = false) : spinLoop g k (List.replicate n false) = none := by
  induction n generalizing k with
  | zero => simp [spinLoop, hi]
  | succ n ih =>
    simp only [List.replicate_succ, spinLoop, hi, if_true]
    rw [deliver_false_of_clear _ g hf]
    exact ih (k + 1)

/-- After `start()` on a gate with an empty semaphore and a clear completion
flag, `wait()` does not return however many interrupts without a completion arrive. -/
theorem wait_blocks_without_completion (v : Variant) (g : Gate) (n : Nat)
    (hs : v = .freertos → g.semCount = 0) (hf : g.completeFlag = false) :
    _lv_gpu_nxp_pxp_wait v (_lv_gpu_nxp_pxp_run g) (List.replicate n false) = none := by
  cases v with
  | baremetal => exact spinLoop_spurious n _ 0 rfl hf
  | freertos =>
    have ht : takeLoop (call .xSemaphoreTake (_lv_gpu_nxp_pxp_run g)) 0
        (List.replicate n false) = none := takeLoop_spurious n _ 0 (hs rfl) hf
    rw [wait_freertos_busy _ _ rfl, ht]
    rfl

/-! ### The claims -/

/-- C1: for every trace of `start()`, completion-interrupt and `wait()` events,
in particular every trace in which each `start()` is followed by a `wait()`
before the next `start()`, `s_pxpIdle` is `true` right after each `wait()` that
returns; and in a trace of jobs (`start()` then `wait()`) in which every job's
completion is signalled before or during its `wait()`, every `wait()` does return. -/
theorem C1_gate_idle_after_each_wait (v : Variant) :
    (∀ (tr : List Ev) (g g' : Gate) (obs : List Obs),
        exec v tr g = some (g', obs) → ∀ o ∈ obs, o.idle = true) ∧
    (∀ (js : List Job) (g : Gate), (∀ j ∈ js, true ∈ j.early ∨ true ∈ j.late) →
        ∃ g' obs, exec v (jobsTrace js) g = some (g', obs) ∧ obs.length = js.length ∧
          ∀ o ∈ obs, o.idle = true) := by
  refine ⟨fun tr g g' obs h => exec_obs_idle v tr g g' obs h, fun js g h => ?_⟩
  obtain ⟨g', obs, he, hl⟩ := exec_jobs v js g h
  exact ⟨g', obs, he, hl, exec_obs_idle v _ g g' obs he⟩

/-- C1 at two jobs in the semaphore variant: one completion before `wait()`, one during it. -/
theorem C1_gate_idle_after_each_wait_witness :
    ∃ g' obs, exec .freertos (jobsTrace [⟨[true], []⟩, ⟨[false], [true]⟩])
        (_lv_gpu_nxp_pxp_interrupt_init .freertos true Gate.boot).2 = some (g', obs) ∧
      obs.length = 2 ∧ ∀ o ∈ obs, o.idle = true :=
  (C1_gate_idle_after_each_wait .freertos).2 [⟨[true], []⟩, ⟨[false], [true]⟩] _ (by decide)

/-- C2: after a successful `_lv_gpu_nxp_pxp_interrupt_init` and with no `start()` issued
(whatever interrupts arrive meanwhile), `_lv_gpu_nxp_pxp_wait` returns at once in both
variants: no interrupt is awaited (`blocked = 0`, the spin loop body is never
entered), and the state, log of external calls included, is unchanged, so the
semaphore variant returned on the `s_pxpIdle == true` check without calling `xSemaphoreTake`. -/
theorem C2_wait_without_start_returns (v : Variant) (created : Bool) (g : Gate)
    (cs irqs : List Bool)
    (hinit : (_lv_gpu_nxp_pxp_interrupt_init v created g).1 = .LV_RES_OK) :
    _lv_gpu_nxp_pxp_wait v (deliverAll v cs (_lv_gpu_nxp_pxp_interrupt_init v created g).2) irqs
      = some ⟨deliverAll v cs (_lv_gpu_nxp_pxp_interrupt_init v created g).2, irqs, 0⟩ := by
  have hidle : (_lv_gpu_nxp_pxp_interrupt_init v created g).2.s_pxpIdle = true := by
    cases v <;> cases created <;>
      simp_all [_lv_gpu_nxp_pxp_interrupt_init, xSemaphoreCreateBinary, call]
  exact wait_of_idle v _ irqs (deliverAll_idle_of_idle v cs _ hidle)

/-- C2 at boot state, semaphore variant, no interrupts. -/
theorem C2_wait_without_start_returns_witness :
    (_lv_gpu_nxp_pxp_interrupt_init .freertos true Gate.boot).1 = .LV_RES_OK ∧
    _lv_gpu_nxp_pxp_wait .freertos
        (deliverAll .freertos [] (_lv_gpu_nxp_pxp_interrupt_init .freertos true Gate.boot).2) []
      = some ⟨deliverAll .freertos [] (_lv_gpu_nxp_pxp_interrupt_init .freertos true Gate.boot).2,
          [], 0⟩ :=
  ⟨rfl, C2_wait_without_start_returns .freertos true Gate.boot [] [] rfl⟩

/-- C3: the completion signal is latched. After `start()` and a completion
interrupt, `wait()` returns without blocking (`blocked = 0`, no further
interrupt consumed) and leaves `s_pxpIdle = true`; in the semaphore variant the
flag is still `false` but a token is banked, and `wait()` takes it; in the spin
variant the flag is already `true` and `wait()` changes nothing. -/
theorem C3_completion_is_latched (v : Variant) (g : Gate) (irqs : List Bool) :
    ∃ g2, _lv_gpu_nxp_pxp_wait v (deliver v true (_lv_gpu_nxp_pxp_run g)) irqs
        = some ⟨g2, irqs, 0⟩ ∧ g2.s_pxpIdle = true ∧
      (v = .freertos →
        (deliver v true (_lv_gpu_nxp_pxp_run g)).s_pxpIdle = false ∧
        0 < (deliver v true (_lv_gpu_nxp_pxp_run g)).semCount ∧
        g2.semCount + 1 = (deliver v true (_lv_gpu_nxp_pxp_run g)).semCount) ∧
      (v = .baremetal →
        (deliver v true (_lv_gpu_nxp_pxp_run g)).s_pxpIdle = true ∧
        g2 = deliver v true (_lv_gpu_nxp_pxp_run g)) := by
  cases v with
  | baremetal =>
    have hi : (deliver .baremetal true (_lv_gpu_nxp_pxp_run g)).s_pxpIdle = true :=
      deliver_baremetal_idle _ _ (Or.inr rfl)
    exact ⟨_, wait_baremetal_idle _ irqs hi, hi, by simp, fun _ => ⟨hi, rfl⟩⟩
  | freertos =>
    have hi : (deliver .freertos true (_lv_gpu_nxp_pxp_run g)).s_pxpIdle = false := by
      rw [deliver_freertos_idle]; rfl
    have hs : 0 < (deliver .freertos true (_lv_gpu_nxp_pxp_run g)).semCount :=
      deliver_freertos_sem_pos _ _ (Or.inr rfl)
    have hs2 : 0 < (call .xSemaphoreTake
        (deliver .freertos true (_lv_gpu_nxp_pxp_run g))).semCount := hs
    refine ⟨{ (call .xSemaphoreTake (deliver .freertos true (_lv_gpu_nxp_pxp_run g))) with
        semCount := (deliver .freertos true (_lv_gpu_nxp_pxp_run g)).semCount - 1,
        s_pxpIdle := true }, ?_, rfl, fun _ => ⟨hi, hs, ?_⟩, by simp⟩
    · rw [wait_freertos_busy _ _ hi, takeLoop_of_pos _ _ _ hs2]
      rfl
    · simp only; omega

/-- C4: `wait()` is idempotent. After one `start()`, one completion signal
(before the first `wait()` is called, or while it is pending) and one `wait()`,
a second `_lv_gpu_nxp_pxp_wait` returns without blocking and leaves the state that the first
one left; more generally every `wait()` that directly follows a returned `wait()` does so. -/
theorem C4_wait_idempotent (v : Variant) (g : Gate) (irqs : List Bool) :
    (∃ r1, _lv_gpu_nxp_pxp_wait v (deliver v true (_lv_gpu_nxp_pxp_run g)) [] = some r1 ∧
      _lv_gpu_nxp_pxp_wait v (deliverAll v r1.rest r1.gate) irqs
        = some ⟨deliverAll v r1.rest r1.gate, irqs, 0⟩) ∧
    (∃ r1, _lv_gpu_nxp_pxp_wait v (_lv_gpu_nxp_pxp_run g) [true] = some r1 ∧
      _lv_gpu_nxp_pxp_wait v (deliverAll v r1.rest r1.gate) irqs
        = some ⟨deliverAll v r1.rest r1.gate, irqs, 0⟩) ∧
    (∀ (g0 : Gate) (during : List Bool) (r1 : WaitResult),
      _lv_gpu_nxp_pxp_wait v g0 during = some r1 →
      _lv_gpu_nxp_pxp_wait v r1.gate irqs = some ⟨r1.gate, irqs, 0⟩) := by
  refine ⟨?_, ?_, fun g0 during r1 h => wait_of_idle v _ irqs (wait_idle v g0 during r1 h)⟩
  · obtain ⟨r1, h1⟩ := wait_returns_of_completion v ⟨[true], []⟩ g (Or.inl (by simp))
    exact ⟨r1, h1, wait_of_idle v _ irqs
      (deliverAll_idle_of_idle v _ _ (wait_idle v _ _ r1 h1))⟩
  · obtain ⟨r1, h1⟩ := wait_returns_of_completion v ⟨[], [true]⟩ g (Or.inr (by simp))
    exact ⟨r1, h1, wait_of_idle v _ irqs
      (deliverAll_idle_of_idle v _ _ (wait_idle v _ _ r1 h1))⟩

/-- C5 fails as stated: in the semaphore variant, when the second completion
signal of a job arrives after that job's `wait()` has returned, the token
stays in the semaphore, and the `wait()` that follows the next `start()` returns
without blocking although no completion of that next job was signalled. -/
theorem C5_double_release_counterexample :
    (exec .freertos (doubleSignalThenNext .afterWait)
        (_lv_gpu_nxp_pxp_interrupt_init .freertos true Gate.boot).2).map Prod.snd
      = some [⟨true, 0⟩, ⟨true, 0⟩] := by
  decide

/-- C5 as amended: when the completion handler signals twice for one `start()`,
the extra signal is not banked for a later job in the spin variant (wherever
the second signal falls) nor in the semaphore variant when both signals
fall before that job's `wait()` takes the token (the binary semaphore holds at most
one token): the job's own `wait()` returns, and the `wait()` after the next `start()` does
not return as long as only interrupts without a completion arrive. -/
theorem C5_no_double_release_amended (v : Variant) (p : SecondSignal) (g : Gate) (n : Nat)
    (h : v = .baremetal ∨ (p = .beforeWait ∧ g.semCount ≤ 1)) :
    ∃ g1 o, exec v (doubleSignalJob p) g = some (g1, [o]) ∧
      _lv_gpu_nxp_pxp_wait v (_lv_gpu_nxp_pxp_run g1) (List.replicate n false) = none := by
  cases v with
  | baremetal =>
    have hi : ∀ x : Gate, (deliver .baremetal true x).s_pxpIdle = true :=
      fun x => deliver_baremetal_idle _ _ (Or.inr rfl)
    have hf : ∀ x : Gate, (deliver .baremetal true x).completeFlag = false := by
      intro x
      simp [deliver, imxrt_pxp_interrupt, hw_raise_complete, pxp_clear_status_flags, call]
    cases p with
    | beforeWait =>
      refine ⟨_, ⟨true, 0⟩, ?_, wait_blocks_without_completion .baremetal
        (deliver .baremetal true (deliver .baremetal true (_lv_gpu_nxp_pxp_run g))) n
        (by simp) (hf _)⟩
      simp [doubleSignalJob, exec, wait_baremetal_idle _ _ (hi _), deliverAll, hi]
    | afterWait =>
      refine ⟨_, ⟨true, 0⟩, ?_, wait_blocks_without_completion .baremetal
        (deliver .baremetal true (deliver .baremetal true (_lv_gpu_nxp_pxp_run g))) n
        (by simp) (hf _)⟩
      simp [doubleSignalJob, exec, wait_baremetal_idle _ _ (hi _), deliverAll, hi]
  | freertos =>
    rcases h with h | ⟨rfl, hs⟩
    · cases h
    · have hi : (deliver .freertos true (deliver .freertos true
          (_lv_gpu_nxp_pxp_run g))).s_pxpIdle = false := by
        rw [deliver_freertos_idle, deliver_freertos_idle]; rfl
      have hc : (deliver .freertos true (deliver .freertos true
          (_lv_gpu_nxp_pxp_run g))).semCount = 1 := by
        have : g.semCount = 0 ∨ g.semCount = 1 := by omega
        rcases this with h0 | h0 <;>
          simp [deliver, imxrt_pxp_interrupt, hw_raise_complete, pxp_clear_status_flags,
            xSemaphoreGiveFromISR, call, _lv_gpu_nxp_pxp_run, h0]
      have hf : (deliver .freertos true (deliver .freertos true
          (_lv_gpu_nxp_pxp_run g))).completeFlag = false := by
        simp [deliver, imxrt_pxp_interrupt, hw_raise_complete, pxp_clear_status_flags,
          xSemaphoreGiveFromISR, call]
      have hw : _lv_gpu_nxp_pxp_wait .freertos (deliver .freertos true (deliver .freertos true
          (_lv_gpu_nxp_pxp_run g))) [] = some ⟨{ (call .xSemaphoreTake (deliver .freertos true
            (deliver .freertos true (_lv_gpu_nxp_pxp_run g)))) with
              semCount := 0, s_pxpIdle := true }, [], 0⟩ := by
        rw [wait_freertos_busy _ _ hi,
          takeLoop_of_pos _ _ _ (by rw [call_semCount, hc]; exact Nat.one_pos)]
        simp [call_semCount, hc]
      refine ⟨{ (call .xSemaphoreTake (deliver .freertos true
            (deliver .freertos true (_lv_gpu_nxp_pxp_run g)))) with
              semCount := 0, s_pxpIdle := true }, ⟨true, 0⟩, ?_,
        wait_blocks_without_completion .freertos _ n (fun _ => rfl) hf⟩
      simp only [doubleSignalJob, exec, hw, deliverAll]

/-- C5 amended, at the boot state after `interrupt_init` in the semaphore variant. -/
theorem C5_no_double_release_amended_witness :
    ∃ g1 o, exec .freertos (doubleSignalJob .beforeWait)
        (_lv_gpu_nxp_pxp_interrupt_init .freertos true Gate.boot).2 = some (g1, [o]) ∧
      _lv_gpu_nxp_pxp_wait .freertos (_lv_gpu_nxp_pxp_run g1) (List.replicate 3 false) = none :=
  C5_no_double_release_amended .freertos .beforeWait _ 3 (Or.inr ⟨rfl, by decide⟩)

/-- C6: `_lv_gpu_nxp_pxp_run` stores `false` into `s_pxpIdle`, then calls
`pxp_enable_interrupts`, then `pxp_start`, in that order and nothing else: both
calls are issued with the flag already `false`, and the semaphore and the
completion flag are as before. -/
theorem C6_run_marks_busy_before_start (g : Gate) :
    (_lv_gpu_nxp_pxp_run g).s_pxpIdle = false ∧
    (_lv_gpu_nxp_pxp_run g).log
      = g.log ++ [(.pxp_enable_interrupts, false), (.pxp_start, false)] ∧
    (_lv_gpu_nxp_pxp_run g).semCount = g.semCount ∧
    (_lv_gpu_nxp_pxp_run g).semCreated = g.semCreated ∧
    (_lv_gpu_nxp_pxp_run g).completeFlag = g.completeFlag := by
  simp [_lv_gpu_nxp_pxp_run, call]

/-- C8: `lv_gpu_nxp_pxp_init` returns `LV_RES_OK` exactly when the configuration is
present, its four hooks are all non-null and `pxp_interrupt_init` returns
`LV_RES_OK`. When the configuration or a hook is missing it returns `LV_RES_INV`
with no external call made; otherwise it calls `pxp_init`, `pxp_enable_csc1(false)`,
`pxp_set_process_block_size`, `pxp_enable_interrupts` and the init hook, and when the
hook fails it calls `pxp_disable_interrupts` and returns `LV_RES_INV`. -/
theorem C8_init_result (auto_init pxp_cfg : Option lv_nxp_pxp_cfg_t) (g : Gate) :
    ((lv_gpu_nxp_pxp_init auto_init pxp_cfg g).1 = .LV_RES_OK ↔
      ∃ i d r w, pxp_cfg_assign auto_init pxp_cfg = some ⟨some i, some d, some r, some w⟩ ∧
        (i (call .pxp_enable_interrupts (call (.pxp_set_process_block_size 16)
          (call (.pxp_enable_csc1 false) (call .pxp_init g))))).1 = .LV_RES_OK) ∧
    ((lv_gpu_nxp_pxp_init auto_init pxp_cfg g).1 ≠ .LV_RES_OK →
      (lv_gpu_nxp_pxp_init auto_init pxp_cfg g).1 = .LV_RES_INV) ∧
    ((∀ c, pxp_cfg_assign auto_init pxp_cfg = some c →
        c.pxp_interrupt_init = none ∨ c.pxp_interrupt_deinit = none ∨
        c.pxp_run = none ∨ c.pxp_wait = none) →
      lv_gpu_nxp_pxp_init auto_init pxp_cfg g = (.LV_RES_INV, g)) ∧
    (∀ i d r w, pxp_cfg_assign auto_init pxp_cfg = some ⟨some i, some d, some r, some w⟩ →
      (i (call .pxp_enable_interrupts (call (.pxp_set_process_block_size 16)
          (call (.pxp_enable_csc1 false) (call .pxp_init g))))).1 ≠ .LV_RES_OK →
      lv_gpu_nxp_pxp_init auto_init pxp_cfg g =
        (.LV_RES_INV, call .pxp_disable_interrupts
          (i (call .pxp_enable_interrupts (call (.pxp_set_process_block_size 16)
            (call (.pxp_enable_csc1 false) (call .pxp_init g))))).2)) ∧
    (∀ i d r w, pxp_cfg_assign auto_init pxp_cfg = some ⟨some i, some d, some r, some w⟩ →
      (i (call .pxp_enable_interrupts (call (.pxp_set_process_block_size 16)
          (call (.pxp_enable_csc1 false) (call .pxp_init g))))).1 = .LV_RES_OK →
      lv_gpu_nxp_pxp_init auto_init pxp_cfg g =
        (.LV_RES_OK, (i (call .pxp_enable_interrupts (call (.pxp_set_process_block_size 16)
            (call (.pxp_enable_csc1 false) (call .pxp_init g))))).2)) := by
  unfold lv_gpu_nxp_pxp_init
  cases hc : pxp_cfg_assign auto_init pxp_cfg with
  | none => simp
  | some cfg =>
    obtain ⟨i, d, r, w⟩ := cfg
    cases i <;> cases d <;> cases r <;> cases w <;> simp
    rename_i i d r w
    cases hres : (i (call .pxp_enable_interrupts (call (.pxp_set_process_block_size 16)
          (call (.pxp_enable_csc1 false) (call .pxp_init g))))).1 <;> simp [hres] <;>
      refine ⟨?_, ?_⟩ <;> intros <;> subst_vars <;> simp_all

theorem lowerAll_append (a b : List BlitEff) : lowerAll (a ++ b) = lowerAll a ++ lowerAll b := by
  induction a with
  | nil => rfl
  | cons e es ih => simp [lowerAll, ih]

theorem runsSeparated_append (xs ys : List HookEff) (b b1 : Bool)
    (h : runsSeparated b xs = some b1) :
    runsSeparated b (xs ++ ys) = runsSeparated b1 ys := by
  induction xs generalizing b with
  | nil =>
    simp only [runsSeparated, Option.some.injEq] at h
    subst h; rfl
  | cons e es ih =>
    cases e with
    | pxp_wait => exact ih _ h
    | pxp_interrupt_deinit => exact ih _ h
    | ext c => exact ih _ h
    | pxp_run =>
      cases b with
      | true => simp [runsSeparated] at h
      | false => exact ih _ h

theorem fill_separated (T : Toolkit) (dest_buf : Int) (dest_area : lv_area_t)
    (dest_stride : Int) (color : lv_color_t) (opa : Nat) (b : Bool) :
    runsSeparated b (lowerAll (lv_gpu_nxp_pxp_fill T dest_buf dest_area dest_stride color opa))
      = some true := by
  unfold lv_gpu_nxp_pxp_fill
  split_ifs <;>
    simp [lowerAll, BlitEff.lower, lv_gpu_nxp_pxp_reset, lv_gpu_nxp_pxp_wait,
      lv_gpu_nxp_pxp_run, runsSeparated]

theorem blit_separated (T : Toolkit) (dest_buf : Int) (dest_area : lv_area_t)
    (dest_stride : Int) (src_buf : Int) (src_area : lv_area_t) (src_stride : Int)
    (opa : Nat) (angle : lv_disp_rot_t) (b : Bool) :
    runsSeparated b (lowerAll (lv_gpu_nxp_pxp_blit T dest_buf dest_area dest_stride src_buf
      src_area src_stride opa angle)) = some true := by
  unfold lv_gpu_nxp_pxp_blit
  split_ifs <;>
    simp [lowerAll, BlitEff.lower, lv_gpu_nxp_pxp_reset, lv_gpu_nxp_pxp_wait,
      lv_gpu_nxp_pxp_run, runsSeparated]

theorem blit_cover_separated (T : Toolkit) (dest_buf : Int) (dest_area : lv_area_t)
    (dest_stride : Int) (src_buf : Int) (src_area : lv_area_t) (src_stride : Int)
    (dsc : lv_draw_img_dsc_t) (cf : Nat) (b : Bool) :
    runsSeparated b (lowerAll (lv_pxp_blit_cover T dest_buf dest_area dest_stride src_buf
      src_area src_stride dsc cf).1) = some true := by
  unfold lv_pxp_blit_cover
  simp only
  split_ifs <;>
    simp [lowerAll, BlitEff.lower, lv_gpu_nxp_pxp_reset, lv_gpu_nxp_pxp_wait,
      lv_gpu_nxp_pxp_run, runsSeparated]

theorem blit_cf_separated (T : Toolkit) (dest_buf : Int) (dest_area : lv_area_t)
    (dest_stride : Int) (src_buf : Int) (src_area : lv_area_t) (src_stride : Int)
    (dsc : lv_draw_img_dsc_t) (cf : Nat) (b : Bool) :
    runsSeparated b (lowerAll (lv_pxp_blit_cf T dest_buf dest_area dest_stride src_buf
      src_area src_stride dsc cf)) = some true := by
  unfold lv_pxp_blit_cf
  simp only
  split_ifs <;>
    simp [lowerAll, BlitEff.lower, lv_gpu_nxp_pxp_reset, lv_gpu_nxp_pxp_wait,
      lv_gpu_nxp_pxp_run, runsSeparated]

theorem blit_opa_separated (T : Toolkit) (temp_buf dest_buf : Int) (dest_area : lv_area_t)
    (dest_stride : Int) (src_buf : Int) (src_area : lv_area_t) (src_stride : Int)
    (dsc : lv_draw_img_dsc_t) (cf : Nat) (b : Bool) :
    runsSeparated b (lowerAll (lv_pxp_blit_opa T temp_buf dest_buf dest_area dest_stride src_buf
      src_area src_stride dsc cf)) = some true := by
  unfold lv_pxp_blit_opa
  simp only [lowerAll_append]
  rw [List.append_assoc, runsSeparated_append _ _ b b (by simp [lowerAll, BlitEff.lower,
    runsSeparated]), runsSeparated_append _ _ b true (blit_cover_separated ..)]
  exact blit_cf_separated ..

theorem buffer_copy_separated (T : Toolkit) (dest_buf : Int) (dest_area : lv_area_t)
    (dest_stride : Int) (src_buf : Int) (src_area : lv_area_t) (src_stride : Int) (b : Bool) :
    runsSeparated b (lowerAll (lv_gpu_nxp_pxp_buffer_copy T dest_buf dest_area dest_stride
      src_buf src_area src_stride)) = some false := by
  simp [lv_gpu_nxp_pxp_buffer_copy, lowerAll, BlitEff.lower, lv_gpu_nxp_pxp_reset,
    lv_gpu_nxp_pxp_wait, runsSeparated]

theorem op_separated (T : Toolkit) (op : BlitOp) (b : Bool) :
    ∃ b1, runsSeparated b (lowerAll (op.effects T)) = some b1 := by
  cases op with
  | fill => exact ⟨_, fill_separated ..⟩
  | blit => exact ⟨_, blit_separated ..⟩
  | buffer_copy => exact ⟨_, buffer_copy_separated ..⟩
  | blit_transform temp_buf dest_buf dest_area dest_stride src_buf src_area src_stride dsc cf =>
    simp only [BlitOp.effects, lv_gpu_nxp_pxp_blit_transform]
    split_ifs
    · exact ⟨_, blit_cover_separated ..⟩
    · exact ⟨_, blit_opa_separated ..⟩
    · exact ⟨_, blit_cf_separated ..⟩

theorem ops_separated (T : Toolkit) (ops : List BlitOp) (b : Bool) :
    ∃ b1, runsSeparated b (blitTrace T ops) = some b1 := by
  induction ops generalizing b with
  | nil => exact ⟨b, rfl⟩
  | cons op ops ih =>
    obtain ⟨b1, h1⟩ := op_separated T op b
    obtain ⟨b2, h2⟩ := ih b1
    exact ⟨b2, by simp only [blitTrace]; rw [runsSeparated_append _ _ b b1 h1, h2]⟩

theorem runHooks_reset (v : Variant) (created : Bool) (g : Gate) (irqs : List Bool) :
    runHooks (pxp_default_cfg v created) lv_gpu_nxp_pxp_reset g irqs 0 =
      (_lv_gpu_nxp_pxp_wait v g irqs).map (fun rw =>
        ⟨call (.pxp_set_process_block_size 16) (call (.pxp_enable_csc1 false)
          (call .pxp_reset_control rw.gate)), rw.rest, rw.blocked⟩) := by
  cases h : _lv_gpu_nxp_pxp_wait v g irqs <;>
    simp [lv_gpu_nxp_pxp_reset, lv_gpu_nxp_pxp_wait, runHooks, pxp_default_cfg, h]

/-- C9: `lv_gpu_nxp_pxp_reset` calls the wait hook first and `pxp_reset_control`,
`pxp_enable_csc1(false)`, `pxp_set_process_block_size` after it, in this order. With the
hooks of lv_gpu_nxp_pxp_osa.c: when `wait()` does not return, `reset` does not
return either (no register is touched), and when it returns the three
register calls are all issued with `s_pxpIdle = true`. Every entry point of
lv_draw_pxp_blend.c resets before it runs a job, so in the trace of any
sequence of blit-layer calls no `pxp_run` follows another `pxp_run` without a
`pxp_wait` in between, whatever was outstanding at the start. -/
theorem C9_reset_waits_first (T : Toolkit) :
    lv_gpu_nxp_pxp_reset =
      [.pxp_wait, .ext .pxp_reset_control, .ext (.pxp_enable_csc1 false),
        .ext (.pxp_set_process_block_size 16)] ∧
    (∀ (v : Variant) (created : Bool) (g : Gate) (irqs : List Bool),
      (_lv_gpu_nxp_pxp_wait v g irqs = none →
        runHooks (pxp_default_cfg v created) lv_gpu_nxp_pxp_reset g irqs 0 = none) ∧
      (∀ rw, _lv_gpu_nxp_pxp_wait v g irqs = some rw →
        ∃ r, runHooks (pxp_default_cfg v created) lv_gpu_nxp_pxp_reset g irqs 0 = some r ∧
          r.gate.log = rw.gate.log ++
            [(.pxp_reset_control, true), (.pxp_enable_csc1 false, true),
              (.pxp_set_process_block_size 16, true)] ∧
          r.rest = rw.rest ∧ r.blocked = rw.blocked ∧ r.gate.s_pxpIdle = true)) ∧
    (∀ (ops : List BlitOp) (b : Bool), ∃ b1, runsSeparated b (blitTrace T ops) = some b1) := by
  refine ⟨rfl, fun v created g irqs => ⟨fun h => ?_, fun rw h => ?_⟩, ops_separated T⟩
  · rw [runHooks_reset, h]; rfl
  · have hi := wait_idle v g irqs rw h
    refine ⟨⟨call (.pxp_set_process_block_size 16) (call (.pxp_enable_csc1 false)
      (call .pxp_reset_control rw.gate)), rw.rest, rw.blocked⟩, ?_, ?_, rfl, rfl, hi⟩
    · rw [runHooks_reset, h]; rfl
    · simp [call, hi]

/-- C10 (the code departs from the claim): `lv_gpu_nxp_pxp_buffer_copy` never calls
`lv_gpu_nxp_pxp_run`; it starts the copy with `pxp_start_picture_copy` while `s_pxpIdle` is
still `true`. Entered with the gate Idle, it returns with no interrupt awaited
(`blocked = 0`, the pending interrupts untouched) whatever interrupts are still
to come, so its final `wait()` does not wait for the completion of the copy. -/
theorem C10_buffer_copy_does_not_wait (T : Toolkit) (v : Variant) (created : Bool)
    (dest_buf : Int) (dest_area : lv_area_t) (dest_stride : Int) (src_buf : Int)
    (src_area : lv_area_t) (src_stride : Int) (g : Gate) (irqs : List Bool)
    (hidle : g.s_pxpIdle = true) :
    BlitEff.lv_gpu_nxp_pxp_run ∉ lv_gpu_nxp_pxp_buffer_copy T dest_buf dest_area dest_stride
      src_buf src_area src_stride ∧
    HookEff.pxp_run ∉ lowerAll (lv_gpu_nxp_pxp_buffer_copy T dest_buf dest_area dest_stride
      src_buf src_area src_stride) ∧
    ∃ cfg g', runHooks (pxp_default_cfg v created)
        (lowerAll (lv_gpu_nxp_pxp_buffer_copy T dest_buf dest_area dest_stride
          src_buf src_area src_stride)) g irqs 0 = some ⟨g', irqs, 0⟩ ∧
      g'.s_pxpIdle = true ∧ g'.semCount = g.semCount ∧
      g'.log = g.log ++
        [(.pxp_reset_control, true), (.pxp_enable_csc1 false, true),
          (.pxp_set_process_block_size 16, true), (.pxp_start_picture_copy cfg, true)] := by
  refine ⟨by simp [lv_gpu_nxp_pxp_buffer_copy], ?_, ?_⟩
  · simp [lv_gpu_nxp_pxp_buffer_copy, lowerAll, BlitEff.lower, lv_gpu_nxp_pxp_reset,
      lv_gpu_nxp_pxp_wait]
  · have h1 := wait_of_idle v g irqs hidle
    refine ⟨picCopyConfig T dest_buf dest_area dest_stride src_buf src_area src_stride,
      call (.pxp_start_picture_copy
        (picCopyConfig T dest_buf dest_area dest_stride src_buf src_area src_stride))
        (call (.pxp_set_process_block_size 16) (call (.pxp_enable_csc1 false)
          (call .pxp_reset_control g))), ?_, ?_, ?_, ?_⟩
    · simp only [lv_gpu_nxp_pxp_buffer_copy, lowerAll, BlitEff.lower, lv_gpu_nxp_pxp_reset,
        lv_gpu_nxp_pxp_wait, List.cons_append, List.nil_append, List.append_nil, runHooks,
        pxp_default_cfg, h1, Nat.add_zero]
      rw [wait_of_idle v _ irqs (by simp [call, hidle])]
      simp
    · simp [call, hidle]
    · simp [call]
    · simp [call, hidle]

/-- C10 at the state left by `lv_gpu_nxp_pxp_init` in the semaphore variant, with no
interrupt at all: the copy function returns although the completion of the
copy is never signalled. -/
theorem C10_buffer_copy_does_not_wait_witness :
    (lv_gpu_nxp_pxp_init (some (lv_gpu_nxp_pxp_get_cfg .freertos true)) none Gate.boot).2.s_pxpIdle
      = true ∧
    ∃ cfg g', runHooks (pxp_default_cfg .freertos true)
        (lowerAll (lv_gpu_nxp_pxp_buffer_copy sampleToolkit 4096 ⟨0, 0, 7, 7⟩ 8
          8192 ⟨0, 0, 7, 7⟩ 8))
        (lv_gpu_nxp_pxp_init (some (lv_gpu_nxp_pxp_get_cfg .freertos true)) none Gate.boot).2
        [] 0 = some ⟨g', [], 0⟩ ∧
      g'.s_pxpIdle = true ∧
      g'.semCount =
        (lv_gpu_nxp_pxp_init (some (lv_gpu_nxp_pxp_get_cfg .freertos true)) none
          Gate.boot).2.semCount ∧
      g'.log =
        (lv_gpu_nxp_pxp_init (some (lv_gpu_nxp_pxp_get_cfg .freertos true)) none
          Gate.boot).2.log ++
        [(.pxp_reset_control, true), (.pxp_enable_csc1 false, true),
          (.pxp_set_process_block_size 16, true), (.pxp_start_picture_copy cfg, true)] :=
  ⟨by decide,
    (C10_buffer_copy_does_not_wait sampleToolkit .freertos true 4096 ⟨0, 0, 7, 7⟩ 8
      8192 ⟨0, 0, 7, 7⟩ 8 _ [] (by decide)).2.2⟩

/-- The sibling path: after `lv_gpu_nxp_pxp_fill`, which starts its job through
`lv_gpu_nxp_pxp_run`, a `wait()` with no completion signalled does not return. -/
theorem fill_then_wait_blocks_example :
    runHooks (pxp_default_cfg .freertos true)
      (lowerAll (lv_gpu_nxp_pxp_fill sampleToolkit 4096 ⟨0, 0, 7, 7⟩ 8 ⟨1, 2, 3, 0⟩ 255) ++
        lv_gpu_nxp_pxp_wait)
      (lv_gpu_nxp_pxp_init (some (lv_gpu_nxp_pxp_get_cfg .freertos true)) none Gate.boot).2
      [] 0 = none := by
  decide

/-- After a copy, the completion of the copy leaves a token in the semaphore
(nobody waited for it); the `wait()` after the next job started by
`lv_gpu_nxp_pxp_fill` then returns without blocking with no completion of that job. -/
theorem buffer_copy_banks_token_example :
    (runHooks (pxp_default_cfg .freertos true)
      (lowerAll (lv_gpu_nxp_pxp_fill sampleToolkit 4096 ⟨0, 0, 7, 7⟩ 8 ⟨1, 2, 3, 0⟩ 255) ++
        lv_gpu_nxp_pxp_wait)
      (deliver .freertos true ((runHooks (pxp_default_cfg .freertos true)
        (lowerAll (lv_gpu_nxp_pxp_buffer_copy sampleToolkit 4096 ⟨0, 0, 7, 7⟩ 8
          8192 ⟨0, 0, 7, 7⟩ 8))
        (lv_gpu_nxp_pxp_init (some (lv_gpu_nxp_pxp_get_cfg .freertos true)) none Gate.boot).2
        [] 0).map WaitResult.gate |>.getD Gate.boot))
      [] 0).map WaitResult.blocked = some 0 := by
  decide

theorem configsThenRun_spec (es : List BlitEff) (h : configsThenRun es = true) :
    ∃ cs : List Call, (∀ c ∈ cs, c.isRegisterConfig = true) ∧
      es = cs.map BlitEff.ext ++ [.lv_gpu_nxp_pxp_run] := by
  induction es with
  | nil => simp [configsThenRun] at h
  | cons e es ih =>
    cases e with
    | lv_gpu_nxp_pxp_reset => simp [configsThenRun] at h
    | lv_gpu_nxp_pxp_wait => simp [configsThenRun] at h
    | lv_gpu_nxp_pxp_run =>
      simp only [configsThenRun, List.isEmpty_iff] at h
      subst h
      exact ⟨[], by simp, rfl⟩
    | ext c =>
      simp only [configsThenRun, Bool.and_eq_true] at h
      obtain ⟨cs, hcs, rfl⟩ := ih h.2
      refine ⟨c :: cs, ?_, rfl⟩
      intro c1 hc1
      rcases List.mem_cons.mp hc1 with rfl | hc1
      · exact h.1
      · exact hcs c1 hc1

theorem asyncShape_spec (tr : List BlitEff) (h : asyncShape tr = true) :
    ∃ cs : List Call, (∀ c ∈ cs, c.isRegisterConfig = true) ∧
      tr = .lv_gpu_nxp_pxp_reset :: (cs.map BlitEff.ext ++ [.lv_gpu_nxp_pxp_run]) := by
  cases tr with
  | nil => simp [asyncShape] at h
  | cons e es =>
    cases e with
    | lv_gpu_nxp_pxp_reset =>
      obtain ⟨cs, hcs, rfl⟩ := configsThenRun_spec es h
      exact ⟨cs, hcs, rfl⟩
    | lv_gpu_nxp_pxp_wait => simp [asyncShape] at h
    | lv_gpu_nxp_pxp_run => simp [asyncShape] at h
    | ext c => simp [asyncShape] at h

theorem fill_asyncShape (T : Toolkit) (dest_buf : Int) (dest_area : lv_area_t)
    (dest_stride : Int) (color : lv_color_t) (opa : Nat) :
    asyncShape (lv_gpu_nxp_pxp_fill T dest_buf dest_area dest_stride color opa) = true := by
  unfold lv_gpu_nxp_pxp_fill
  split_ifs <;> simp [asyncShape, configsThenRun, Call.isRegisterConfig]

theorem blit_asyncShape (T : Toolkit) (dest_buf : Int) (dest_area : lv_area_t)
    (dest_stride : Int) (src_buf : Int) (src_area : lv_area_t) (src_stride : Int)
    (opa : Nat) (angle : lv_disp_rot_t) :
    asyncShape (lv_gpu_nxp_pxp_blit T dest_buf dest_area dest_stride src_buf src_area
      src_stride opa angle) = true := by
  unfold lv_gpu_nxp_pxp_blit
  split_ifs <;> simp [asyncShape, configsThenRun, Call.isRegisterConfig]

theorem blit_cover_asyncShape (T : Toolkit) (dest_buf : Int) (dest_area : lv_area_t)
    (dest_stride : Int) (src_buf : Int) (src_area : lv_area_t) (src_stride : Int)
    (dsc : lv_draw_img_dsc_t) (cf : Nat) :
    asyncShape (lv_pxp_blit_cover T dest_buf dest_area dest_stride src_buf src_area
      src_stride dsc cf).1 = true := by
  unfold lv_pxp_blit_cover
  simp only
  split_ifs <;> simp [asyncShape, configsThenRun, Call.isRegisterConfig]

theorem blit_cf_asyncShape (T : Toolkit) (dest_buf : Int) (dest_area : lv_area_t)
    (dest_stride : Int) (src_buf : Int) (src_area : lv_area_t) (src_stride : Int)
    (dsc : lv_draw_img_dsc_t) (cf : Nat) :
    asyncShape (lv_pxp_blit_cf T dest_buf dest_area dest_stride src_buf src_area
      src_stride dsc cf) = true := by
  unfold lv_pxp_blit_cf
  simp only
  split_ifs <;> simp [asyncShape, configsThenRun, Call.isRegisterConfig]

/-- C11: for every argument value, the trace of each asynchronous blit
operation (`lv_gpu_nxp_pxp_fill`, `lv_gpu_nxp_pxp_blit`, `lv_pxp_blit_cover`, `lv_pxp_blit_cf`) is one
`lv_gpu_nxp_pxp_reset`, then register-configuration calls only, then one
`lv_gpu_nxp_pxp_run` as its last effect: nothing, in particular no `wait()`, follows the run. -/
theorem C11_async_ops_reset_config_run (T : Toolkit) :
    (∀ (dest_buf : Int) (dest_area : lv_area_t) (dest_stride : Int) (color : lv_color_t)
        (opa : Nat),
      ∃ cs : List Call, (∀ c ∈ cs, c.isRegisterConfig = true) ∧
        lv_gpu_nxp_pxp_fill T dest_buf dest_area dest_stride color opa =
          .lv_gpu_nxp_pxp_reset :: (cs.map BlitEff.ext ++ [.lv_gpu_nxp_pxp_run])) ∧
    (∀ (dest_buf : Int) (dest_area : lv_area_t) (dest_stride : Int) (src_buf : Int)
        (src_area : lv_area_t) (src_stride : Int) (opa : Nat) (angle : lv_disp_rot_t),
      ∃ cs : List Call, (∀ c ∈ cs, c.isRegisterConfig = true) ∧
        lv_gpu_nxp_pxp_blit T dest_buf dest_area dest_stride src_buf src_area src_stride opa angle =
          .lv_gpu_nxp_pxp_reset :: (cs.map BlitEff.ext ++ [.lv_gpu_nxp_pxp_run])) ∧
    (∀ (dest_buf : Int) (dest_area : lv_area_t) (dest_stride : Int) (src_buf : Int)
        (src_area : lv_area_t) (src_stride : Int) (dsc : lv_draw_img_dsc_t) (cf : Nat),
      ∃ cs : List Call, (∀ c ∈ cs, c.isRegisterConfig = true) ∧
        (lv_pxp_blit_cover T dest_buf dest_area dest_stride src_buf src_area src_stride
          dsc cf).1 = .lv_gpu_nxp_pxp_reset :: (cs.map BlitEff.ext ++ [.lv_gpu_nxp_pxp_run])) ∧
    (∀ (dest_buf : Int) (dest_area : lv_area_t) (dest_stride : Int) (src_buf : Int)
        (src_area : lv_area_t) (src_stride : Int) (dsc : lv_draw_img_dsc_t) (cf : Nat),
      ∃ cs : List Call, (∀ c ∈ cs, c.isRegisterConfig = true) ∧
        lv_pxp_blit_cf T dest_buf dest_area dest_stride src_buf src_area src_stride dsc cf =
          .lv_gpu_nxp_pxp_reset :: (cs.map BlitEff.ext ++ [.lv_gpu_nxp_pxp_run])) :=
  ⟨fun _ _ _ _ _ => asyncShape_spec _ (fill_asyncShape ..),
   fun _ _ _ _ _ _ _ _ => asyncShape_spec _ (blit_asyncShape ..),
   fun _ _ _ _ _ _ _ _ => asyncShape_spec _ (blit_cover_asyncShape ..),
   fun _ _ _ _ _ _ _ _ => asyncShape_spec _ (blit_cf_asyncShape ..)⟩

/-- C12: `imxrt_pxp_interrupt` returns 0 in every case. When `PXP_COMPLETE_FLAG` is
not set it leaves the whole state, call log included, as it was (nothing
cleared, nothing signalled). When the flag is set it clears it with
`pxp_clear_status_flags` and signals: in the semaphore variant by
`xSemaphoreGiveFromISR` (the semaphore then holds a token, the flag `s_pxpIdle` is not
written), in the spin variant by storing `true` into `s_pxpIdle`. So it clears and
signals exactly when the flag is set. -/
theorem C12_handler_signals_iff_complete (v : Variant) (g : Gate) :
    (imxrt_pxp_interrupt v g).1 = 0 ∧
    (g.completeFlag = false → (imxrt_pxp_interrupt v g).2 = g) ∧
    (g.completeFlag = true →
      (imxrt_pxp_interrupt v g).2.completeFlag = false ∧
      (v = .freertos →
        (imxrt_pxp_interrupt v g).2.log = g.log ++
          [(.pxp_clear_status_flags, g.s_pxpIdle), (.xSemaphoreGiveFromISR, g.s_pxpIdle),
            (.portYIELD_FROM_ISR, g.s_pxpIdle)] ∧
        (imxrt_pxp_interrupt v g).2.semCount = (if g.semCount < 1 then g.semCount + 1
          else g.semCount) ∧
        0 < (imxrt_pxp_interrupt v g).2.semCount ∧
        (imxrt_pxp_interrupt v g).2.s_pxpIdle = g.s_pxpIdle) ∧
      (v = .baremetal →
        (imxrt_pxp_interrupt v g).2.log = g.log ++ [(.pxp_clear_status_flags, g.s_pxpIdle)] ∧
        (imxrt_pxp_interrupt v g).2.s_pxpIdle = true ∧
        (imxrt_pxp_interrupt v g).2.semCount = g.semCount)) ∧
    ((imxrt_pxp_interrupt v g).2 = g ↔ g.completeFlag = false) := by
  cases hf : g.completeFlag
  · simp [imxrt_pxp_interrupt, hf]
  · cases v
    · refine ⟨by simp [imxrt_pxp_interrupt, hf], by simp, fun _ => ⟨?_, ?_, by simp⟩, ?_⟩
      · simp [imxrt_pxp_interrupt, hf, pxp_clear_status_flags, xSemaphoreGiveFromISR, call]
      · intro _
        refine ⟨?_, ?_, ?_, ?_⟩ <;>
          simp [imxrt_pxp_interrupt, hf, pxp_clear_status_flags, xSemaphoreGiveFromISR, call]
        split <;> omega
      · constructor
        · intro h
          have := congrArg Gate.completeFlag h
          simp [imxrt_pxp_interrupt, hf, pxp_clear_status_flags, xSemaphoreGiveFromISR,
            call] at this
        · intro h; cases h
    · refine ⟨by simp [imxrt_pxp_interrupt, hf], by simp, fun _ => ⟨?_, by simp, ?_⟩, ?_⟩
      · simp [imxrt_pxp_interrupt, hf, pxp_clear_status_flags, call]
      · intro _
        simp [imxrt_pxp_interrupt, hf, pxp_clear_status_flags, call]
      · constructor
        · intro h
          have := congrArg Gate.completeFlag h
          simp [imxrt_pxp_interrupt, hf, pxp_clear_status_flags, call] at this
        · intro h; cases h

theorem wait_after_run_completion (v : Variant) (g : Gate) (rest : List Bool)
    (hs : v = .freertos → g.semCount = 0) :
    ∃ g2, _lv_gpu_nxp_pxp_wait v (_lv_gpu_nxp_pxp_run g) (true :: rest) = some ⟨g2, rest, 1⟩ ∧
      g2.s_pxpIdle = true ∧ (v = .freertos → g2.semCount = 0) ∧ g2.completeFlag = false := by
  cases v with
  | baremetal =>
    refine ⟨deliver .baremetal true (_lv_gpu_nxp_pxp_run g), ?_,
      deliver_baremetal_idle _ _ (Or.inr rfl), by simp, ?_⟩
    · have hi : (deliver .baremetal true (_lv_gpu_nxp_pxp_run g)).s_pxpIdle = true :=
        deliver_baremetal_idle _ _ (Or.inr rfl)
      simp only [_lv_gpu_nxp_pxp_wait, spinLoop]
      have h0 : (_lv_gpu_nxp_pxp_run g).s_pxpIdle = false := rfl
      simp only [h0, if_true]
      cases rest <;> simp [spinLoop, hi]
    · simp [deliver, imxrt_pxp_interrupt, hw_raise_complete, pxp_clear_status_flags, call]
  | freertos =>
    have h0 := hs rfl
    refine ⟨{ deliver .freertos true (call .xSemaphoreTake (_lv_gpu_nxp_pxp_run g)) with
      semCount := 0, s_pxpIdle := true }, ?_, rfl, fun _ => rfl, ?_⟩
    · rw [wait_freertos_busy _ _ rfl]
      have hc : (call .xSemaphoreTake (_lv_gpu_nxp_pxp_run g)).semCount = 0 := h0
      have hd : (deliver .freertos true
          (call .xSemaphoreTake (_lv_gpu_nxp_pxp_run g))).semCount = 1 := by
        simp [deliver, imxrt_pxp_interrupt, hw_raise_complete, pxp_clear_status_flags,
          xSemaphoreGiveFromISR, call, _lv_gpu_nxp_pxp_run, h0]
      simp only [takeLoop, hc, Nat.lt_irrefl, if_false]
      rw [takeLoop_of_pos _ _ _ (by rw [hd]; exact Nat.one_pos)]
      simp [hd]
    · simp [deliver, imxrt_pxp_interrupt, hw_raise_complete, pxp_clear_status_flags,
        xSemaphoreGiveFromISR, call]

theorem deliverAll_noCompletion (v : Variant) (d : List Bool) (g : Gate)
    (hd : noCompletion d = true) (hg : g.completeFlag = false) : deliverAll v d g = g := by
  induction d with
  | nil => rfl
  | cons c d ih =>
    simp only [noCompletion, List.all_cons, Bool.and_eq_true, Bool.not_eq_true'] at hd
    obtain ⟨hc, hrest⟩ := hd
    subst hc
    simp only [deliverAll, deliver_false_of_clear v g hg]
    exact ih hrest

theorem spinLoop_of_idle (g : Gate) (n : Nat) (l : List Bool) (h : g.s_pxpIdle = true) :
    spinLoop g n l = some ⟨g, l, n⟩ := by
  cases l <;> simp [spinLoop, h]

theorem deliver_freertos_true_fields (f : Gate) (hs : f.semCount = 0) :
    (deliver .freertos true f).semCount = 1 ∧ (deliver .freertos true f).completeFlag = false ∧
      (deliver .freertos true f).s_pxpIdle = f.s_pxpIdle := by
  simp [deliver, imxrt_pxp_interrupt, hw_raise_complete, pxp_clear_status_flags,
    xSemaphoreGiveFromISR, call, hs]

theorem deliver_baremetal_true_fields (b : Gate) :
    (deliver .baremetal true b).s_pxpIdle = true ∧
      (deliver .baremetal true b).completeFlag = false := by
  simp [deliver, imxrt_pxp_interrupt, hw_raise_complete, pxp_clear_status_flags, call]

/-- C20: `lv_gpu_nxp_pxp_blit_transform` takes exactly one of three paths. With no
recolor and no rotation it is `lv_pxp_blit_cf`; with recolor or rotation, full
opacity (`opa ≥ LV_OPA_MAX`) and a format with neither alpha nor chroma key it
is `lv_pxp_blit_cover`; in every remaining case it is `lv_pxp_blit_opa`. -/
theorem C20_blit_transform_dispatch (T : Toolkit) (temp_buf dest_buf : Int)
    (dest_area : lv_area_t) (dest_stride : Int) (src_buf : Int) (src_area : lv_area_t)
    (src_stride : Int) (dsc : lv_draw_img_dsc_t) (cf : Nat) :
    (¬ (dsc.recolor_opa ≠ T.LV_OPA_TRANSP ∨ dsc.angle ≠ 0) →
      lv_gpu_nxp_pxp_blit_transform T temp_buf dest_buf dest_area dest_stride src_buf src_area
          src_stride dsc cf =
        lv_pxp_blit_cf T dest_buf dest_area dest_stride src_buf src_area src_stride dsc cf) ∧
    ((dsc.recolor_opa ≠ T.LV_OPA_TRANSP ∨ dsc.angle ≠ 0) →
      (dsc.opa ≥ T.LV_OPA_MAX ∧ T.lv_img_cf_has_alpha cf = false ∧
        T.lv_img_cf_is_chroma_keyed cf = false) →
      lv_gpu_nxp_pxp_blit_transform T temp_buf dest_buf dest_area dest_stride src_buf src_area
          src_stride dsc cf =
        (lv_pxp_blit_cover T dest_buf dest_area dest_stride src_buf src_area src_stride
          dsc cf).1) ∧
    ((dsc.recolor_opa ≠ T.LV_OPA_TRANSP ∨ dsc.angle ≠ 0) →
      ¬ (dsc.opa ≥ T.LV_OPA_MAX ∧ T.lv_img_cf_has_alpha cf = false ∧
        T.lv_img_cf_is_chroma_keyed cf = false) →
      lv_gpu_nxp_pxp_blit_transform T temp_buf dest_buf dest_area dest_stride src_buf src_area
          src_stride dsc cf =
        lv_pxp_blit_opa T temp_buf dest_buf dest_area dest_stride src_buf src_area src_stride
          dsc cf) := by
  unfold lv_gpu_nxp_pxp_blit_transform
  refine ⟨fun h => ?_, fun h h2 => ?_, fun h h2 => ?_⟩
  · have hc : ((dsc.recolor_opa != T.LV_OPA_TRANSP) || (dsc.angle != 0)) = false := by
      simpa [not_or] using h
    simp [hc]
  · have hc : ((dsc.recolor_opa != T.LV_OPA_TRANSP) || (dsc.angle != 0)) = true := by
      simpa using h
    simp only [hc, if_true]
    rw [if_pos h2]
  · have hc : ((dsc.recolor_opa != T.LV_OPA_TRANSP) || (dsc.angle != 0)) = true := by
      simpa using h
    simp only [hc, if_true]
    rw [if_neg h2]

/-- With exactly one completion among the interrupts that arrive, the blocked
`xSemaphoreTake` and the spin loop wake up at the same interrupt. -/
theorem loops_one_true (d : List Bool) (f b : Gate) (n : Nat) (hf : f.semCount = 0)
    (hff : f.completeFlag = false) (hb : b.s_pxpIdle = false) (hbf : b.completeFlag = false)
    (hd : d.count true = 1) :
    ∃ f1 b1 rest k, takeLoop f n d = some ⟨f1, rest, k⟩ ∧ spinLoop b n d = some ⟨b1, rest, k⟩ ∧
      0 < k ∧ noCompletion rest = true ∧ f1.semCount = 0 ∧ f1.completeFlag = false ∧
      f1.s_pxpIdle = f.s_pxpIdle ∧ b1.s_pxpIdle = true ∧ b1.completeFlag = false := by
  induction d generalizing n with
  | nil => simp at hd
  | cons c d ih =>
    cases c with
    | false =>
      have hd1 : d.count true = 1 := by simpa using hd
      obtain ⟨f1, b1, rest, k, h1, h2, hk, hrest⟩ := ih (n + 1) hd1
      refine ⟨f1, b1, rest, k, ?_, ?_, hk, hrest⟩
      · simp only [takeLoop, hf, Nat.lt_irrefl, if_false, deliver_false_of_clear _ f hff]
        exact h1
      · simp only [spinLoop, hb, if_true, deliver_false_of_clear _ b hbf]
        exact h2
    | true =>
      have hd0 : d.count true = 0 := by simpa using hd
      have hno : noCompletion d = true := by
        have hmem : true ∉ d := List.count_eq_zero.mp hd0
        simp only [noCompletion, List.all_eq_true, Bool.not_eq_true']
        intro c hc
        cases c with
        | false => rfl
        | true => exact absurd hc hmem
      obtain ⟨hs1, hfl1, hid1⟩ := deliver_freertos_true_fields f hf
      obtain ⟨hbi, hbfl⟩ := deliver_baremetal_true_fields b
      refine ⟨{ deliver .freertos true f with semCount := 0 }, deliver .baremetal true b, d,
        n + 1, ?_, ?_, Nat.succ_pos _, hno, rfl, hfl1, hid1, hbi, hbfl⟩
      · simp only [takeLoop, hf, Nat.lt_irrefl, if_false]
        rw [takeLoop_of_pos _ _ _ (by rw [hs1]; exact Nat.one_pos)]
        simp [hs1]
      · simp only [spinLoop, hb, if_true]
        exact spinLoop_of_idle _ _ _ hbi

theorem exec_wait_step (v : Variant) (g g1 : Gate) (d : List Bool) (es : List Ev)
    (r : WaitResult) (obs : List Obs) (hw : _lv_gpu_nxp_pxp_wait v g d = some r)
    (he : exec v es (deliverAll v r.rest r.gate) = some (g1, obs)) :
    exec v (.wait d :: es) g = some (g1, ⟨r.gate.s_pxpIdle, r.blocked⟩ :: obs) := by
  simp only [exec, hw, he]

/-- Along a well-formed trace the two variants return from every `wait()` and
make the same observations. -/
theorem exec_variants_agree (tr : List Ev) (ph : Phase) (f b : Gate)
    (hwf : wellFormed ph tr = true) (hrel : gatesAgree ph f b) :
    ∃ f1 b1 obs, exec .freertos tr f = some (f1, obs) ∧ exec .baremetal tr b = some (b1, obs) := by
  induction tr generalizing ph f b with
  | nil => exact ⟨f, b, [], rfl, rfl⟩
  | cons e es ih =>
    cases e with
    | start =>
      cases ph with
      | idle =>
        obtain ⟨h1, h2, h3, h4, h5⟩ := hrel
        exact ih .started _ _ (by simpa [wellFormed] using hwf) ⟨rfl, rfl, h3, h4, h5⟩
      | started => simp [wellFormed] at hwf
      | signalled => simp [wellFormed] at hwf
    | irq c =>
      cases ph with
      | idle =>
        simp only [wellFormed, Bool.and_eq_true, Bool.not_eq_true'] at hwf
        obtain ⟨hc, hwf⟩ := hwf
        subst hc
        obtain ⟨h1, h2, h3, h4, h5⟩ := hrel
        simp only [exec, deliver_false_of_clear _ f h4, deliver_false_of_clear _ b h5]
        exact ih .idle f b hwf ⟨h1, h2, h3, h4, h5⟩
      | started =>
        obtain ⟨h1, h2, h3, h4, h5⟩ := hrel
        cases c with
        | false =>
          simp only [exec, deliver_false_of_clear _ f h4, deliver_false_of_clear _ b h5]
          exact ih .started f b (by simpa [wellFormed] using hwf) ⟨h1, h2, h3, h4, h5⟩
        | true =>
          obtain ⟨hs1, hfl1, hid1⟩ := deliver_freertos_true_fields f h3
          obtain ⟨hbi, hbfl⟩ := deliver_baremetal_true_fields b
          exact ih .signalled _ _ (by simpa [wellFormed] using hwf)
            ⟨by rw [hid1]; exact h1, hbi, hs1, hfl1, hbfl⟩
      | signalled =>
        simp only [wellFormed, Bool.and_eq_true, Bool.not_eq_true'] at hwf
        obtain ⟨hc, hwf⟩ := hwf
        subst hc
        obtain ⟨h1, h2, h3, h4, h5⟩ := hrel
        simp only [exec, deliver_false_of_clear _ f h4, deliver_false_of_clear _ b h5]
        exact ih .signalled f b hwf ⟨h1, h2, h3, h4, h5⟩
    | wait d =>
      cases ph with
      | idle =>
        simp only [wellFormed, Bool.and_eq_true] at hwf
        obtain ⟨hd, hwf⟩ := hwf
        obtain ⟨h1, h2, h3, h4, h5⟩ := hrel
        obtain ⟨f1, b1, obs, hF, hB⟩ := ih .idle f b hwf ⟨h1, h2, h3, h4, h5⟩
        refine ⟨f1, b1, ⟨true, 0⟩ :: obs, ?_, ?_⟩
        · simp only [exec, wait_of_idle .freertos f d h1, deliverAll_noCompletion _ d f hd h4,
            hF, h1]
        · simp only [exec, wait_of_idle .baremetal b d h2, deliverAll_noCompletion _ d b hd h5,
            hB, h2]
      | signalled =>
        simp only [wellFormed, Bool.and_eq_true] at hwf
        obtain ⟨hd, hwf⟩ := hwf
        obtain ⟨h1, h2, h3, h4, h5⟩ := hrel
        have hwF : _lv_gpu_nxp_pxp_wait .freertos f d =
            some ⟨{ call .xSemaphoreTake f with semCount := 0, s_pxpIdle := true }, d, 0⟩ := by
          rw [wait_freertos_busy f d h1,
            takeLoop_of_pos _ _ _ (by rw [call_semCount, h3]; exact Nat.one_pos)]
          simp [call_semCount, h3]
        obtain ⟨f1, b1, obs, hF, hB⟩ := ih .idle
          { call .xSemaphoreTake f with semCount := 0, s_pxpIdle := true } b hwf
          ⟨rfl, h2, rfl, h4, h5⟩
        refine ⟨f1, b1, ⟨true, 0⟩ :: obs, ?_, ?_⟩
        · refine exec_wait_step .freertos f f1 d es _ obs hwF ?_
          rw [deliverAll_noCompletion .freertos d _ hd (by exact h4)]
          exact hF
        · simp only [exec, wait_of_idle .baremetal b d h2, deliverAll_noCompletion _ d b hd h5,
            hB, h2]
      | started =>
        simp only [wellFormed, Bool.and_eq_true, decide_eq_true_eq] at hwf
        obtain ⟨hd, hwf⟩ := hwf
        obtain ⟨h1, h2, h3, h4, h5⟩ := hrel
        obtain ⟨fl, bl, rest, k, hT, hS, -, hrest, hfs, hff, hfi, hbi, hbf⟩ :=
          loops_one_true d (call .xSemaphoreTake f) b 0 h3 h4 h2 h5 hd
        have hwF : _lv_gpu_nxp_pxp_wait .freertos f d =
            some ⟨{ fl with s_pxpIdle := true }, rest, k⟩ := by
          rw [wait_freertos_busy f d h1, hT]
          rfl
        have hwB : _lv_gpu_nxp_pxp_wait .baremetal b d = some ⟨bl, rest, k⟩ := hS
        obtain ⟨f1, b1, obs, hF, hB⟩ := ih .idle { fl with s_pxpIdle := true } bl hwf
          ⟨rfl, hbi, hfs, hff, hbf⟩
        refine ⟨f1, b1, ⟨true, k⟩ :: obs, ?_, ?_⟩
        · refine exec_wait_step .freertos f f1 d es _ obs hwF ?_
          rw [deliverAll_noCompletion .freertos rest _ hrest (by exact hff)]
          exact hF
        · have hstep := exec_wait_step .baremetal b b1 d es _ obs hwB
            (by rw [deliverAll_noCompletion .baremetal rest _ hrest hbf]; exact hB)
          rw [hbi] at hstep
          exact hstep

theorem wellFormed_signalled_irqs (early late : List Bool) (rest : List Ev)
    (h : (early ++ late).count true = 0) :
    wellFormed .signalled (early.map .irq ++ (.wait late :: rest)) = wellFormed .idle rest := by
  induction early with
  | nil =>
    have hmem : true ∉ late := List.count_eq_zero.mp (by simpa using h)
    have hno : noCompletion late = true := by
      simp only [noCompletion, List.all_eq_true, Bool.not_eq_true']
      intro c hc
      cases c with
      | false => rfl
      | true => exact absurd hc hmem
    simp [wellFormed, hno]
  | cons c early ih =>
    cases c with
    | true => simp at h
    | false =>
      have h1 : (early ++ late).count true = 0 := by simpa using h
      simpa [wellFormed] using ih h1

theorem wellFormed_started_irqs (early late : List Bool) (rest : List Ev)
    (h : (early ++ late).count true = 1) :
    wellFormed .started (early.map .irq ++ (.wait late :: rest)) = wellFormed .idle rest := by
  induction early with
  | nil =>
    have h1 : late.count true = 1 := by simpa using h
    simp [wellFormed, h1]
  | cons c early ih =>
    cases c with
    | true =>
      have h0 : (early ++ late).count true = 0 := by simpa using h
      simpa [wellFormed] using wellFormed_signalled_irqs early late rest h0
    | false =>
      have h1 : (early ++ late).count true = 1 := by simpa using h
      simpa [wellFormed] using ih h1

/-- A trace of jobs each of which has exactly one completion is well formed. -/
theorem jobsTrace_wellFormed (js : List Job)
    (h : ∀ j ∈ js, (j.early ++ j.late).count true = 1) :
    wellFormed .idle (jobsTrace js) = true := by
  induction js with
  | nil => rfl
  | cons j js ih =>
    have hj := h j (List.mem_cons_self _ _)
    have hrest := ih (fun k hk => h k (List.mem_cons_of_mem _ hk))
    have hshape : jobsTrace (j :: js) =
        .start :: (j.early.map .irq ++ (.wait j.late :: jobsTrace js)) := by
      simp [jobsTrace, Job.events]
    rw [hshape]
    simp only [wellFormed]
    rw [wellFormed_started_irqs j.early j.late _ hj]
    exact hrest

/-- C21: the semaphore variant and the spin variant are interchangeable on
well-formed traces. From states as `interrupt_init` leaves them (flag Idle,
semaphore empty, no completion pending in the hardware), for every trace of
`start()`, interrupt and `wait()` events in which each `start()` is followed by
exactly one completion and by a `wait()` before the next `start()`, both variants
return from every `wait()` and make the same observations in the same order:
the same number of interrupts waited for (so the same calls return without
blocking) and the same flag value, which is Idle, after each return. -/
theorem C21_variants_interchangeable (tr : List Ev) (f b : Gate)
    (hwf : wellFormed .idle tr = true)
    (hf : f.s_pxpIdle = true ∧ f.semCount = 0 ∧ f.completeFlag = false)
    (hb : b.s_pxpIdle = true ∧ b.completeFlag = false) :
    ∃ f1 b1 obs, exec .freertos tr f = some (f1, obs) ∧
      exec .baremetal tr b = some (b1, obs) ∧ ∀ o ∈ obs, o.idle = true := by
  obtain ⟨f1, b1, obs, hF, hB⟩ :=
    exec_variants_agree tr .idle f b hwf ⟨hf.1, hb.1, hf.2.1, hf.2.2, hb.2⟩
  exact ⟨f1, b1, obs, hF, hB, exec_obs_idle .freertos tr f f1 obs hF⟩

/-- C21 at the states left by `interrupt_init` from boot, for a trace of two jobs
(one completed before its `wait()`, one while its `wait()` is pending, after an
interrupt without completion) followed by one more `wait()`. -/
theorem C21_variants_interchangeable_witness :
    ∃ f1 b1 obs,
      exec .freertos [.start, .irq true, .wait [], .start, .wait [false, true], .wait []]
        (_lv_gpu_nxp_pxp_interrupt_init .freertos true Gate.boot).2 = some (f1, obs) ∧
      exec .baremetal [.start, .irq true, .wait [], .start, .wait [false, true], .wait []]
        (_lv_gpu_nxp_pxp_interrupt_init .baremetal true Gate.boot).2 = some (b1, obs) ∧
      ∀ o ∈ obs, o.idle = true :=
  C21_variants_interchangeable
    [.start, .irq true, .wait [], .start, .wait [false, true], .wait []]
    (_lv_gpu_nxp_pxp_interrupt_init .freertos true Gate.boot).2
    (_lv_gpu_nxp_pxp_interrupt_init .baremetal true Gate.boot).2
    (by decide) (by decide) (by decide)

/-- Outside the well-formed traces the variants can differ: after a second
completion for one job, the next job's `wait()` returns in the semaphore
variant and does not return in the spin variant. -/
theorem variants_differ_on_double_signal_example :
    wellFormed .idle (doubleSignalThenNext .afterWait) = false ∧
    (exec .freertos (doubleSignalThenNext .afterWait)
      (_lv_gpu_nxp_pxp_interrupt_init .freertos true Gate.boot).2).isSome = true ∧
    (exec .baremetal (doubleSignalThenNext .afterWait)
      (_lv_gpu_nxp_pxp_interrupt_init .baremetal true Gate.boot).2).isSome = false := by
  decide

/-- One evaluation of `lv_pxp_blit_cf`: a format with alpha at reduced opacity
configures the process surface and selects `PXP_ALPHA_MULTIPLY`. -/
theorem blit_cf_multiply_example :
    (findAsBlend (lv_pxp_blit_cf sampleToolkit 4096 ⟨0, 0, 7, 7⟩ 8 8192 ⟨0, 0, 7, 7⟩ 8
      ⟨0, ⟨0, 0⟩, ⟨0, 0, 0, 0⟩, 0, 128⟩ 2)).map pxp_as_blend_config_s.alpha_mode
        = some .PXP_ALPHA_MULTIPLY ∧
    (findPsBuffer (lv_pxp_blit_cf sampleToolkit 4096 ⟨0, 0, 7, 7⟩ 8 8192 ⟨0, 0, 7, 7⟩ 8
      ⟨0, ⟨0, 0⟩, ⟨0, 0, 0, 0⟩, 0, 128⟩ 2)).map pxp_ps_buffer_config_s.buffer_addr
        = some 4096 := by
  decide

/-- C22: in `lv_pxp_blit_cf`, with `full = (dsc->opa ≥ LV_OPA_MAX)`, `a` = the format
has alpha and `k` = the format is chroma keyed. When `full ∧ ¬a ∧ ¬k` the process
surface is disabled (position `0xFFFF, 0xFFFF, 0, 0`, no buffer configured) and
the alpha mode stays `PXP_ALPHA_ROP`. In every other case the process surface is
configured on the destination buffer, with the address and the pitch of the
output buffer, at position `0, 0, dest_w - 1, dest_h - 1`, and the alpha mode is
`EMBEDDED` when `full ∧ a`, `MULTIPLY` when `¬full ∧ a`, `OVERRIDE` when `¬a`. So the
surface is disabled with mode `ROP` exactly when `full ∧ ¬a ∧ ¬k`. -/
theorem C22_blit_cf_surface_and_alpha (T : Toolkit) (dest_buf : Int) (dest_area : lv_area_t)
    (dest_stride : Int) (src_buf : Int) (src_area : lv_area_t) (src_stride : Int)
    (dsc : lv_draw_img_dsc_t) (cf : Nat) :
    ∃ out blend,
      findOutputBuffer (lv_pxp_blit_cf T dest_buf dest_area dest_stride src_buf src_area
        src_stride dsc cf) = some out ∧
      findAsBlend (lv_pxp_blit_cf T dest_buf dest_area dest_stride src_buf src_area
        src_stride dsc cf) = some blend ∧
      out.buffer0_addr = pixel_addr T dest_buf dest_stride dest_area ∧
      out.pitch_bytes = u32 (dest_stride * T.sizeof_lv_color_t) ∧
      ((dsc.opa ≥ T.LV_OPA_MAX ∧ T.lv_img_cf_has_alpha cf = false ∧
          T.lv_img_cf_is_chroma_keyed cf = false) →
        findPsPosition (lv_pxp_blit_cf T dest_buf dest_area dest_stride src_buf src_area
          src_stride dsc cf) = some (0xFFFF, 0xFFFF, 0, 0) ∧
        findPsBuffer (lv_pxp_blit_cf T dest_buf dest_area dest_stride src_buf src_area
          src_stride dsc cf) = none ∧
        blend.alpha_mode = .PXP_ALPHA_ROP) ∧
      (¬ (dsc.opa ≥ T.LV_OPA_MAX ∧ T.lv_img_cf_has_alpha cf = false ∧
          T.lv_img_cf_is_chroma_keyed cf = false) →
        (∃ ps, findPsBuffer (lv_pxp_blit_cf T dest_buf dest_area dest_stride src_buf src_area
            src_stride dsc cf) = some ps ∧
          ps.buffer_addr = out.buffer0_addr ∧ ps.pitch_bytes = out.pitch_bytes) ∧
        findPsPosition (lv_pxp_blit_cf T dest_buf dest_area dest_stride src_buf src_area
          src_stride dsc cf) =
            some (0, 0, u32 (T.lv_area_get_width dest_area - 1),
              u32 (T.lv_area_get_height dest_area - 1)) ∧
        blend.alpha_mode =
          (if T.lv_img_cf_has_alpha cf = true then
            (if dsc.opa ≥ T.LV_OPA_MAX then .PXP_ALPHA_EMBEDDED else .PXP_ALPHA_MULTIPLY)
          else .PXP_ALPHA_OVERRIDE)) ∧
      ((findPsBuffer (lv_pxp_blit_cf T dest_buf dest_area dest_stride src_buf src_area
            src_stride dsc cf) = none ∧ blend.alpha_mode = .PXP_ALPHA_ROP) ↔
        (dsc.opa ≥ T.LV_OPA_MAX ∧ T.lv_img_cf_has_alpha cf = false ∧
          T.lv_img_cf_is_chroma_keyed cf = false)) := by
  unfold lv_pxp_blit_cf
  by_cases hfull : dsc.opa ≥ T.LV_OPA_MAX <;>
    cases ha : T.lv_img_cf_has_alpha cf <;>
    cases hk : T.lv_img_cf_is_chroma_keyed cf <;>
    simp [hfull, ha, hk, findOutputBuffer, findAsBlend, findPsBuffer, findPsPosition]

end Pxp

namespace Phasor

open Pxp (lv_color_t lv_area_t lv_point_t u32)

/-- C13: for every indicator and every value `v`, after
`lv_phasor_set_indicator_value(obj, indic, v)` both `start_value` and `end_value` are `v`, and
`scale`, `type`, `opa` and `type_data` are as before (`inv_arc` and `inv_line` only read
the indicator). -/
theorem C13_set_indicator_value (K : Kit) (indic : lv_phasor_indicator_t) (v : Int) :
    (lv_phasor_set_indicator_value K indic v).1.start_value = v ∧
    (lv_phasor_set_indicator_value K indic v).1.end_value = v ∧
    (lv_phasor_set_indicator_value K indic v).1.scale = indic.scale ∧
    (lv_phasor_set_indicator_value K indic v).1.type = indic.type ∧
    (lv_phasor_set_indicator_value K indic v).1.opa = indic.opa ∧
    (lv_phasor_set_indicator_value K indic v).1.type_data = indic.type_data := by
  unfold lv_phasor_set_indicator_value
  simp only
  split_ifs <;> simp

/-- C14: for every indicator and every value `v`,
`lv_phasor_set_indicator_start_value(obj, indic, v)` sets `start_value` to `v` and leaves
`end_value` and every other field of the indicator as it was. -/
theorem C14_set_indicator_start_value (K : Kit) (indic : lv_phasor_indicator_t) (v : Int) :
    (lv_phasor_set_indicator_start_value K indic v).1 = { indic with start_value := v } ∧
    (lv_phasor_set_indicator_start_value K indic v).1.start_value = v ∧
    (lv_phasor_set_indicator_start_value K indic v).1.end_value = indic.end_value ∧
    (lv_phasor_set_indicator_start_value K indic v).1.scale = indic.scale ∧
    (lv_phasor_set_indicator_start_value K indic v).1.type = indic.type ∧
    (lv_phasor_set_indicator_start_value K indic v).1.opa = indic.opa ∧
    (lv_phasor_set_indicator_start_value K indic v).1.type_data = indic.type_data := by
  unfold lv_phasor_set_indicator_start_value
  simp only
  split_ifs <;> simp

/-- C15 fails as stated: `lv_phasor_set_indicator_end_value` with value 5 on an indicator
whose values are 0 leaves `start_value` at 0 and stores 5 into `end_value`. -/
theorem C15_end_value_counterexample :
    (lv_phasor_set_indicator_end_value sampleKit
        ⟨0, LV_PHASOR_INDICATOR_TYPE_PHASOR_LINE, 255, 0, 0, .phasor_line ⟨2, 0, ⟨0, 0, 0, 0⟩⟩⟩
        5).1.start_value = 0 ∧
    (lv_phasor_set_indicator_end_value sampleKit
        ⟨0, LV_PHASOR_INDICATOR_TYPE_PHASOR_LINE, 255, 0, 0, .phasor_line ⟨2, 0, ⟨0, 0, 0, 0⟩⟩⟩
        5).1.end_value = 5 := by
  decide

/-- C15 as amended: for every indicator and every value `v`, after
`lv_phasor_set_indicator_end_value(obj, indic, v)` the indicator's `end_value` is `v`, and
`start_value` and every other field are as before. -/
theorem C15_set_indicator_end_value_amended (K : Kit) (indic : lv_phasor_indicator_t)
    (v : Int) :
    (lv_phasor_set_indicator_end_value K indic v).1 = { indic with end_value := v } ∧
    (lv_phasor_set_indicator_end_value K indic v).1.end_value = v ∧
    (lv_phasor_set_indicator_end_value K indic v).1.start_value = indic.start_value ∧
    (lv_phasor_set_indicator_end_value K indic v).1.scale = indic.scale ∧
    (lv_phasor_set_indicator_end_value K indic v).1.type = indic.type ∧
    (lv_phasor_set_indicator_end_value K indic v).1.opa = indic.opa ∧
    (lv_phasor_set_indicator_end_value K indic v).1.type_data = indic.type_data := by
  unfold lv_phasor_set_indicator_end_value
  simp only
  split_ifs <;> simp

/-- C18 fails as stated: called with `type = LV_PHASOR_INDICATOR_TYPE_ARC`,
`lv_phasor_add_phasor_line` returns an indicator whose type is not
`LV_PHASOR_INDICATOR_TYPE_PHASOR_LINE`. -/
theorem C18_add_phasor_line_counterexample :
    (lv_phasor_add_phasor_line sampleKit ⟨[], []⟩ 0 LV_PHASOR_INDICATOR_TYPE_ARC 2
        ⟨31, 0, 0, 0⟩ 0).1.type ≠ LV_PHASOR_INDICATOR_TYPE_PHASOR_LINE := by
  decide

/-- C18 as amended: for every argument tuple, the indicator returned by
`lv_phasor_add_phasor_line` has `type` equal to the `type` argument (so it is a phasor
line indicator when the caller passes `LV_PHASOR_INDICATOR_TYPE_PHASOR_LINE`), is attached
to the given scale, has the `phasor_line` width, colour and `r_mod` of the
arguments, `opa = LV_OPA_COVER` and `start_value = end_value = 0`; it is the new head
of the indicator list. The sibling `lv_phasor_add_arc` fixes the type itself. -/
theorem C18_add_phasor_line_amended (K : Kit) (phasor : lv_phasor_t) (scale type width : Nat)
    (color : lv_color_t) (r_mod : Int) :
    (lv_phasor_add_phasor_line K phasor scale type width color r_mod).1.type = type ∧
    (type = LV_PHASOR_INDICATOR_TYPE_PHASOR_LINE →
      (lv_phasor_add_phasor_line K phasor scale type width color r_mod).1.type =
        LV_PHASOR_INDICATOR_TYPE_PHASOR_LINE) ∧
    (lv_phasor_add_phasor_line K phasor scale type width color r_mod).1.scale = scale ∧
    (lv_phasor_add_phasor_line K phasor scale type width color r_mod).1.type_data =
      .phasor_line ⟨width, r_mod, color⟩ ∧
    (lv_phasor_add_phasor_line K phasor scale type width color r_mod).1.opa = K.LV_OPA_COVER ∧
    (lv_phasor_add_phasor_line K phasor scale type width color r_mod).1.start_value = 0 ∧
    (lv_phasor_add_phasor_line K phasor scale type width color r_mod).1.end_value = 0 ∧
    (lv_phasor_add_phasor_line K phasor scale type width color r_mod).2.1.indicator_ll =
      (lv_phasor_add_phasor_line K phasor scale type width color r_mod).1 ::
        phasor.indicator_ll ∧
    (∀ w c r, (lv_phasor_add_arc K phasor scale w c r).1.type = LV_PHASOR_INDICATOR_TYPE_ARC) := by
  refine ⟨rfl, fun h => h, rfl, rfl, rfl, rfl, rfl, rfl, fun _ _ _ => rfl⟩

theorem countLines_append (a b : List DrawEff) :
    countLines (a ++ b) = countLines a + countLines b := by
  induction a with
  | nil => simp [countLines]
  | cons e es ih =>
    cases e <;> simp [countLines, ih]
    omega

theorem tick_body_countLines (K : Kit) (indicators : List lv_phasor_indicator_t)
    (scale : lv_phasor_scale_t) (p_center : lv_point_t) (r_out r_in_major : Int) (i : Nat)
    (major : Bool) :
    countLines (tick_body K indicators scale p_center r_out r_in_major i major).effects = 1 := by
  cases major <;> simp [tick_body, countLines]

theorem ticksEffects_countLines (K : Kit) (indicators : List lv_phasor_indicator_t)
    (scale : lv_phasor_scale_t) (p_center : lv_point_t) (r_out r_in_major : Int)
    (l : List Nat) (m : Nat → Bool) :
    countLines (ticksEffects (l.map (fun i =>
      tick_body K indicators scale p_center r_out r_in_major i (m i)))) = l.length := by
  induction l with
  | nil => rfl
  | cons i l ih =>
    simp only [List.map_cons, ticksEffects, countLines_append, tick_body_countLines, ih,
      List.length_cons]
    omega

/-- The value of `minor_cnt` at the start of iteration `i`. -/
theorem minor_cnt_step (nth i mc : Nat) (hnth : nth < 65536) (hi : i < 65535)
    (hinv : (nth = 0 → mc = 0xFFFF + i) ∧
      (nth ≠ 0 → mc = if i % nth = 0 then nth - 1 else i % nth - 1)) :
    (((mc + 1) % 4294967296 == nth) = decide (nth ≠ 0 ∧ i % nth = 0)) ∧
    ((nth = 0 → (if ((mc + 1) % 4294967296 == nth) = true then 0 else (mc + 1) % 4294967296)
        = 0xFFFF + (i + 1)) ∧
      (nth ≠ 0 → (if ((mc + 1) % 4294967296 == nth) = true then 0 else (mc + 1) % 4294967296)
        = if (i + 1) % nth = 0 then nth - 1 else (i + 1) % nth - 1)) := by
  by_cases h0 : nth = 0
  · subst h0
    have hmc := hinv.1 rfl
    subst hmc
    have hlt : (0xFFFF + i + 1) % 4294967296 = 0xFFFF + i + 1 := Nat.mod_eq_of_lt (by omega)
    have hne : ¬ (0xFFFF + i + 1 = 0) := by omega
    simp [hlt, hne]
    omega
  · have hmc := hinv.2 h0
    have hpos : 0 < nth := Nat.pos_of_ne_zero h0
    have hr : i % nth < nth := Nat.mod_lt _ hpos
    have hsucc : (i + 1) % nth = if i % nth + 1 = nth then 0 else i % nth + 1 := by
      rw [Nat.add_mod]
      by_cases h1 : nth = 1
      · subst h1; simp [Nat.mod_one]
      · have h1lt : 1 % nth = 1 := Nat.mod_eq_of_lt (by omega)
        rw [h1lt]
        split_ifs with he
        · rw [he]; exact Nat.mod_self _
        · exact Nat.mod_eq_of_lt (by omega)
    by_cases hz : i % nth = 0
    · have hmc2 : mc = nth - 1 := by rw [hmc, if_pos hz]
      have hlt : (mc + 1) % 4294967296 = nth := by
        rw [hmc2, Nat.sub_add_cancel hpos]
        exact Nat.mod_eq_of_lt (by omega)
      refine ⟨by simp [hlt, h0, hz], fun h => absurd h h0, fun _ => ?_⟩
      simp only [hlt, beq_self_eq_true, if_true]
      rw [hsucc, hz]
      by_cases h1 : nth = 1
      · subst h1; simp
      · have : ¬ (0 + 1 = nth) := by omega
        simp [this]
    · have hmc2 : mc = i % nth - 1 := by rw [hmc, if_neg hz]
      have hlt : (mc + 1) % 4294967296 = i % nth := by
        rw [hmc2, Nat.sub_add_cancel (Nat.pos_of_ne_zero hz)]
        exact Nat.mod_eq_of_lt (by omega)
      have hne : ¬ (i % nth = nth) := by omega
      refine ⟨by simp [hlt, h0, hz, hne], fun h => absurd h h0, fun _ => ?_⟩
      simp only [hlt, beq_iff_eq, hne, if_false]
      rw [hsucc]
      by_cases he : i % nth + 1 = nth
      · rw [if_pos he, if_pos rfl]; omega
      · rw [if_neg he, if_neg (by omega)]; omega

theorem tick_loop_closed (K : Kit) (indicators : List lv_phasor_indicator_t)
    (scale : lv_phasor_scale_t) (p_center : lv_point_t) (r_out r_in_major : Int)
    (hcnt : scale.tick_cnt < 65536) (hnth : scale.tick_major_nth < 65536)
    (fuel i mc : Nat) (hi : i ≤ scale.tick_cnt - 1) (hfuel : scale.tick_cnt - 1 - i ≤ fuel)
    (hinv : (scale.tick_major_nth = 0 → mc = 0xFFFF + i) ∧
      (scale.tick_major_nth ≠ 0 →
        mc = if i % scale.tick_major_nth = 0 then scale.tick_major_nth - 1
          else i % scale.tick_major_nth - 1)) :
    tick_loop K indicators scale p_center r_out r_in_major fuel i mc =
      some ((List.range' i (scale.tick_cnt - 1 - i)).map (fun k =>
        tick_body K indicators scale p_center r_out r_in_major k
          (decide (scale.tick_major_nth ≠ 0 ∧ k % scale.tick_major_nth = 0)))) := by
  induction fuel generalizing i mc with
  | zero =>
    have hz : scale.tick_cnt - 1 - i = 0 := by omega
    have hc : ¬ ((i : Int) < (scale.tick_cnt : Int) - 1) := by omega
    unfold tick_loop
    rw [if_neg hc, hz]
    rfl
  | succ fuel ih =>
    by_cases hlt : i < scale.tick_cnt - 1
    · have hc : (i : Int) < (scale.tick_cnt : Int) - 1 := by omega
      have hstep := minor_cnt_step scale.tick_major_nth i mc hnth (by omega) hinv
      have hi1 : (i + 1) % 65536 = i + 1 := Nat.mod_eq_of_lt (by omega)
      unfold tick_loop
      simp only [hc, if_true, hi1]
      rw [ih (i + 1) _ (by omega) (by omega) hstep.2]
      have hlen : scale.tick_cnt - 1 - i = (scale.tick_cnt - 1 - (i + 1)) + 1 := by omega
      rw [hlen, List.range'_succ]
      simp only [List.map_cons, hstep.1]
    · have hz : scale.tick_cnt - 1 - i = 0 := by omega
      have hc : ¬ ((i : Int) < (scale.tick_cnt : Int) - 1) := by omega
      unfold tick_loop
      rw [if_neg hc, hz]
      rfl

theorem minor_cnt_init (nth : Nat) :
    (nth = 0 → (if nth ≠ 0 then nth - 1 else 0xFFFF) = 0xFFFF + 0) ∧
    (nth ≠ 0 → (if nth ≠ 0 then nth - 1 else 0xFFFF) =
      if 0 % nth = 0 then nth - 1 else 0 % nth - 1) := by
  constructor
  · intro h; simp [h]
  · intro h; simp [h]

theorem ticksEffects_length_countLines (K : Kit) (indicators : List lv_phasor_indicator_t)
    (scale : lv_phasor_scale_t) (p_center : lv_point_t) (r_out r_in_major : Int) (n : Nat)
    (m : Nat → Bool) :
    countLines (ticksEffects ((List.range n).map (fun i =>
      tick_body K indicators scale p_center r_out r_in_major i (m i)))) = n := by
  rw [ticksEffects_countLines, List.length_range]

theorem draw_scale_ticks_closed (K : Kit) (phasor : lv_phasor_t) (p_center : lv_point_t)
    (r_edge : Int) (scale : lv_phasor_scale_t) (hcnt : scale.tick_cnt < 65536)
    (hnth : scale.tick_major_nth < 65536) :
    ∃ effs, draw_scale_ticks K phasor p_center r_edge scale =
        some ((List.range (scale.tick_cnt - 1)).map (fun i =>
          tick_body K phasor.indicator_ll scale p_center r_edge
            (K.to_coord (r_edge - scale.tick_major_length)) i
            (decide (scale.tick_major_nth ≠ 0 ∧ i % scale.tick_major_nth = 0))), effs) ∧
      countLines effs = scale.tick_cnt - 1 := by
  have h := tick_loop_closed K phasor.indicator_ll scale p_center r_edge
    (K.to_coord (r_edge - scale.tick_major_length)) hcnt hnth 65536 0
    (if scale.tick_major_nth ≠ 0 then scale.tick_major_nth - 1 else 0xFFFF)
    (Nat.zero_le _) (by omega) (minor_cnt_init _)
  rw [Nat.sub_zero, ← List.range_eq_range'] at h
  unfold draw_scale_ticks
  simp only [h]
  refine ⟨_, rfl, ?_⟩
  rw [countLines_append, countLines_append, ticksEffects_length_countLines]
  simp [countLines]

theorem foldl_no_scale_lines (K : Kit) (scale : lv_phasor_scale_t) (value_of_line : Int)
    (l : List lv_phasor_indicator_t) (st : Int × lv_color_t)
    (h : ∀ ind ∈ l, ind.type ≠ LV_PHASOR_INDICATOR_TYPE_SCALE_LINES) :
    l.foldl (scale_lines_step K scale value_of_line) st = st := by
  induction l generalizing st with
  | nil => rfl
  | cons ind l ih =>
    have h1 : scale_lines_step K scale value_of_line st ind = st := by
      unfold scale_lines_step
      rw [if_pos (h ind (List.mem_cons_self _ _))]
    rw [List.foldl_cons, h1]
    exact ih st (fun k hk => h k (List.mem_cons_of_mem _ hk))

/-- C16 (the code departs from the claim): for a scale whose ticks were set with
`lv_phasor_set_scale_ticks(obj, scale, cnt, ...)`, one pass of the loop body of
`draw_ticks_and_labels` over that scale ends (the `for` loop is left by its
condition) and draws `cnt - 1` tick lines, none for `cnt = 0`: one `lv_draw_line`
for each `i` with `i < tick_cnt - 1`, not `cnt` of them. -/
theorem C16_tick_lines_drawn (K : Kit) (phasor : lv_phasor_t) (p_center : lv_point_t)
    (r_edge : Int) (scale : lv_phasor_scale_t) (cnt width len : Nat) (color : lv_color_t)
    (hcnt : cnt < 65536) (hnth : scale.tick_major_nth < 65536) :
    ∃ ts effs, draw_scale_ticks K phasor p_center r_edge
        (lv_phasor_set_scale_ticks scale cnt width len color).1 = some (ts, effs) ∧
      ts.length = cnt - 1 ∧ countLines effs = cnt - 1 := by
  obtain ⟨effs, h, hc⟩ := draw_scale_ticks_closed K phasor p_center r_edge
    (lv_phasor_set_scale_ticks scale cnt width len color).1 hcnt hnth
  exact ⟨_, effs, h, by simp [lv_phasor_set_scale_ticks], hc⟩

/-- C16 at `cnt = 12` (also the default of `lv_phasor_add_scale`): eleven tick lines are drawn. -/
theorem C16_tick_lines_drawn_witness :
    ∃ ts effs, draw_scale_ticks sampleKit ⟨[], []⟩ ⟨100, 100⟩ 100
        (lv_phasor_set_scale_ticks (lv_phasor_add_scale ⟨[], []⟩).1 12 2 10 ⟨0, 0, 0, 0⟩).1
          = some (ts, effs) ∧
      ts.length = 11 ∧ countLines effs = 11 :=
  C16_tick_lines_drawn sampleKit ⟨[], []⟩ ⟨100, 100⟩ 100 (lv_phasor_add_scale ⟨[], []⟩).1
    12 2 10 ⟨0, 0, 0, 0⟩ (by decide) (by decide)

theorem scale_lines_step_not_covering (K : Kit) (scale : lv_phasor_scale_t) (value_of_line : Int)
    (st : Int × lv_color_t) (ind : lv_phasor_indicator_t)
    (h : ind.type = LV_PHASOR_INDICATOR_TYPE_SCALE_LINES →
      ¬ (value_of_line ≥ ind.start_value ∧ value_of_line ≤ ind.end_value)) :
    scale_lines_step K scale value_of_line st ind = st := by
  unfold scale_lines_step
  by_cases ht : ind.type ≠ LV_PHASOR_INDICATOR_TYPE_SCALE_LINES
  · rw [if_pos ht]
  · rw [if_neg ht, if_neg (h (not_not.mp ht))]

/-- Indicators that are no scale-lines indicators, or do not cover the value
of a tick, leave its width and colour as they are. -/
theorem foldl_not_covering (K : Kit) (scale : lv_phasor_scale_t) (value_of_line : Int)
    (l : List lv_phasor_indicator_t) (st : Int × lv_color_t)
    (h : ∀ ind ∈ l, ind.type = LV_PHASOR_INDICATOR_TYPE_SCALE_LINES →
      ¬ (value_of_line ≥ ind.start_value ∧ value_of_line ≤ ind.end_value)) :
    l.foldl (scale_lines_step K scale value_of_line) st = st := by
  induction l generalizing st with
  | nil => rfl
  | cons ind l ih =>
    rw [List.foldl_cons, scale_lines_step_not_covering K scale value_of_line st ind
      (h ind (List.mem_cons_self _ _))]
    exact ih st (fun k hk => h k (List.mem_cons_of_mem _ hk))

/-- The value of `draw_scale_ticks`: the loop is left by its condition, and the
tick with index `i` is handled as major exactly when `tick_major_nth ≠ 0` and
`i mod tick_major_nth = 0`. -/
theorem draw_scale_ticks_eq (K : Kit) (phasor : lv_phasor_t) (p_center : lv_point_t)
    (r_edge : Int) (scale : lv_phasor_scale_t) (hcnt : scale.tick_cnt < 65536)
    (hnth : scale.tick_major_nth < 65536) :
    draw_scale_ticks K phasor p_center r_edge scale =
      some ((List.range (scale.tick_cnt - 1)).map (fun i =>
          tick_body K phasor.indicator_ll scale p_center r_edge
            (K.to_coord (r_edge - scale.tick_major_length)) i
            (decide (scale.tick_major_nth ≠ 0 ∧ i % scale.tick_major_nth = 0))),
        [.lv_draw_mask_radius_init .inner_minor_mask
           ⟨K.to_coord (p_center.x - K.to_coord (r_edge - scale.tick_length)),
            K.to_coord (p_center.y - K.to_coord (r_edge - scale.tick_length)),
            K.to_coord (p_center.x + K.to_coord (r_edge - scale.tick_length)),
            K.to_coord (p_center.y + K.to_coord (r_edge - scale.tick_length))⟩ true,
         .lv_draw_mask_radius_init .inner_major_mask
           ⟨K.to_coord (p_center.x - K.to_coord (r_edge - scale.tick_major_length)),
            K.to_coord (p_center.y - K.to_coord (r_edge - scale.tick_major_length)),
            K.to_coord (p_center.x + K.to_coord (r_edge - scale.tick_major_length) - 1),
            K.to_coord (p_center.y + K.to_coord (r_edge - scale.tick_major_length) - 1)⟩ true,
         .lv_draw_mask_radius_init .outer_mask
           ⟨K.to_coord (p_center.x - r_edge), K.to_coord (p_center.y - r_edge),
            K.to_coord (p_center.x + r_edge - 1), K.to_coord (p_center.y + r_edge - 1)⟩ false,
         .lv_draw_mask_add .outer_mask .outer_mask_id] ++
        ticksEffects ((List.range (scale.tick_cnt - 1)).map (fun i =>
          tick_body K phasor.indicator_ll scale p_center r_edge
            (K.to_coord (r_edge - scale.tick_major_length)) i
            (decide (scale.tick_major_nth ≠ 0 ∧ i % scale.tick_major_nth = 0)))) ++
        [.lv_draw_mask_free_param .inner_minor_mask,
         .lv_draw_mask_free_param .inner_major_mask,
         .lv_draw_mask_free_param .outer_mask,
         .lv_draw_mask_remove_id .outer_mask_id]) := by
  have h := tick_loop_closed K phasor.indicator_ll scale p_center r_edge
    (K.to_coord (r_edge - scale.tick_major_length)) hcnt hnth 65536 0
    (if scale.tick_major_nth ≠ 0 then scale.tick_major_nth - 1 else 0xFFFF)
    (Nat.zero_le _) (by omega) (minor_cnt_init _)
  rw [Nat.sub_zero, ← List.range_eq_range'] at h
  unfold draw_scale_ticks
  simp only [h]

theorem ticksEffects_eq_flatten (ts : List Tick) :
    ticksEffects ts = (ts.map Tick.effects).flatten := by
  induction ts with
  | nil => rfl
  | cons t ts ih => simp [ticksEffects, ih]

/-- C17 fails as stated: on a scale with every third tick major (major colour
`(31, 0, 0)`, major width 4) and a scale-lines indicator that covers the value of
tick 0 (colour `(0, 0, 31)`, width modifier 2), tick 0 satisfies `nth ≠ 0` and
`0 mod nth = 0` and its calls (the eight calls after the four that set up the
masks) include the label and the major mask, but its `lv_draw_line` is issued with
the indicator's colour and width 6, not with the major colour and width. -/
theorem C17_major_colour_counterexample :
    sampleScale.tick_major_nth ≠ 0 ∧ 0 % sampleScale.tick_major_nth = 0 ∧
    sampleScale.tick_major_color = ⟨31, 0, 0, 0⟩ ∧
    sampleKit.to_coord sampleScale.tick_major_width = 4 ∧
    (draw_scale_ticks sampleKit ⟨[sampleScale], [sampleScaleLines]⟩ ⟨100, 100⟩ 100
      sampleScale).map (fun r => (r.2.drop 4).take 8) =
      some [.lv_draw_mask_remove_id .outer_mask_id,
        .lv_event_send .LV_EVENT_DRAW_PART_BEGIN
          ⟨0, 0, ⟨100, 100⟩, ⟨330, 100⟩, some 0, ⟨0, 0, 31, 0⟩, 6⟩,
        .lv_draw_label ⟨175, 100, 175, 100⟩ 0,
        .lv_draw_mask_add .outer_mask .outer_mask_id,
        .lv_draw_mask_add .inner_major_mask .inner_act_mask_id,
        .lv_draw_line ⟨0, 0, 31, 0⟩ 6 ⟨330, 100⟩ ⟨100, 100⟩,
        .lv_draw_mask_remove_id .inner_act_mask_id,
        .lv_event_send .LV_EVENT_DRAW_MAIN_END
          ⟨0, 0, ⟨100, 100⟩, ⟨330, 100⟩, some 0, ⟨0, 0, 31, 0⟩, 6⟩] := by
  refine ⟨by decide, by decide, by decide, by decide, ?_⟩
  rw [draw_scale_ticks_eq sampleKit _ _ _ sampleScale (by decide) (by decide)]
  decide

/-- C17 as amended: one pass of `draw_ticks_and_labels` over a scale with
`tick_major_nth = nth` ends and issues exactly the three mask initialisations (the
major mask from `tick_major_length`), then the calls of the ticks `i < tick_cnt - 1` in
order, then the mask clean-up. For tick `i`: when `nth ≠ 0` and `i mod nth = 0` its
calls are those of a major tick (outer mask removed, value label drawn, outer
mask added again, the line drawn under the major inner mask), and those of a
minor tick (no label, the line drawn under the minor inner mask) otherwise. The
line is drawn with the width and colour obtained from the major width and
colour (minor for a minor tick) by the scale-lines indicators in list order
from the tail; these stay as they are when no scale-lines indicator covers the
value of the tick. With `nth = 0` no label is drawn, for every tick count up
to 65535. -/
theorem C17_major_every_nth_amended (K : Kit) (phasor : lv_phasor_t) (p_center : lv_point_t)
    (r_edge : Int) (scale : lv_phasor_scale_t) (hcnt : scale.tick_cnt < 65536)
    (hnth : scale.tick_major_nth < 65536) :
    ∃ ts : List Tick,
      draw_scale_ticks K phasor p_center r_edge scale = some (ts,
        [.lv_draw_mask_radius_init .inner_minor_mask
           ⟨K.to_coord (p_center.x - K.to_coord (r_edge - scale.tick_length)),
            K.to_coord (p_center.y - K.to_coord (r_edge - scale.tick_length)),
            K.to_coord (p_center.x + K.to_coord (r_edge - scale.tick_length)),
            K.to_coord (p_center.y + K.to_coord (r_edge - scale.tick_length))⟩ true,
         .lv_draw_mask_radius_init .inner_major_mask
           ⟨K.to_coord (p_center.x - K.to_coord (r_edge - scale.tick_major_length)),
            K.to_coord (p_center.y - K.to_coord (r_edge - scale.tick_major_length)),
            K.to_coord (p_center.x + K.to_coord (r_edge - scale.tick_major_length) - 1),
            K.to_coord (p_center.y + K.to_coord (r_edge - scale.tick_major_length) - 1)⟩ true,
         .lv_draw_mask_radius_init .outer_mask
           ⟨K.to_coord (p_center.x - r_edge), K.to_coord (p_center.y - r_edge),
            K.to_coord (p_center.x + r_edge - 1), K.to_coord (p_center.y + r_edge - 1)⟩ false,
         .lv_draw_mask_add .outer_mask .outer_mask_id] ++
        (ts.map Tick.effects).flatten ++
        [.lv_draw_mask_free_param .inner_minor_mask,
         .lv_draw_mask_free_param .inner_major_mask,
         .lv_draw_mask_free_param .outer_mask,
         .lv_draw_mask_remove_id .outer_mask_id]) ∧
      ts.length = scale.tick_cnt - 1 ∧
      (∀ i, i < scale.tick_cnt - 1 →
        ∃ (t : Tick) (p_outer : lv_point_t) (label_cord : lv_area_t) (st : Int × lv_color_t),
          ts[i]? = some t ∧
          ((scale.tick_major_nth ≠ 0 ∧ i % scale.tick_major_nth = 0) →
            st = phasor.indicator_ll.reverse.foldl
              (scale_lines_step K scale
                (K.lv_map i 0 ((scale.tick_cnt : Int) - 1) scale.min scale.max))
              (K.to_coord scale.tick_major_width, scale.tick_major_color) ∧
            t.effects =
              [.lv_draw_mask_remove_id .outer_mask_id,
               .lv_event_send .LV_EVENT_DRAW_PART_BEGIN
                 ⟨i, K.lv_map i 0 ((scale.tick_cnt : Int) - 1) scale.min scale.max, p_center,
                   p_outer,
                   some (K.lv_map i 0 ((scale.tick_cnt : Int) - 1) scale.min scale.max),
                   st.2, st.1⟩,
               .lv_draw_label label_cord
                 (K.lv_map i 0 ((scale.tick_cnt : Int) - 1) scale.min scale.max),
               .lv_draw_mask_add .outer_mask .outer_mask_id,
               .lv_draw_mask_add .inner_major_mask .inner_act_mask_id,
               .lv_draw_line st.2 st.1 p_outer p_center,
               .lv_draw_mask_remove_id .inner_act_mask_id,
               .lv_event_send .LV_EVENT_DRAW_MAIN_END
                 ⟨i, K.lv_map i 0 ((scale.tick_cnt : Int) - 1) scale.min scale.max, p_center,
                   p_outer,
                   some (K.lv_map i 0 ((scale.tick_cnt : Int) - 1) scale.min scale.max),
                   st.2, st.1⟩]) ∧
          (¬ (scale.tick_major_nth ≠ 0 ∧ i % scale.tick_major_nth = 0) →
            st = phasor.indicator_ll.reverse.foldl
              (scale_lines_step K scale
                (K.lv_map i 0 ((scale.tick_cnt : Int) - 1) scale.min scale.max))
              (K.to_coord scale.tick_width, scale.tick_color) ∧
            t.effects =
              [.lv_event_send .LV_EVENT_DRAW_PART_BEGIN
                 ⟨i, K.lv_map i 0 ((scale.tick_cnt : Int) - 1) scale.min scale.max, p_center,
                   p_outer, none, st.2, st.1⟩,
               .lv_draw_mask_add .inner_minor_mask .inner_act_mask_id,
               .lv_draw_line st.2 st.1 p_outer p_center,
               .lv_draw_mask_remove_id .inner_act_mask_id,
               .lv_event_send .LV_EVENT_DRAW_MAIN_END
                 ⟨i, K.lv_map i 0 ((scale.tick_cnt : Int) - 1) scale.min scale.max, p_center,
                   p_outer, none, st.2, st.1⟩])) ∧
      (∀ (value_of_line : Int) (st : Int × lv_color_t),
        (∀ ind ∈ phasor.indicator_ll, ind.type = LV_PHASOR_INDICATOR_TYPE_SCALE_LINES →
          ¬ (value_of_line ≥ ind.start_value ∧ value_of_line ≤ ind.end_value)) →
        phasor.indicator_ll.reverse.foldl (scale_lines_step K scale value_of_line) st = st) ∧
      (scale.tick_major_nth = 0 →
        ∀ t ∈ ts, ∀ (label_cord : lv_area_t) (text : Int),
          DrawEff.lv_draw_label label_cord text ∉ t.effects) := by
  refine ⟨(List.range (scale.tick_cnt - 1)).map (fun i =>
    tick_body K phasor.indicator_ll scale p_center r_edge
      (K.to_coord (r_edge - scale.tick_major_length)) i
      (decide (scale.tick_major_nth ≠ 0 ∧ i % scale.tick_major_nth = 0))), ?_, by simp,
    ?_, ?_, ?_⟩
  · rw [draw_scale_ticks_eq K phasor p_center r_edge scale hcnt hnth, ticksEffects_eq_flatten]
  · intro i hi
    by_cases hm : scale.tick_major_nth ≠ 0 ∧ i % scale.tick_major_nth = 0
    · refine ⟨tick_body K phasor.indicator_ll scale p_center r_edge
        (K.to_coord (r_edge - scale.tick_major_length)) i true, _, _, _, ?_,
        fun _ => ⟨rfl, rfl⟩, fun h => absurd hm h⟩
      rw [List.getElem?_map, List.getElem?_range hi]
      simp [hm]
    · refine ⟨tick_body K phasor.indicator_ll scale p_center r_edge
        (K.to_coord (r_edge - scale.tick_major_length)) i false, _, ⟨0, 0, 0, 0⟩, _, ?_,
        fun h => absurd h hm, fun _ => ⟨rfl, rfl⟩⟩
      rw [List.getElem?_map, List.getElem?_range hi]
      simp only [Option.map_some', decide_eq_false hm]
  · intro value_of_line st h
    exact foldl_not_covering K scale value_of_line _ st
      (fun ind hi => h ind (List.mem_reverse.mp hi))
  · intro h0 t ht label_cord text
    obtain ⟨i, -, rfl⟩ := List.mem_map.mp ht
    have hd : decide (scale.tick_major_nth ≠ 0 ∧ i % scale.tick_major_nth = 0) = false := by
      simp [h0]
    rw [hd]
    simp [tick_body]

/-- C17 as amended, at a scale with 13 ticks and every third tick major: the
pass ends and handles twelve ticks. -/
theorem C17_major_every_nth_amended_witness :
    ∃ ts : List Tick,
      (draw_scale_ticks sampleKit ⟨[sampleScale], []⟩ ⟨100, 100⟩ 100 sampleScale).map
        Prod.fst = some ts ∧ ts.length = 12 := by
  obtain ⟨ts, h, hl, -⟩ := C17_major_every_nth_amended sampleKit ⟨[sampleScale], []⟩
    ⟨100, 100⟩ 100 sampleScale (by decide) (by decide)
  exact ⟨ts, by rw [h]; rfl, hl⟩

end Phasor
